import Mathlib

/-!
# Sunaba: resource-lifecycle core

A shallow embedding of the deferred-destruction queue (`deletion_queue.h`), the growable
descriptor allocator (`vk_descriptors.cpp`), and the frame loop, the registrations made at
start-up and the teardown (`vk_engine.cpp`).

Conventions of the embedding

* `std::vector` / `std::deque` are lists; `push_back` appends at the end, `back` is the last
  element, `pop_back` drops the last element.
* `uint32_t` values are naturals; arithmetic that can wrap is reduced modulo `2 ^ 32`.
* A `std::function<void()>` is a transformer of the world it closes over.
* The Vulkan driver is an external collaborator.  Code that calls it is parameterised by a
  record of driver entry points acting on a driver state `D`; every call the program makes is
  appended to a trace, so that "which calls were made, in which order" is observable.
* A call that ends the process (`abort` inside `VK_CHECK`) yields `Outcome.abort`, carrying
  the world as it was when the process died.
-/

namespace Sunaba

/-! ## deletion_queue.h -/

/-- The struct `DeletionQueue`: a deque of callbacks over the world `W` they act on. -/
structure DeletionQueue (W : Type) where
  deletors : List (W → W)

namespace DeletionQueue

/-- A default-constructed queue. -/
def empty {W : Type} : DeletionQueue W := { deletors := [] }

/-- The member `push_function`: `deletors.push_back(function)`. -/
def push_function {W : Type} (q : DeletionQueue W) (function : W → W) : DeletionQueue W :=
  { deletors := q.deletors ++ [function] }

/-- The reverse-iterator loop of `flush`.  `n` is the distance of `it` from `rend()`, so the
element under the iterator is `deletors[n - 1]`; each round calls it and steps the iterator. -/
def flushLoop {W : Type} (deletors : List (W → W)) : Nat → W → W
  | 0, w => w
  | n + 1, w =>
    match deletors[n]? with
    | some f => flushLoop deletors n (f w)
    | none => flushLoop deletors n w

/-- The member `flush`: run the loop from `rbegin()`, then `deletors.clear()`. -/
def flush {W : Type} (q : DeletionQueue W) (w : W) : DeletionQueue W × W :=
  ({ deletors := [] }, flushLoop q.deletors q.deletors.length w)

/-- A release action that appends its label to a log. -/
def logAction {α : Type} (a : α) : List α → List α := fun log => log ++ [a]

end DeletionQueue

/-! ## Vulkan results, handles and the driver boundary -/

/-- The C enum `VkResult`; the constants below carry the values of the Vulkan headers. -/
abbrev VkResult := Int

abbrev VK_SUCCESS : VkResult := 0
abbrev VK_NOT_READY : VkResult := 1
abbrev VK_TIMEOUT : VkResult := 2
abbrev VK_ERROR_OUT_OF_HOST_MEMORY : VkResult := -1
abbrev VK_ERROR_OUT_OF_DEVICE_MEMORY : VkResult := -2
abbrev VK_ERROR_DEVICE_LOST : VkResult := -4
abbrev VK_ERROR_FRAGMENTED_POOL : VkResult := -12
abbrev VK_ERROR_OUT_OF_DATE_KHR : VkResult := -1000001004
abbrev VK_ERROR_OUT_OF_POOL_MEMORY : VkResult := -1000069000
abbrev VK_SUBOPTIMAL_KHR : VkResult := 1000001003

abbrev VkDescriptorPool := Nat
abbrev VkDescriptorSet := Nat
abbrev VkDescriptorSetLayout := Nat
abbrev VkFence := Nat
abbrev VkSemaphore := Nat
abbrev VkCommandBuffer := Nat
abbrev VkImageView := Nat

/-- The struct `DescriptorAllocatorGrowable::PoolSizeRatio`.  The `float` is kept as the
rational it denotes; the embedding stores and compares ratios and does no arithmetic on them
(the product `ratio * setCount` is formed on the driver side of the boundary). -/
structure PoolSizeRatio where
  descriptorType : Nat
  ratio : Rat
  deriving DecidableEq, Repr

/-- The objects that the callbacks registered on the engine queue during `init` release: the
memory allocator (`init_vulkan`), the draw image and its view (`init_swapchain`), the immediate
command pool and the command pool of frame slot `i` (`init_commands`), the fence and the two
semaphores of frame slot `i` and the immediate fence (`init_sync_structures`), and the overlay
(`init_imgui`). -/
inductive EngineRelease where
  | vmaAllocator
  | drawImage
  | immediateCommandPool
  | frameCommandPool (i : Nat)
  | frameSyncStructures (i : Nat)
  | immediateFence
  | imgui
  deriving DecidableEq, Repr

/-- One entry of the trace: a call the program made, with the result it got back. -/
inductive Call where
  | createDescriptorPool (maxSets : Nat) (result : VkResult) (pool : VkDescriptorPool)
  | allocateDescriptorSets (pool : VkDescriptorPool) (layout : VkDescriptorSetLayout)
      (result : VkResult)
  | resetDescriptorPool (pool : VkDescriptorPool)
  | destroyDescriptorPool (pool : VkDescriptorPool)
  | waitForFences (fence : VkFence) (result : VkResult)
  | resetFences (fence : VkFence) (result : VkResult)
  | acquireNextImage (semaphore : VkSemaphore) (result : VkResult) (imageIndex : Nat)
  | resetCommandBuffer (cmd : VkCommandBuffer) (result : VkResult)
  | beginCommandBuffer (cmd : VkCommandBuffer) (result : VkResult)
  | recordCommands (cmd : VkCommandBuffer) (imageIndex : Nat)
  | endCommandBuffer (cmd : VkCommandBuffer) (result : VkResult)
  | queueSubmit2 (cmd : VkCommandBuffer) (waitSemaphore signalSemaphore : VkSemaphore)
      (fence : VkFence) (result : VkResult)
  | queuePresent (waitSemaphore : VkSemaphore) (imageIndex : Nat) (result : VkResult)
  | deviceWaitIdle
  | destroySwapchain
  | destroyImageView (view : VkImageView)
  | buildSwapchain (width height : Nat)
  | destroySurface
  | destroyDevice
  | destroyDebugUtilsMessenger
  | destroyInstance
  | destroyWindow
  | releaseEngineObject (what : EngineRelease)
  deriving DecidableEq, Repr

/-- The entry points of the driver (and of the window system) that the program calls, as
functions on a driver state `D`.  Nothing is assumed about them. -/
structure Driver (D : Type) where
  vkCreateDescriptorPool : D → Nat → List PoolSizeRatio → VkResult × VkDescriptorPool × D
  vkAllocateDescriptorSets :
    D → VkDescriptorPool → VkDescriptorSetLayout → VkResult × VkDescriptorSet × D
  vkResetDescriptorPool : D → VkDescriptorPool → D
  vkDestroyDescriptorPool : D → VkDescriptorPool → D
  vkWaitForFences : D → VkFence → VkResult × D
  vkResetFences : D → VkFence → VkResult × D
  vkAcquireNextImageKHR : D → VkSemaphore → VkResult × Nat × D
  vkResetCommandBuffer : D → VkCommandBuffer → VkResult × D
  vkBeginCommandBuffer : D → VkCommandBuffer → VkResult × D
  recordCommands : D → VkCommandBuffer → Nat → D
  vkEndCommandBuffer : D → VkCommandBuffer → VkResult × D
  vkQueueSubmit2 : D → VkCommandBuffer → VkSemaphore → VkSemaphore → VkFence → VkResult × D
  vkQueuePresentKHR : D → VkSemaphore → Nat → VkResult × D
  vkDeviceWaitIdle : D → D
  vkDestroySwapchainKHR : D → D
  vkDestroyImageView : D → VkImageView → D
  getWindowSize : D → Nat × Nat
  buildSwapchain : D → Nat → Nat → List VkImageView × D
  vkDestroySurfaceKHR : D → D
  vkDestroyDevice : D → D
  destroy_debug_utils_messenger : D → D
  vkDestroyInstance : D → D
  SDL_DestroyWindow : D → D
  releaseEngineObject : D → EngineRelease → D

/-- The driver state together with the trace of the calls made so far. -/
structure World (D : Type) where
  dev : D
  trace : List Call

/-- How a call of the program ends: it returns a value, the process is aborted, or an array
is indexed out of bounds. -/
inductive Outcome (W α : Type) where
  | ok (value : α) (world : W)
  | abort (world : W)
  | undefined (world : W)

namespace Outcome

/-- The call returned. -/
def isOk {W α : Type} : Outcome W α → Bool
  | ok _ _ => true
  | _ => false

/-- The process was aborted. -/
def isAbort {W α : Type} : Outcome W α → Bool
  | abort _ => true
  | _ => false

/-- The world in which the call ended. -/
def world {W α : Type} : Outcome W α → W
  | ok _ w => w
  | abort w => w
  | undefined w => w

/-- The returned value, if the call returned. -/
def value? {W α : Type} : Outcome W α → Option α
  | ok v _ => some v
  | _ => none

end Outcome

/-- Modelled from the spec: the macro `VK_CHECK` of `vk_check_macro.h`, which the sources
include but which is not among them.  The spec calls it an assertion-style check under which
any result that is not success is unrecoverable and terminates the process, a timed-out wait
included.  The value is `true` when the checked call succeeded and execution goes on. -/
def VK_CHECK (result : VkResult) : Bool := decide (result = VK_SUCCESS)

namespace World

variable {D : Type}

def vkCreateDescriptorPool (api : Driver D) (w : World D) (maxSets : Nat)
    (poolRatios : List PoolSizeRatio) : VkResult × VkDescriptorPool × World D :=
  let res := api.vkCreateDescriptorPool w.dev maxSets poolRatios
  (res.1, res.2.1,
    { dev := res.2.2, trace := w.trace ++ [Call.createDescriptorPool maxSets res.1 res.2.1] })

def vkAllocateDescriptorSets (api : Driver D) (w : World D) (pool : VkDescriptorPool)
    (layout : VkDescriptorSetLayout) : VkResult × VkDescriptorSet × World D :=
  let res := api.vkAllocateDescriptorSets w.dev pool layout
  (res.1, res.2.1,
    { dev := res.2.2, trace := w.trace ++ [Call.allocateDescriptorSets pool layout res.1] })

def vkResetDescriptorPool (api : Driver D) (w : World D) (pool : VkDescriptorPool) : World D :=
  { dev := api.vkResetDescriptorPool w.dev pool,
    trace := w.trace ++ [Call.resetDescriptorPool pool] }

def vkDestroyDescriptorPool (api : Driver D) (w : World D) (pool : VkDescriptorPool) :
    World D :=
  { dev := api.vkDestroyDescriptorPool w.dev pool,
    trace := w.trace ++ [Call.destroyDescriptorPool pool] }

end World

/-! ## vk_descriptors.h / vk_descriptors.cpp -/

/-- The constant `GROWTH_FACTOR`. -/
abbrev GROWTH_FACTOR : Nat := 2

/-- The constant `CAP_SETS_IN_POOL`. -/
abbrev CAP_SETS_IN_POOL : Nat := 4092

/-- The number of values of a `uint32_t`. -/
abbrev UINT32_SIZE : Nat := 2 ^ 32

/-- The data members of `DescriptorAllocatorGrowable`. -/
structure DescriptorAllocatorGrowable where
  mPoolRatios : List PoolSizeRatio
  mFullPools : List VkDescriptorPool
  mReadyPools : List VkDescriptorPool
  mSetsPerPool : Nat
  deriving DecidableEq, Repr

namespace DescriptorAllocatorGrowable

variable {D : Type}

/-- A default-constructed allocator: empty vectors; `mSetsPerPool` has no initialiser, so its
value is whatever the storage held. -/
def fresh (garbage : Nat) : DescriptorAllocatorGrowable :=
  { mPoolRatios := [], mFullPools := [], mReadyPools := [], mSetsPerPool := garbage }

/-- The member `create_pool`: one pool of `setCount` sets, created under `VK_CHECK`. -/
def create_pool (api : Driver D) (w : World D) (setCount : Nat)
    (poolRatios : List PoolSizeRatio) : Outcome (World D) VkDescriptorPool :=
  let res := w.vkCreateDescriptorPool api setCount poolRatios
  if VK_CHECK res.1 then Outcome.ok res.2.1 res.2.2 else Outcome.abort res.2.2

/-- The member `init`. -/
def init (api : Driver D) (a : DescriptorAllocatorGrowable) (w : World D) (maxSets : Nat)
    (poolRatios : List PoolSizeRatio) : Outcome (World D) DescriptorAllocatorGrowable :=
  let ratios := poolRatios.foldl (fun acc ratio => acc ++ [ratio]) []
  match create_pool api w maxSets poolRatios with
  | Outcome.ok newPool w1 =>
    Outcome.ok
      { a with
        mPoolRatios := ratios, mSetsPerPool := maxSets,
        mReadyPools := a.mReadyPools ++ [newPool] } w1
  | Outcome.abort w1 => Outcome.abort w1
  | Outcome.undefined w1 => Outcome.undefined w1

/-- The member `get_descriptor_allocation_pool`: the last ready pool if there is one, else a
new pool of the grown size. -/
def get_descriptor_allocation_pool (api : Driver D) (a : DescriptorAllocatorGrowable)
    (w : World D) : Outcome (World D) (VkDescriptorPool × DescriptorAllocatorGrowable) :=
  match a.mReadyPools.getLast? with
  | some pool => Outcome.ok (pool, { a with mReadyPools := a.mReadyPools.dropLast }) w
  | none =>
    let grown := (a.mSetsPerPool * GROWTH_FACTOR) % UINT32_SIZE
    let setsPerPool := if grown > CAP_SETS_IN_POOL then CAP_SETS_IN_POOL else grown
    match create_pool api w setsPerPool a.mPoolRatios with
    | Outcome.ok pool w1 => Outcome.ok (pool, { a with mSetsPerPool := setsPerPool }) w1
    | Outcome.abort w1 => Outcome.abort w1
    | Outcome.undefined w1 => Outcome.undefined w1

/-- The member `clear_pools`. -/
def clear_pools (api : Driver D) (a : DescriptorAllocatorGrowable) (w : World D) :
    DescriptorAllocatorGrowable × World D :=
  let w1 := a.mReadyPools.foldl (fun w pool => w.vkResetDescriptorPool api pool) w
  let st := a.mFullPools.foldl
    (fun (st : List VkDescriptorPool × World D) pool =>
      (st.1 ++ [pool], st.2.vkResetDescriptorPool api pool))
    (a.mReadyPools, w1)
  ({ a with mReadyPools := st.1, mFullPools := [] }, st.2)

/-- The member `destroy_pools`. -/
def destroy_pools (api : Driver D) (a : DescriptorAllocatorGrowable) (w : World D) :
    DescriptorAllocatorGrowable × World D :=
  let w1 := a.mReadyPools.foldl (fun w pool => w.vkDestroyDescriptorPool api pool) w
  let w2 := a.mFullPools.foldl (fun w pool => w.vkDestroyDescriptorPool api pool) w1
  ({ a with mReadyPools := [], mFullPools := [] }, w2)

/-- The member `allocate`. -/
def allocate (api : Driver D) (a : DescriptorAllocatorGrowable) (w : World D)
    (layout : VkDescriptorSetLayout) :
    Outcome (World D) (VkDescriptorSet × DescriptorAllocatorGrowable) :=
  match get_descriptor_allocation_pool api a w with
  | Outcome.ok (poolToUse, a1) w1 =>
    let first := w1.vkAllocateDescriptorSets api poolToUse layout
    if first.1 = VK_ERROR_OUT_OF_POOL_MEMORY ∨ first.1 = VK_ERROR_FRAGMENTED_POOL then
      let a2 := { a1 with mFullPools := a1.mFullPools ++ [poolToUse] }
      match get_descriptor_allocation_pool api a2 first.2.2 with
      | Outcome.ok (poolToUse2, a3) w3 =>
        let second := w3.vkAllocateDescriptorSets api poolToUse2 layout
        if VK_CHECK second.1 then
          Outcome.ok (second.2.1, { a3 with mReadyPools := a3.mReadyPools ++ [poolToUse2] })
            second.2.2
        else Outcome.abort second.2.2
      | Outcome.abort w3 => Outcome.abort w3
      | Outcome.undefined w3 => Outcome.undefined w3
    else
      Outcome.ok (first.2.1, { a1 with mReadyPools := a1.mReadyPools ++ [poolToUse] }) first.2.2
  | Outcome.abort w1 => Outcome.abort w1
  | Outcome.undefined w1 => Outcome.undefined w1

end DescriptorAllocatorGrowable

/-! ## frame_data.h / vk_engine.h / vk_engine.cpp -/

namespace World

variable {D : Type}

def vkWaitForFences (api : Driver D) (w : World D) (fence : VkFence) : VkResult × World D :=
  let res := api.vkWaitForFences w.dev fence
  (res.1, { dev := res.2, trace := w.trace ++ [Call.waitForFences fence res.1] })

def vkResetFences (api : Driver D) (w : World D) (fence : VkFence) : VkResult × World D :=
  let res := api.vkResetFences w.dev fence
  (res.1, { dev := res.2, trace := w.trace ++ [Call.resetFences fence res.1] })

def vkAcquireNextImageKHR (api : Driver D) (w : World D) (semaphore : VkSemaphore) :
    VkResult × Nat × World D :=
  let res := api.vkAcquireNextImageKHR w.dev semaphore
  (res.1, res.2.1,
    { dev := res.2.2, trace := w.trace ++ [Call.acquireNextImage semaphore res.1 res.2.1] })

def vkResetCommandBuffer (api : Driver D) (w : World D) (cmd : VkCommandBuffer) :
    VkResult × World D :=
  let res := api.vkResetCommandBuffer w.dev cmd
  (res.1, { dev := res.2, trace := w.trace ++ [Call.resetCommandBuffer cmd res.1] })

def vkBeginCommandBuffer (api : Driver D) (w : World D) (cmd : VkCommandBuffer) :
    VkResult × World D :=
  let res := api.vkBeginCommandBuffer w.dev cmd
  (res.1, { dev := res.2, trace := w.trace ++ [Call.beginCommandBuffer cmd res.1] })

/-- Lines 507-524 of `draw`: the layout transitions, the clear, the blit and the overlay are
recorded into the command buffer by calls that return nothing; they are one trace entry. -/
def recordCommands (api : Driver D) (w : World D) (cmd : VkCommandBuffer) (imageIndex : Nat) :
    World D :=
  { dev := api.recordCommands w.dev cmd imageIndex,
    trace := w.trace ++ [Call.recordCommands cmd imageIndex] }

def vkEndCommandBuffer (api : Driver D) (w : World D) (cmd : VkCommandBuffer) :
    VkResult × World D :=
  let res := api.vkEndCommandBuffer w.dev cmd
  (res.1, { dev := res.2, trace := w.trace ++ [Call.endCommandBuffer cmd res.1] })

def vkQueueSubmit2 (api : Driver D) (w : World D) (cmd : VkCommandBuffer)
    (waitSemaphore signalSemaphore : VkSemaphore) (fence : VkFence) : VkResult × World D :=
  let res := api.vkQueueSubmit2 w.dev cmd waitSemaphore signalSemaphore fence
  (res.1,
    { dev := res.2,
      trace := w.trace ++ [Call.queueSubmit2 cmd waitSemaphore signalSemaphore fence res.1] })

def vkQueuePresentKHR (api : Driver D) (w : World D) (waitSemaphore : VkSemaphore)
    (imageIndex : Nat) : VkResult × World D :=
  let res := api.vkQueuePresentKHR w.dev waitSemaphore imageIndex
  (res.1,
    { dev := res.2, trace := w.trace ++ [Call.queuePresent waitSemaphore imageIndex res.1] })

def vkDeviceWaitIdle (api : Driver D) (w : World D) : World D :=
  { dev := api.vkDeviceWaitIdle w.dev, trace := w.trace ++ [Call.deviceWaitIdle] }

def vkDestroySwapchainKHR (api : Driver D) (w : World D) : World D :=
  { dev := api.vkDestroySwapchainKHR w.dev, trace := w.trace ++ [Call.destroySwapchain] }

def vkDestroyImageView (api : Driver D) (w : World D) (view : VkImageView) : World D :=
  { dev := api.vkDestroyImageView w.dev view, trace := w.trace ++ [Call.destroyImageView view] }

def buildSwapchain (api : Driver D) (w : World D) (width height : Nat) :
    List VkImageView × World D :=
  let res := api.buildSwapchain w.dev width height
  (res.1, { dev := res.2, trace := w.trace ++ [Call.buildSwapchain width height] })

end World

/-- The constant `VulkanEngine::FRAMES_IN_FLIGHT`. -/
abbrev FRAMES_IN_FLIGHT : Int := 2

/-- The struct `FrameData` (the command pool, used by `init_commands` only, is left out). -/
structure FrameData (W : Type) where
  mMainCommandBuffer : VkCommandBuffer
  mSwapchainSemaphore : VkSemaphore
  mRenderSemaphore : VkSemaphore
  mRenderFence : VkFence
  mDeletionQueue : DeletionQueue W
  mFrameDescriptors : DescriptorAllocatorGrowable

/-- The data members of `VulkanEngine` that the frame loop reads or writes. -/
structure VulkanEngine (W : Type) where
  mWindowExtent : Nat × Nat
  mSwapchainImageViews : List VkImageView
  mCurrentFrameNumber : Int
  mFrames : List (FrameData W)
  mStopRendering : Bool
  mSwapchainResizeRequested : Bool
  mEngineDeletionQueue : DeletionQueue W

/-- The kinds of window event that `run` tells apart. -/
inductive SDL_EventType where
  | quit
  | windowMinimized
  | windowRestored
  | other
  deriving DecidableEq, Repr

namespace VulkanEngine

variable {D : Type}

/-- The member `get_current_frame`: `mFrames[mCurrentFrameNumber]`, which exists only for an
index inside the array. -/
def get_current_frame {W : Type} (e : VulkanEngine W) : Option (FrameData W) :=
  if 0 ≤ e.mCurrentFrameNumber then e.mFrames[e.mCurrentFrameNumber.toNat]? else none

/-- Write through the reference that `get_current_frame` returns. -/
def set_current_frame {W : Type} (e : VulkanEngine W) (frame : FrameData W) : VulkanEngine W :=
  { e with mFrames := e.mFrames.set e.mCurrentFrameNumber.toNat frame }

/-- The member `destroy_swapchain`. -/
def destroy_swapchain (api : Driver D) (e : VulkanEngine (World D)) (w : World D) : World D :=
  e.mSwapchainImageViews.foldl (fun w view => w.vkDestroyImageView api view)
    (w.vkDestroySwapchainKHR api)

/-- The member `create_swapchain`. -/
def create_swapchain (api : Driver D) (e : VulkanEngine (World D)) (w : World D)
    (width height : Nat) : VulkanEngine (World D) × World D :=
  let res := w.buildSwapchain api width height
  ({ e with mSwapchainImageViews := res.1 }, res.2)

/-- The member `resize_swapchain`. -/
def resize_swapchain (api : Driver D) (e : VulkanEngine (World D)) (w : World D) :
    VulkanEngine (World D) × World D :=
  let w1 := w.vkDeviceWaitIdle api
  let w2 := destroy_swapchain api e w1
  let e1 := { e with mWindowExtent := api.getWindowSize w2.dev }
  let res := create_swapchain api e1 w2 e1.mWindowExtent.1 e1.mWindowExtent.2
  ({ res.1 with mSwapchainResizeRequested := false }, res.2)

/-- The member `draw`.  The two assignments to `mDrawExtent` (lines 485-486) feed only the blit
that is recorded later and are left out; an acquire that does not report out-of-date hands on
whatever image index the driver left. -/
def draw (api : Driver D) (e : VulkanEngine (World D)) (w : World D) :
    Outcome (World D) (VulkanEngine (World D)) :=
  match e.get_current_frame with
  | none => Outcome.undefined w
  | some frame =>
    let wait := w.vkWaitForFences api frame.mRenderFence
    if !VK_CHECK wait.1 then Outcome.abort wait.2 else
    let reset := wait.2.vkResetFences api frame.mRenderFence
    if !VK_CHECK reset.1 then Outcome.abort reset.2 else
    let flushed := frame.mDeletionQueue.flush reset.2
    let cleared := frame.mFrameDescriptors.clear_pools api flushed.2
    let e1 := e.set_current_frame
      { frame with mDeletionQueue := flushed.1, mFrameDescriptors := cleared.1 }
    let acquire := cleared.2.vkAcquireNextImageKHR api frame.mSwapchainSemaphore
    if acquire.1 = VK_ERROR_OUT_OF_DATE_KHR then
      Outcome.ok { e1 with mSwapchainResizeRequested := true } acquire.2.2
    else
    let resetCmd := acquire.2.2.vkResetCommandBuffer api frame.mMainCommandBuffer
    if !VK_CHECK resetCmd.1 then Outcome.abort resetCmd.2 else
    let beginCmd := resetCmd.2.vkBeginCommandBuffer api frame.mMainCommandBuffer
    if !VK_CHECK beginCmd.1 then Outcome.abort beginCmd.2 else
    let recorded := beginCmd.2.recordCommands api frame.mMainCommandBuffer acquire.2.1
    let endCmd := recorded.vkEndCommandBuffer api frame.mMainCommandBuffer
    if !VK_CHECK endCmd.1 then Outcome.abort endCmd.2 else
    let submit := endCmd.2.vkQueueSubmit2 api frame.mMainCommandBuffer
      frame.mSwapchainSemaphore frame.mRenderSemaphore frame.mRenderFence
    if !VK_CHECK submit.1 then Outcome.abort submit.2 else
    let present := submit.2.vkQueuePresentKHR api frame.mRenderSemaphore acquire.2.1
    let e2 :=
      if present.1 = VK_ERROR_OUT_OF_DATE_KHR then
        { e1 with mSwapchainResizeRequested := true }
      else e1
    Outcome.ok
      { e2 with mCurrentFrameNumber := Int.tmod (e2.mCurrentFrameNumber + 1) FRAMES_IN_FLIGHT }
      present.2

/-- The event loop at the head of an iteration of `run`: the events polled in this iteration
set the quit flag and the stop flag. -/
def pollEvents {W : Type} (events : List SDL_EventType) (bQuitEngine : Bool)
    (e : VulkanEngine W) : Bool × VulkanEngine W :=
  events.foldl
    (fun (st : Bool × VulkanEngine W) ev =>
      let quit := if ev = SDL_EventType.quit then true else st.1
      let e1 :=
        if ev = SDL_EventType.windowMinimized then { st.2 with mStopRendering := true }
        else st.2
      let e2 :=
        if ev = SDL_EventType.windowRestored then { e1 with mStopRendering := false } else e1
      (quit, e2))
    (bQuitEngine, e)

/-- One iteration of the main loop of `run`, for the events polled in it (the overlay calls
and the clock do not touch the engine state and are left out). -/
def runIteration (api : Driver D) (events : List SDL_EventType) (bQuitEngine : Bool)
    (e : VulkanEngine (World D)) (w : World D) :
    Outcome (World D) (Bool × VulkanEngine (World D)) :=
  let polled := pollEvents events bQuitEngine e
  if polled.2.mStopRendering then Outcome.ok polled w
  else
    let resized :=
      if polled.2.mSwapchainResizeRequested then resize_swapchain api polled.2 w
      else (polled.2, w)
    match draw api resized.1 resized.2 with
    | Outcome.ok e1 w1 => Outcome.ok (polled.1, e1) w1
    | Outcome.abort w1 => Outcome.abort w1
    | Outcome.undefined w1 => Outcome.undefined w1

/-- The main loop of `run`, observed for as many iterations as there are event batches. -/
def runLoop (api : Driver D) :
    List (List SDL_EventType) → Bool → VulkanEngine (World D) → World D →
      Outcome (World D) (VulkanEngine (World D))
  | [], _, e, w => Outcome.ok e w
  | events :: later, bQuitEngine, e, w =>
    if bQuitEngine then Outcome.ok e w
    else
      match runIteration api events bQuitEngine e w with
      | Outcome.ok st w1 => runLoop api later st.1 st.2 w1
      | Outcome.abort w1 => Outcome.abort w1
      | Outcome.undefined w1 => Outcome.undefined w1

/-- The member `run`. -/
def run (api : Driver D) (batches : List (List SDL_EventType)) (e : VulkanEngine (World D))
    (w : World D) : Outcome (World D) (VulkanEngine (World D)) :=
  runLoop api batches false e w

/-- The frame slot `i` as `init_commands` and `init_sync_structures` leave it: its own command
buffer, semaphores and fence, an empty deletion queue and a default-constructed allocator. -/
def initialFrame (W : Type) (i : Nat) : FrameData W :=
  { mMainCommandBuffer := i, mSwapchainSemaphore := 2 * i, mRenderSemaphore := 2 * i + 1,
    mRenderFence := i, mDeletionQueue := DeletionQueue.empty,
    mFrameDescriptors := DescriptorAllocatorGrowable.fresh 0 }

/-- The engine before the first iteration of `run`: the member initialisers of the class and
the two frame slots. -/
def initial (W : Type) : VulkanEngine W :=
  { mWindowExtent := (1700, 900), mSwapchainImageViews := [0, 1, 2], mCurrentFrameNumber := 0,
    mFrames := [initialFrame W 0, initialFrame W 1], mStopRendering := false,
    mSwapchainResizeRequested := false, mEngineDeletionQueue := DeletionQueue.empty }

end VulkanEngine

/-! ## Sequences of allocator calls -/

/-- One public call on an initialised allocator. -/
inductive AllocOp where
  | allocate (layout : VkDescriptorSetLayout)
  | clear_pools
  | destroy_pools
  deriving DecidableEq, Repr

namespace DescriptorAllocatorGrowable

variable {D : Type}

/-- Perform one public call; the descriptor set returned by `allocate` is dropped. -/
def step (api : Driver D) (a : DescriptorAllocatorGrowable) (w : World D) :
    AllocOp → Outcome (World D) DescriptorAllocatorGrowable
  | AllocOp.allocate layout =>
    match allocate api a w layout with
    | Outcome.ok res w1 => Outcome.ok res.2 w1
    | Outcome.abort w1 => Outcome.abort w1
    | Outcome.undefined w1 => Outcome.undefined w1
  | AllocOp.clear_pools => Outcome.ok (clear_pools api a w).1 (clear_pools api a w).2
  | AllocOp.destroy_pools => Outcome.ok (destroy_pools api a w).1 (destroy_pools api a w).2

/-- Perform a sequence of public calls, stopping when the process dies. -/
def runOps (api : Driver D) :
    List AllocOp → DescriptorAllocatorGrowable → World D →
      Outcome (World D) DescriptorAllocatorGrowable
  | [], a, w => Outcome.ok a w
  | op :: ops, a, w =>
    match step api a w op with
    | Outcome.ok a1 w1 => runOps api ops a1 w1
    | Outcome.abort w1 => Outcome.abort w1
    | Outcome.undefined w1 => Outcome.undefined w1

/-- A default-constructed allocator on which `init` is called once, followed by a sequence of
public calls. -/
def initThenRun (api : Driver D) (garbage : Nat) (w : World D) (initialSets : Nat)
    (poolRatios : List PoolSizeRatio) (ops : List AllocOp) :
    Outcome (World D) DescriptorAllocatorGrowable :=
  match init api (fresh garbage) w initialSets poolRatios with
  | Outcome.ok a w1 => runOps api ops a w1
  | Outcome.abort w1 => Outcome.abort w1
  | Outcome.undefined w1 => Outcome.undefined w1

end DescriptorAllocatorGrowable

/-! ## Observing a run -/

/-- The allocation attempts among some calls: the pool tried and the result reported. -/
def attempts : List Call → List (VkDescriptorPool × VkResult)
  | [] => []
  | Call.allocateDescriptorSets pool _ result :: rest => (pool, result) :: attempts rest
  | _ :: rest => attempts rest

/-- The pool creations among some calls: the capacity asked for and the pool handed out. -/
def creations : List Call → List (Nat × VkDescriptorPool)
  | [] => []
  | Call.createDescriptorPool maxSets _ pool :: rest => (maxSets, pool) :: creations rest
  | _ :: rest => creations rest

/-- The calls made between the world `w` and the later world `w1`. -/
def newCalls {D : Type} (w w1 : World D) : List Call := w1.trace.drop w.trace.length

namespace DescriptorAllocatorGrowable

variable {D : Type}

/-- A number `k` of growth events in a row: `get_descriptor_allocation_pool` is called `k`
times on an allocator whose ready list is empty (it stays empty, as the pool handed out is
not put back). -/
def growthEvents (api : Driver D) :
    Nat → DescriptorAllocatorGrowable → World D →
      Outcome (World D) DescriptorAllocatorGrowable
  | 0, a, w => Outcome.ok a w
  | k + 1, a, w =>
    match get_descriptor_allocation_pool api a w with
    | Outcome.ok res w1 => growthEvents api k res.2 w1
    | Outcome.abort w1 => Outcome.abort w1
    | Outcome.undefined w1 => Outcome.undefined w1

end DescriptorAllocatorGrowable

/-! ## A driver that counts

The device model the properties are stated against: a pool created with `maxSets = c` serves
`c` single-set allocations since its creation or last reset and then reports
`VK_ERROR_OUT_OF_POOL_MEMORY`; a fence is signaled or unsignaled, a submission naming it is
pending or not, and a wait on an unsignaled fence succeeds exactly when such a submission is
pending (it completes and signals the fence), timing out otherwise.  The results of image
acquisition and presentation follow a script. -/

structure SimPool where
  maxSets : Nat
  allocated : Nat
  destroyed : Bool
  deriving DecidableEq, Repr

structure SimFence where
  signaled : Bool
  pending : Bool
  deriving DecidableEq, Repr

structure Sim where
  pools : List SimPool
  setsIssued : Nat
  fences : List SimFence
  acquireResults : List VkResult
  presentResults : List VkResult
  deriving DecidableEq, Repr

namespace Sim

/-- A device with no pools, `nFences` fences created signaled, and the given scripts. -/
def start (nFences : Nat) (acquireResults presentResults : List VkResult) : Sim :=
  { pools := [], setsIssued := 0,
    fences := List.replicate nFences { signaled := true, pending := false },
    acquireResults := acquireResults, presentResults := presentResults }

def createDescriptorPool (d : Sim) (maxSets : Nat) (_poolRatios : List PoolSizeRatio) :
    VkResult × VkDescriptorPool × Sim :=
  (VK_SUCCESS, d.pools.length,
    { d with pools := d.pools ++ [{ maxSets := maxSets, allocated := 0, destroyed := false }] })

def allocateDescriptorSets (d : Sim) (pool : VkDescriptorPool)
    (_layout : VkDescriptorSetLayout) : VkResult × VkDescriptorSet × Sim :=
  match d.pools[pool]? with
  | none => (VK_ERROR_DEVICE_LOST, 0, d)
  | some p =>
    if p.destroyed then (VK_ERROR_DEVICE_LOST, 0, d)
    else if p.allocated < p.maxSets then
      (VK_SUCCESS, d.setsIssued,
        { d with
          pools := d.pools.set pool { p with allocated := p.allocated + 1 },
          setsIssued := d.setsIssued + 1 })
    else (VK_ERROR_OUT_OF_POOL_MEMORY, 0, d)

def resetDescriptorPool (d : Sim) (pool : VkDescriptorPool) : Sim :=
  match d.pools[pool]? with
  | none => d
  | some p => { d with pools := d.pools.set pool { p with allocated := 0 } }

def destroyDescriptorPool (d : Sim) (pool : VkDescriptorPool) : Sim :=
  match d.pools[pool]? with
  | none => d
  | some p => { d with pools := d.pools.set pool { p with destroyed := true } }

def waitForFences (d : Sim) (fence : VkFence) : VkResult × Sim :=
  match d.fences[fence]? with
  | none => (VK_ERROR_DEVICE_LOST, d)
  | some f =>
    if f.signaled then (VK_SUCCESS, d)
    else if f.pending then
      (VK_SUCCESS, { d with fences := d.fences.set fence { signaled := true, pending := false } })
    else (VK_TIMEOUT, d)

def resetFences (d : Sim) (fence : VkFence) : VkResult × Sim :=
  match d.fences[fence]? with
  | none => (VK_ERROR_DEVICE_LOST, d)
  | some f => (VK_SUCCESS, { d with fences := d.fences.set fence { f with signaled := false } })

def acquireNextImage (d : Sim) (_semaphore : VkSemaphore) : VkResult × Nat × Sim :=
  match d.acquireResults with
  | [] => (VK_SUCCESS, 0, d)
  | r :: rest => (r, 0, { d with acquireResults := rest })

def queueSubmit2 (d : Sim) (_cmd : VkCommandBuffer) (_waitSemaphore _signalSemaphore : VkSemaphore)
    (fence : VkFence) : VkResult × Sim :=
  match d.fences[fence]? with
  | none => (VK_ERROR_DEVICE_LOST, d)
  | some f => (VK_SUCCESS, { d with fences := d.fences.set fence { f with pending := true } })

def queuePresent (d : Sim) (_waitSemaphore : VkSemaphore) (_imageIndex : Nat) : VkResult × Sim :=
  match d.presentResults with
  | [] => (VK_SUCCESS, d)
  | r :: rest => (r, { d with presentResults := rest })

def deviceWaitIdle (d : Sim) : Sim :=
  { d with
    fences := d.fences.map fun f =>
      if f.pending then { signaled := true, pending := false } else f }

/-- The counting driver as a record of entry points. -/
def driver : Driver Sim :=
  { vkCreateDescriptorPool := createDescriptorPool,
    vkAllocateDescriptorSets := allocateDescriptorSets,
    vkResetDescriptorPool := resetDescriptorPool,
    vkDestroyDescriptorPool := destroyDescriptorPool,
    vkWaitForFences := waitForFences,
    vkResetFences := resetFences,
    vkAcquireNextImageKHR := acquireNextImage,
    vkResetCommandBuffer := fun d _ => (VK_SUCCESS, d),
    vkBeginCommandBuffer := fun d _ => (VK_SUCCESS, d),
    recordCommands := fun d _ _ => d,
    vkEndCommandBuffer := fun d _ => (VK_SUCCESS, d),
    vkQueueSubmit2 := queueSubmit2,
    vkQueuePresentKHR := queuePresent,
    vkDeviceWaitIdle := deviceWaitIdle,
    vkDestroySwapchainKHR := fun d => d,
    vkDestroyImageView := fun d _ => d,
    getWindowSize := fun _ => (1700, 900),
    buildSwapchain := fun d _ _ => ([0, 1, 2], d),
    vkDestroySurfaceKHR := fun d => d,
    vkDestroyDevice := fun d => d,
    destroy_debug_utils_messenger := fun d => d,
    vkDestroyInstance := fun d => d,
    SDL_DestroyWindow := fun d => d,
    releaseEngineObject := fun d _ => d }

/-- The world of a device on which nothing has been called yet. -/
def world (d : Sim) : World Sim := { dev := d, trace := [] }

end Sim

/-! ## Invariant of an allocator over the counting driver -/

/-- Pool `p` exists on the device, is not destroyed and was created for at least one set. -/
def Sim.Usable (d : Sim) (p : VkDescriptorPool) : Prop :=
  ∃ sp, d.pools[p]? = some sp ∧ sp.destroyed = false ∧ 1 ≤ sp.maxSets

/-- Pool `p` exists on the device and nothing is allocated from it. -/
def Sim.Unused (d : Sim) (p : VkDescriptorPool) : Prop :=
  ∃ sp, d.pools[p]? = some sp ∧ sp.allocated = 0

/-- What holds of an allocator and its device between public calls when the allocator was
initialised with a set count whose double is not 0 modulo `2 ^ 32`: doubling `setsPerPool`
again does not give 0, no handle is listed twice, every listed pool is usable, and every
ready pool but the last is unused. -/
structure AllocInv (a : DescriptorAllocatorGrowable) (d : Sim) : Prop where
  grows : (a.mSetsPerPool * 2) % 2 ^ 32 ≠ 0
  nodup : (a.mReadyPools ++ a.mFullPools).Nodup
  usable : ∀ p ∈ a.mReadyPools ++ a.mFullPools, d.Usable p
  unused : ∀ p ∈ a.mReadyPools.dropLast, d.Unused p

/-! ## Observing a frame -/

/-- The calls by which a frame is recorded, submitted and presented. -/
def Call.isFrameWork : Call → Bool
  | Call.resetCommandBuffer _ _ => true
  | Call.beginCommandBuffer _ _ => true
  | Call.recordCommands _ _ => true
  | Call.endCommandBuffer _ _ => true
  | Call.queueSubmit2 _ _ _ _ _ => true
  | Call.queuePresent _ _ _ => true
  | _ => false

/-- A release action: whatever it does to the driver state, the calls it makes are appended to
the trace, and none of them records, submits or presents a frame. -/
def ReleaseOnly {D : Type} (f : World D → World D) : Prop :=
  ∀ w, ∃ extra, (f w).trace = w.trace ++ extra ∧ extra.all (fun c => !c.isFrameWork) = true

namespace VulkanEngine

variable {D : Type}

/-- The world after the first two calls of `draw`: the wait on the fence of the slot and the
reset of that fence. -/
def reclaimed (api : Driver D) (frame : FrameData (World D)) (w : World D) : World D :=
  ((w.vkWaitForFences api frame.mRenderFence).2.vkResetFences api frame.mRenderFence).2

/-- The world in which `draw` calls the acquire: after the reclaim, the deletion queue of the
slot has been flushed and its allocator cleared. -/
def recycled (api : Driver D) (frame : FrameData (World D)) (w : World D) : World D :=
  (frame.mFrameDescriptors.clear_pools api
    (frame.mDeletionQueue.flush (reclaimed api frame w)).2).2

end VulkanEngine

namespace VulkanEngine

variable {D : Type}

/-- Lines 498-560 of `draw`, as a function of the world and the engine state they start from:
what `draw` does after an acquire that did not report out-of-date.  `draw` is this function
applied after its first steps (`draw_eq_drawTail`). -/
def drawTail (api : Driver D) (frame : FrameData (World D)) (e1 : VulkanEngine (World D))
    (imageIndex : Nat) (w : World D) : Outcome (World D) (VulkanEngine (World D)) :=
  let resetCmd := w.vkResetCommandBuffer api frame.mMainCommandBuffer
  if !VK_CHECK resetCmd.1 then Outcome.abort resetCmd.2 else
  let beginCmd := resetCmd.2.vkBeginCommandBuffer api frame.mMainCommandBuffer
  if !VK_CHECK beginCmd.1 then Outcome.abort beginCmd.2 else
  let recorded := beginCmd.2.recordCommands api frame.mMainCommandBuffer imageIndex
  let endCmd := recorded.vkEndCommandBuffer api frame.mMainCommandBuffer
  if !VK_CHECK endCmd.1 then Outcome.abort endCmd.2 else
  let submit := endCmd.2.vkQueueSubmit2 api frame.mMainCommandBuffer
    frame.mSwapchainSemaphore frame.mRenderSemaphore frame.mRenderFence
  if !VK_CHECK submit.1 then Outcome.abort submit.2 else
  let present := submit.2.vkQueuePresentKHR api frame.mRenderSemaphore imageIndex
  let e2 :=
    if present.1 = VK_ERROR_OUT_OF_DATE_KHR then
      { e1 with mSwapchainResizeRequested := true }
    else e1
  Outcome.ok
    { e2 with mCurrentFrameNumber := Int.tmod (e2.mCurrentFrameNumber + 1) FRAMES_IN_FLIGHT }
    present.2

/-- The engine state after the recycle step of `draw`: the slot written back with its flushed
queue and cleared allocator. -/
def afterRecycle (api : Driver D) (e : VulkanEngine (World D)) (frame : FrameData (World D))
    (w : World D) : VulkanEngine (World D) :=
  e.set_current_frame
    { frame with
      mDeletionQueue := (frame.mDeletionQueue.flush (reclaimed api frame w)).1,
      mFrameDescriptors := (frame.mFrameDescriptors.clear_pools api
        (frame.mDeletionQueue.flush (reclaimed api frame w)).2).1 }

end VulkanEngine

/-! ## Comparing runs from two worlds -/

/-- The world `w` with the calls `t` put in front of its trace. -/
def World.prepend {D : Type} (t : List Call) (w : World D) : World D :=
  { dev := w.dev, trace := t ++ w.trace }

/-- Apply `f` to the world an outcome carries. -/
def Outcome.mapWorld {W α : Type} (f : W → W) : Outcome W α → Outcome W α
  | Outcome.ok a w => Outcome.ok a (f w)
  | Outcome.abort w => Outcome.abort (f w)
  | Outcome.undefined w => Outcome.undefined (f w)

/-- A sequence of `allocate` calls, one per layout, collecting the descriptor sets returned and
stopping when the process dies. -/
def DescriptorAllocatorGrowable.allocateMany {D : Type} (api : Driver D) :
    List VkDescriptorSetLayout → DescriptorAllocatorGrowable → World D →
      Outcome (World D) (List VkDescriptorSet × DescriptorAllocatorGrowable)
  | [], a, w => Outcome.ok ([], a) w
  | layout :: layouts, a, w =>
    match DescriptorAllocatorGrowable.allocate api a w layout with
    | Outcome.ok res w1 =>
      match DescriptorAllocatorGrowable.allocateMany api layouts res.2 w1 with
      | Outcome.ok rest w2 => Outcome.ok (res.1 :: rest.1, rest.2) w2
      | Outcome.abort w2 => Outcome.abort w2
      | Outcome.undefined w2 => Outcome.undefined w2
    | Outcome.abort w1 => Outcome.abort w1
    | Outcome.undefined w1 => Outcome.undefined w1

/-! ## Sequences of queue calls -/

/-- One public call on a deletion queue. -/
inductive QueueOp (W : Type) where
  | push_function (function : W → W)
  | flush

namespace DeletionQueue

/-- Perform one public call on the queue; `push_function` runs nothing. -/
def step {W : Type} (st : DeletionQueue W × W) : QueueOp W → DeletionQueue W × W
  | QueueOp.push_function function => (st.1.push_function function, st.2)
  | QueueOp.flush => st.1.flush st.2

/-- Perform a sequence of public calls on the queue. -/
def runOps {W : Type} (ops : List (QueueOp W)) (st : DeletionQueue W × W) :
    DeletionQueue W × W :=
  ops.foldl step st

/-- The world before and after each `flush` of a sequence of public calls, in order. -/
def flushEffects {W : Type} : List (QueueOp W) → DeletionQueue W × W → List (W × W)
  | [], _ => []
  | QueueOp.push_function function :: ops, st =>
    flushEffects ops (step st (QueueOp.push_function function))
  | QueueOp.flush :: ops, st =>
    (st.2, (step st QueueOp.flush).2) :: flushEffects ops (step st QueueOp.flush)

/-- The sequence of calls that pushes the actions of each list of `segs` and then flushes, list
after list, and finally pushes the actions of `tail`. -/
def opsOf {W : Type} : List (List (W → W)) → List (W → W) → List (QueueOp W)
  | [], tail => tail.map QueueOp.push_function
  | seg :: segs, tail => seg.map QueueOp.push_function ++ QueueOp.flush :: opsOf segs tail

end DeletionQueue

/-! ## Start-up registrations and teardown (vk_engine.cpp) -/

namespace World

variable {D : Type}

def vkDestroySurfaceKHR (api : Driver D) (w : World D) : World D :=
  { dev := api.vkDestroySurfaceKHR w.dev, trace := w.trace ++ [Call.destroySurface] }

def vkDestroyDevice (api : Driver D) (w : World D) : World D :=
  { dev := api.vkDestroyDevice w.dev, trace := w.trace ++ [Call.destroyDevice] }

def destroy_debug_utils_messenger (api : Driver D) (w : World D) : World D :=
  { dev := api.destroy_debug_utils_messenger w.dev,
    trace := w.trace ++ [Call.destroyDebugUtilsMessenger] }

def vkDestroyInstance (api : Driver D) (w : World D) : World D :=
  { dev := api.vkDestroyInstance w.dev, trace := w.trace ++ [Call.destroyInstance] }

def SDL_DestroyWindow (api : Driver D) (w : World D) : World D :=
  { dev := api.SDL_DestroyWindow w.dev, trace := w.trace ++ [Call.destroyWindow] }

/-- The body of one of the callbacks that `init` registers on the engine queue. -/
def releaseEngineObject (api : Driver D) (what : EngineRelease) (w : World D) : World D :=
  { dev := api.releaseEngineObject w.dev what,
    trace := w.trace ++ [Call.releaseEngineObject what] }

end World

namespace VulkanEngine

variable {D : Type}

/-- What `init_vulkan` registers on the engine queue (line 238); the creation of the objects
is left out, here and in the members below. -/
def init_vulkan (api : Driver D) (e : VulkanEngine (World D)) : VulkanEngine (World D) :=
  { e with
    mEngineDeletionQueue := e.mEngineDeletionQueue.push_function
      (World.releaseEngineObject api EngineRelease.vmaAllocator) }

/-- What `init_swapchain` registers on the engine queue (line 277). -/
def init_swapchain (api : Driver D) (e : VulkanEngine (World D)) : VulkanEngine (World D) :=
  { e with
    mEngineDeletionQueue := e.mEngineDeletionQueue.push_function
      (World.releaseEngineObject api EngineRelease.drawImage) }

/-- What `init_commands` registers on the engine queue (line 295, and line 310 in the loop over
the frame slots). -/
def init_commands (api : Driver D) (e : VulkanEngine (World D)) : VulkanEngine (World D) :=
  let q := e.mEngineDeletionQueue.push_function
    (World.releaseEngineObject api EngineRelease.immediateCommandPool)
  { e with
    mEngineDeletionQueue := (List.range FRAMES_IN_FLIGHT.toNat).foldl
      (fun q i => q.push_function
        (World.releaseEngineObject api (EngineRelease.frameCommandPool i))) q }

/-- What `init_sync_structures` registers on the engine queue (line 333 in the loop over the
frame slots, and line 343). -/
def init_sync_structures (api : Driver D) (e : VulkanEngine (World D)) :
    VulkanEngine (World D) :=
  let q := (List.range FRAMES_IN_FLIGHT.toNat).foldl
    (fun q i => q.push_function
      (World.releaseEngineObject api (EngineRelease.frameSyncStructures i)))
    e.mEngineDeletionQueue
  { e with
    mEngineDeletionQueue := q.push_function
      (World.releaseEngineObject api EngineRelease.immediateFence) }

/-- What `init_imgui` registers on the engine queue (line 413). -/
def init_imgui (api : Driver D) (e : VulkanEngine (World D)) : VulkanEngine (World D) :=
  { e with
    mEngineDeletionQueue := e.mEngineDeletionQueue.push_function
      (World.releaseEngineObject api EngineRelease.imgui) }

/-- The member `init`, as far as the engine queue goes: `init_sdl`, `init_descriptors` and
`init_pipelines` register nothing. -/
def init (api : Driver D) (e : VulkanEngine (World D)) : VulkanEngine (World D) :=
  init_imgui api (init_sync_structures api (init_commands api (init_swapchain api
    (init_vulkan api e))))

/-- The loop of `cleanup` over the frame slots, from slot `i` for `n` more rounds: each round
flushes the queue of `mFrames[i]`. -/
def flushFrameQueues {W : Type} : Nat → Nat → VulkanEngine W → W → Outcome W (VulkanEngine W)
  | _, 0, e, w => Outcome.ok e w
  | i, n + 1, e, w =>
    match e.mFrames[i]? with
    | none => Outcome.undefined w
    | some frame =>
      let flushed := frame.mDeletionQueue.flush w
      flushFrameQueues (i + 1) n
        { e with mFrames := e.mFrames.set i { frame with mDeletionQueue := flushed.1 } }
        flushed.2

/-- The member `cleanup`. -/
def cleanup (api : Driver D) (e : VulkanEngine (World D)) (w : World D) :
    Outcome (World D) (VulkanEngine (World D)) :=
  let w1 := w.vkDeviceWaitIdle api
  match flushFrameQueues 0 FRAMES_IN_FLIGHT.toNat e w1 with
  | Outcome.ok e1 w2 =>
    let flushed := e1.mEngineDeletionQueue.flush w2
    let e2 := { e1 with mEngineDeletionQueue := flushed.1 }
    let w3 := destroy_swapchain api e2 flushed.2
    let w4 := w3.vkDestroySurfaceKHR api
    let w5 := w4.vkDestroyDevice api
    let w6 := w5.destroy_debug_utils_messenger api
    let w7 := w6.vkDestroyInstance api
    Outcome.ok e2 (w7.SDL_DestroyWindow api)
  | Outcome.abort w2 => Outcome.abort w2
  | Outcome.undefined w2 => Outcome.undefined w2

end VulkanEngine

/-- An engine on the counting driver as `init` leaves it, on which two actions have then been
pushed on the queue of frame slot 0 and one on the queue of frame slot 1; each action destroys
the image view it names. -/
def VulkanEngine.initialisedWithPending : VulkanEngine (World Sim) :=
  { VulkanEngine.init Sim.driver (VulkanEngine.initial (World Sim)) with
    mFrames :=
      [{ VulkanEngine.initialFrame (World Sim) 0 with
          mDeletionQueue :=
            (DeletionQueue.empty.push_function
              (fun w => w.vkDestroyImageView Sim.driver 10)).push_function
              (fun w => w.vkDestroyImageView Sim.driver 11) },
        { VulkanEngine.initialFrame (World Sim) 1 with
          mDeletionQueue :=
            DeletionQueue.empty.push_function (fun w => w.vkDestroyImageView Sim.driver 20) }] }

/-! ## A driver whose allocations fail for lack of host memory -/

/-- The counting driver, except that every call of `vkAllocateDescriptorSets` reports
`VK_ERROR_OUT_OF_HOST_MEMORY` and leaves the device as it is. -/
def Sim.driverOutOfHostMemory : Driver Sim :=
  { Sim.driver with
    vkAllocateDescriptorSets := fun d _ _ => (VK_ERROR_OUT_OF_HOST_MEMORY, 0, d) }

/-! ## A device with memory for one pool -/

/-- The counting driver, except that `vkCreateDescriptorPool` succeeds only while the device has
no pool yet and reports `VK_ERROR_OUT_OF_DEVICE_MEMORY` afterwards, leaving the device as it
is. -/
def Sim.driverOnePool : Driver Sim :=
  { Sim.driver with
    vkCreateDescriptorPool := fun d maxSets poolRatios =>
      if d.pools.length = 0 then Sim.createDescriptorPool d maxSets poolRatios
      else (VK_ERROR_OUT_OF_DEVICE_MEMORY, 0, d) }

/-! ### Lemmas on the deletion queue -/

theorem flushLoop_append_left {W : Type} (d e : List (W → W)) :
    ∀ (n : Nat) (w : W), n ≤ d.length →
      DeletionQueue.flushLoop (d ++ e) n w = DeletionQueue.flushLoop d n w := by
  intro n
  induction n with
  | zero => intro w _; rfl
  | succ n ih =>
    intro w hn
    have hlt : n < d.length := hn
    simp only [DeletionQueue.flushLoop]
    rw [List.getElem?_append_left hlt]
    cases h : d[n]? with
    | none => exact ih w (Nat.le_of_lt hlt)
    | some f => exact ih (f w) (Nat.le_of_lt hlt)

theorem flushLoop_length {W : Type} (d : List (W → W)) :
    ∀ w : W, DeletionQueue.flushLoop d d.length w = d.reverse.foldl (fun w f => f w) w := by
  induction d using List.reverseRecOn with
  | nil => intro w; rfl
  | append_singleton d f ih =>
    intro w
    have hlen : (d ++ [f]).length = d.length + 1 := by simp
    rw [hlen]
    simp only [DeletionQueue.flushLoop]
    have hget : (d ++ [f])[d.length]? = some f := by simp
    rw [hget]
    show DeletionQueue.flushLoop (d ++ [f]) d.length (f w) = _
    rw [flushLoop_append_left d [f] d.length (f w) (Nat.le_refl _), ih (f w)]
    simp

theorem foldl_push_function {W : Type} (acts : List (W → W)) :
    ∀ q : DeletionQueue W,
      (acts.foldl DeletionQueue.push_function q).deletors = q.deletors ++ acts := by
  induction acts with
  | nil => intro q; simp
  | cons f acts ih =>
    intro q
    simp [List.foldl, ih, DeletionQueue.push_function]

theorem foldl_logAction {α : Type} (labels : List α) :
    ∀ log : List α,
      (labels.map DeletionQueue.logAction).foldl (fun w f => f w) log = log ++ labels := by
  induction labels with
  | nil => intro log; simp
  | cons a labels ih =>
    intro log
    simp [List.foldl, ih, DeletionQueue.logAction]

/-! ### Claims on the deletion queue -/

/-- C1: a queue filled by `push_function` with the actions `a1, ..., an` is flushed by running
`an, ..., a1` in that order, each once, and is empty afterwards; with actions that log their
label the log grows by the labels in reverse, an empty queue runs nothing, and the actions
logging "1", "2", "3" leave the log "3", "2", "1". -/
theorem C1_flush_lifo :
    (∀ (W : Type) (acts : List (W → W)) (w : W),
        DeletionQueue.flush (acts.foldl DeletionQueue.push_function DeletionQueue.empty) w
          = (DeletionQueue.empty, acts.reverse.foldl (fun w f => f w) w))
    ∧ (∀ (α : Type) (labels : List α) (log : List α),
        DeletionQueue.flush
            ((labels.map DeletionQueue.logAction).foldl DeletionQueue.push_function
              DeletionQueue.empty) log
          = (DeletionQueue.empty, log ++ labels.reverse))
    ∧ (∀ (W : Type) (w : W),
        DeletionQueue.flush (DeletionQueue.empty : DeletionQueue W) w = (DeletionQueue.empty, w))
    ∧ (DeletionQueue.flush
          (((DeletionQueue.empty.push_function (DeletionQueue.logAction "1")).push_function
              (DeletionQueue.logAction "2")).push_function (DeletionQueue.logAction "3"))
          ([] : List String)).2 = ["3", "2", "1"] := by
  have general : ∀ (W : Type) (acts : List (W → W)) (w : W),
      DeletionQueue.flush (acts.foldl DeletionQueue.push_function DeletionQueue.empty) w
        = (DeletionQueue.empty, acts.reverse.foldl (fun w f => f w) w) := by
    intro W acts w
    have hd := foldl_push_function acts (DeletionQueue.empty : DeletionQueue W)
    simp only [DeletionQueue.empty, List.nil_append] at hd
    simp only [DeletionQueue.flush, DeletionQueue.empty, hd, flushLoop_length]
  refine ⟨general, ?_, ?_, ?_⟩
  · intro α labels log
    rw [general, ← List.map_reverse, foldl_logAction]
  · intro W w
    rfl
  · rfl




/-! ### Lemmas on the allocator -/

open DescriptorAllocatorGrowable

theorem get_pool_of_ready {D : Type} (api : Driver D) (a : DescriptorAllocatorGrowable)
    (w : World D) (l : List VkDescriptorPool) (p : VkDescriptorPool)
    (h : a.mReadyPools = l ++ [p]) :
    get_descriptor_allocation_pool api a w = Outcome.ok (p, { a with mReadyPools := l }) w := by
  simp [get_descriptor_allocation_pool, h]

theorem grown_eq_min (s : Nat) :
    (if (s * GROWTH_FACTOR) % UINT32_SIZE > CAP_SETS_IN_POOL then CAP_SETS_IN_POOL
      else (s * GROWTH_FACTOR) % UINT32_SIZE) = min ((s * 2) % 2 ^ 32) 4092 := by
  simp only [GROWTH_FACTOR, UINT32_SIZE, CAP_SETS_IN_POOL]
  split <;> omega

theorem get_pool_of_empty {D : Type} (api : Driver D) (a : DescriptorAllocatorGrowable)
    (w : World D) (h : a.mReadyPools = []) :
    get_descriptor_allocation_pool api a w =
      if (api.vkCreateDescriptorPool w.dev (min ((a.mSetsPerPool * 2) % 2 ^ 32) 4092)
            a.mPoolRatios).1 = VK_SUCCESS then
        Outcome.ok
          ((api.vkCreateDescriptorPool w.dev (min ((a.mSetsPerPool * 2) % 2 ^ 32) 4092)
              a.mPoolRatios).2.1,
            { a with mSetsPerPool := min ((a.mSetsPerPool * 2) % 2 ^ 32) 4092 })
          (w.vkCreateDescriptorPool api (min ((a.mSetsPerPool * 2) % 2 ^ 32) 4092)
            a.mPoolRatios).2.2
      else
        Outcome.abort
          (w.vkCreateDescriptorPool api (min ((a.mSetsPerPool * 2) % 2 ^ 32) 4092)
            a.mPoolRatios).2.2 := by
  simp only [get_descriptor_allocation_pool, h, List.getLast?_nil, grown_eq_min, create_pool,
    VK_CHECK, World.vkCreateDescriptorPool, decide_eq_true_eq]
  by_cases hc : (api.vkCreateDescriptorPool w.dev (min ((a.mSetsPerPool * 2) % 2 ^ 32) 4092)
      a.mPoolRatios).1 = VK_SUCCESS
  · rw [if_pos hc, if_pos hc]
  · rw [if_neg hc, if_neg hc]

/-! ### Claims on the allocator -/

/-- C2, at the failing input: an allocator initialised with one set per pool, two calls of
`allocate` on the counting driver (the second one grows), then `clear_pools`: the ready list
holds two pools, the grown one and the initial one. -/
theorem C2_clear_pools_leaves_two_ready :
    ((initThenRun Sim.driver 0 (Sim.world (Sim.start 0 [] [])) 1 []
        [AllocOp.allocate 0, AllocOp.allocate 0, AllocOp.clear_pools]).value?.map
      DescriptorAllocatorGrowable.mReadyPools) = some [1, 0] := by
  decide

/-- C3, refuted as stated: from `setsPerPool = 2 ^ 31` a growth event leaves `setsPerPool = 0`
and creates a pool of capacity 0, whereas `min (2 * 2 ^ 31) 4092 = 4092`. -/
theorem C3_growth_wraps_at_two_pow_31 :
    ((get_descriptor_allocation_pool Sim.driver
          { mPoolRatios := [], mFullPools := [], mReadyPools := [], mSetsPerPool := 2 ^ 31 }
          (Sim.world (Sim.start 0 [] []))).value?.map fun res => res.2.mSetsPerPool) = some 0
    ∧ creations (get_descriptor_allocation_pool Sim.driver
          { mPoolRatios := [], mFullPools := [], mReadyPools := [], mSetsPerPool := 2 ^ 31 }
          (Sim.world (Sim.start 0 [] []))).world.trace = [(0, 0)]
    ∧ min (2 * 2 ^ 31) 4092 = 4092 := by
  decide

/-- C3, amended: a growth event (the ready list is empty) asks the driver for one pool of
capacity `min ((2 * s) mod 2 ^ 32) 4092`, where `s` is the old `setsPerPool`; if the driver
creates it the call returns that pool and leaves `setsPerPool` at that capacity, otherwise
the process is aborted; and for `s < 2 ^ 31` that capacity is `min (2 * s) 4092`. -/
theorem C3_growth_step {D : Type} (api : Driver D) (a : DescriptorAllocatorGrowable)
    (w : World D) (hready : a.mReadyPools = []) :
    (a.mSetsPerPool < 2 ^ 31 →
        min ((a.mSetsPerPool * 2) % 2 ^ 32) 4092 = min (2 * a.mSetsPerPool) 4092)
    ∧ newCalls w (get_descriptor_allocation_pool api a w).world =
        [Call.createDescriptorPool (min ((a.mSetsPerPool * 2) % 2 ^ 32) 4092)
          (api.vkCreateDescriptorPool w.dev (min ((a.mSetsPerPool * 2) % 2 ^ 32) 4092)
            a.mPoolRatios).1
          (api.vkCreateDescriptorPool w.dev (min ((a.mSetsPerPool * 2) % 2 ^ 32) 4092)
            a.mPoolRatios).2.1]
    ∧ ((api.vkCreateDescriptorPool w.dev (min ((a.mSetsPerPool * 2) % 2 ^ 32) 4092)
            a.mPoolRatios).1 = VK_SUCCESS →
        (get_descriptor_allocation_pool api a w).value? =
          some ((api.vkCreateDescriptorPool w.dev (min ((a.mSetsPerPool * 2) % 2 ^ 32) 4092)
              a.mPoolRatios).2.1,
            { a with mSetsPerPool := min ((a.mSetsPerPool * 2) % 2 ^ 32) 4092 }))
    ∧ ((api.vkCreateDescriptorPool w.dev (min ((a.mSetsPerPool * 2) % 2 ^ 32) 4092)
            a.mPoolRatios).1 ≠ VK_SUCCESS →
        (get_descriptor_allocation_pool api a w).isAbort = true) := by
  rw [get_pool_of_empty api a w hready]
  refine ⟨fun h => by omega, ?_, ?_, ?_⟩
  · split <;> simp [newCalls, Outcome.world, World.vkCreateDescriptorPool]
  · intro h
    rw [if_pos h]
    rfl
  · intro h
    rw [if_neg h]
    rfl

/-- C3, amended, at a concrete input: from `setsPerPool = 3000` on the counting driver. -/
theorem C3_growth_step_witness :
    (get_descriptor_allocation_pool Sim.driver
        { mPoolRatios := [], mFullPools := [], mReadyPools := [], mSetsPerPool := 3000 }
        (Sim.world (Sim.start 0 [] []))).value? =
      some (0, { mPoolRatios := [], mFullPools := [], mReadyPools := [], mSetsPerPool := 4092 }) :=
  (C3_growth_step Sim.driver
    { mPoolRatios := [], mFullPools := [], mReadyPools := [], mSetsPerPool := 3000 }
    (Sim.world (Sim.start 0 [] [])) rfl).2.2.1 rfl

/-! ### Repeated growth -/

theorem growStep_iterate_bounds (k t : Nat) (h1 : 1 ≤ t) (h2 : t ≤ 4092) :
    min (2 ^ k * t) 4092 ≤ (fun s => min ((s * 2) % 2 ^ 32) 4092)^[k] t
      ∧ (fun s => min ((s * 2) % 2 ^ 32) 4092)^[k] t ≤ 4092 := by
  induction k with
  | zero => simp; omega
  | succ k ih =>
    rw [Function.iterate_succ_apply']
    generalize (fun s => min ((s * 2) % 2 ^ 32) 4092)^[k] t = x at ih
    have hy : 2 ^ (k + 1) * t = 2 * (2 ^ k * t) := by ring
    rw [hy]
    generalize 2 ^ k * t = y at ih
    show min (2 * y) 4092 ≤ min ((x * 2) % 2 ^ 32) 4092 ∧ min ((x * 2) % 2 ^ 32) 4092 ≤ 4092
    omega

theorem growStep_iterate_twelve (t : Nat) (h1 : 1 ≤ t) (h2 : t ≤ 4092) :
    (fun s => min ((s * 2) % 2 ^ 32) 4092)^[12] t = 4092 := by
  have h := growStep_iterate_bounds 12 t h1 h2
  generalize (fun s => min ((s * 2) % 2 ^ 32) 4092)^[12] t = x at h
  omega

theorem growStep_iterate_cap (m : Nat) :
    (fun s => min ((s * 2) % 2 ^ 32) 4092)^[m] 4092 = 4092 :=
  Function.iterate_fixed (by decide) m

theorem growStep_iterate_zero (m : Nat) :
    (fun s => min ((s * 2) % 2 ^ 32) 4092)^[m] 0 = 0 :=
  Function.iterate_fixed (by decide) m

theorem growStep_converges (s j : Nat) (hs : s < 2 ^ 32) (h0 : s ≠ 0) (h31 : s ≠ 2 ^ 31)
    (hj : 13 ≤ j) : (fun s => min ((s * 2) % 2 ^ 32) 4092)^[j] s = 4092 := by
  obtain ⟨m, rfl⟩ : ∃ m, j = m + 12 + 1 := ⟨j - 13, by omega⟩
  rw [Function.iterate_succ_apply, Function.iterate_add_apply]
  have ht : 1 ≤ min ((s * 2) % 2 ^ 32) 4092 ∧ min ((s * 2) % 2 ^ 32) 4092 ≤ 4092 := by omega
  rw [growStep_iterate_twelve _ ht.1 ht.2, growStep_iterate_cap]

theorem growStep_stuck (s j : Nat) (h : s = 0 ∨ s = 2 ^ 31) (hj : 1 ≤ j) :
    (fun s => min ((s * 2) % 2 ^ 32) 4092)^[j] s = 0 := by
  obtain ⟨m, rfl⟩ : ∃ m, j = m + 1 := ⟨j - 1, by omega⟩
  rw [Function.iterate_succ_apply]
  have ht : min ((s * 2) % 2 ^ 32) 4092 = 0 := by
    rcases h with rfl | rfl <;> decide
  rw [ht, growStep_iterate_zero]

theorem growthEvents_eq {D : Type} (api : Driver D)
    (hcreate : ∀ d n r, (api.vkCreateDescriptorPool d n r).1 = VK_SUCCESS) :
    ∀ (k : Nat) (a : DescriptorAllocatorGrowable) (w : World D), a.mReadyPools = [] →
      ∃ w1, growthEvents api k a w =
        Outcome.ok
          { a with mSetsPerPool := (fun s => min ((s * 2) % 2 ^ 32) 4092)^[k] a.mSetsPerPool }
          w1 := by
  intro k
  induction k with
  | zero => intro a w _; exact ⟨w, rfl⟩
  | succ k ih =>
    intro a w ha
    simp only [growthEvents]
    rw [get_pool_of_empty api a w ha, if_pos (hcreate _ _ _)]
    obtain ⟨w1, hw1⟩ := ih { a with mSetsPerPool := min ((a.mSetsPerPool * 2) % 2 ^ 32) 4092 }
      (w.vkCreateDescriptorPool api (min ((a.mSetsPerPool * 2) % 2 ^ 32) 4092)
        a.mPoolRatios).2.2 ha
    refine ⟨w1, ?_⟩
    rw [Function.iterate_succ_apply]
    exact hw1

/-- C4, refuted as stated: from `setsPerPool = 0`, a value `init` accepts, no number of growth
events on the counting driver leaves `setsPerPool` at 4092. -/
theorem C4_no_convergence_from_zero :
    ¬ ∃ k, ((growthEvents Sim.driver k
          { mPoolRatios := [], mFullPools := [], mReadyPools := [], mSetsPerPool := 0 }
          (Sim.world (Sim.start 0 [] []))).value?.map
        DescriptorAllocatorGrowable.mSetsPerPool) = some 4092 := by
  rintro ⟨k, hk⟩
  obtain ⟨w1, hw1⟩ := growthEvents_eq Sim.driver (fun _ _ _ => rfl) k
    { mPoolRatios := [], mFullPools := [], mReadyPools := [], mSetsPerPool := 0 }
    (Sim.world (Sim.start 0 [] [])) rfl
  rw [hw1] at hk
  simp only [Outcome.value?, Option.map_some', growStep_iterate_zero] at hk
  exact absurd hk (by decide)

/-- C4, amended: on a driver that creates every pool it is asked for, from every 32-bit
starting value of `setsPerPool` other than 0 and `2 ^ 31` the value is 4092 after 13 growth
events and after every further one; from 0 and from `2 ^ 31` it is 0 after every growth
event. -/
theorem C4_growth_converges {D : Type} (api : Driver D)
    (hcreate : ∀ d n r, (api.vkCreateDescriptorPool d n r).1 = VK_SUCCESS)
    (a : DescriptorAllocatorGrowable) (w : World D) (hready : a.mReadyPools = [])
    (hs : a.mSetsPerPool < 2 ^ 32) :
    (a.mSetsPerPool ≠ 0 ∧ a.mSetsPerPool ≠ 2 ^ 31 →
        ∀ j, 13 ≤ j →
          ∃ w1, growthEvents api j a w = Outcome.ok { a with mSetsPerPool := 4092 } w1)
    ∧ (a.mSetsPerPool = 0 ∨ a.mSetsPerPool = 2 ^ 31 →
        ∀ j, 1 ≤ j →
          ∃ w1, growthEvents api j a w = Outcome.ok { a with mSetsPerPool := 0 } w1) := by
  constructor
  · rintro ⟨h0, h31⟩ j hj
    obtain ⟨w1, hw1⟩ := growthEvents_eq api hcreate j a w hready
    rw [growStep_converges _ j hs h0 h31 hj] at hw1
    exact ⟨w1, hw1⟩
  · intro h j hj
    obtain ⟨w1, hw1⟩ := growthEvents_eq api hcreate j a w hready
    rw [growStep_stuck _ j h hj] at hw1
    exact ⟨w1, hw1⟩

/-- C4, amended, at a concrete input: from `setsPerPool = 1` on the counting driver, 13 growth
events leave 4092. -/
theorem C4_growth_converges_witness :
    ∃ w1, growthEvents Sim.driver 13
        { mPoolRatios := [], mFullPools := [], mReadyPools := [], mSetsPerPool := 1 }
        (Sim.world (Sim.start 0 [] [])) =
      Outcome.ok { mPoolRatios := [], mFullPools := [], mReadyPools := [], mSetsPerPool := 4092 }
        w1 :=
  (C4_growth_converges Sim.driver (fun _ _ _ => rfl)
    { mPoolRatios := [], mFullPools := [], mReadyPools := [], mSetsPerPool := 1 }
    (Sim.world (Sim.start 0 [] [])) rfl (by decide)).1 ⟨by decide, by decide⟩ 13 (Nat.le_refl _)

/-! ### One call of `allocate` on the counting driver -/

theorem sim_attempt_hit (w : World Sim) (p : VkDescriptorPool) (layout : VkDescriptorSetLayout)
    (sp : SimPool) (hp : w.dev.pools[p]? = some sp) (hlive : sp.destroyed = false)
    (hroom : sp.allocated < sp.maxSets) :
    w.vkAllocateDescriptorSets Sim.driver p layout =
      (VK_SUCCESS, w.dev.setsIssued,
        { dev := { w.dev with
                   pools := w.dev.pools.set p { sp with allocated := sp.allocated + 1 },
                   setsIssued := w.dev.setsIssued + 1 },
          trace := w.trace ++ [Call.allocateDescriptorSets p layout VK_SUCCESS] }) := by
  simp [World.vkAllocateDescriptorSets, Sim.driver, Sim.allocateDescriptorSets, hp, hlive, hroom]

theorem sim_attempt_miss (w : World Sim) (p : VkDescriptorPool) (layout : VkDescriptorSetLayout)
    (sp : SimPool) (hp : w.dev.pools[p]? = some sp) (hlive : sp.destroyed = false)
    (hfull : ¬ sp.allocated < sp.maxSets) :
    w.vkAllocateDescriptorSets Sim.driver p layout =
      (VK_ERROR_OUT_OF_POOL_MEMORY, 0,
        { dev := w.dev,
          trace := w.trace ++
            [Call.allocateDescriptorSets p layout VK_ERROR_OUT_OF_POOL_MEMORY] }) := by
  simp [World.vkAllocateDescriptorSets, Sim.driver, Sim.allocateDescriptorSets, hp, hlive, hfull]

theorem sim_create (w : World Sim) (n : Nat) (r : List PoolSizeRatio) :
    w.vkCreateDescriptorPool Sim.driver n r =
      (VK_SUCCESS, w.dev.pools.length,
        { dev := { w.dev with
                   pools := w.dev.pools ++ [{ maxSets := n, allocated := 0, destroyed := false }] },
          trace := w.trace ++ [Call.createDescriptorPool n VK_SUCCESS w.dev.pools.length] }) := by
  rfl

theorem sim_get_pool_of_empty (a : DescriptorAllocatorGrowable) (w : World Sim)
    (h : a.mReadyPools = []) :
    get_descriptor_allocation_pool Sim.driver a w =
      Outcome.ok (w.dev.pools.length,
          { a with mSetsPerPool := min ((a.mSetsPerPool * 2) % 2 ^ 32) 4092 })
        { dev := { w.dev with
                   pools := w.dev.pools ++
                     [{ maxSets := min ((a.mSetsPerPool * 2) % 2 ^ 32) 4092, allocated := 0,
                        destroyed := false }] },
          trace := w.trace ++
            [Call.createDescriptorPool (min ((a.mSetsPerPool * 2) % 2 ^ 32) 4092) VK_SUCCESS
              w.dev.pools.length] } := by
  rw [get_pool_of_empty Sim.driver a w h, sim_create]
  rfl

/-- The last ready pool has room: one attempt, on it, and nothing else changes. -/
theorem sim_allocate_hit (a : DescriptorAllocatorGrowable) (w : World Sim)
    (layout : VkDescriptorSetLayout) (l : List VkDescriptorPool) (p : VkDescriptorPool)
    (sp : SimPool) (hready : a.mReadyPools = l ++ [p]) (hp : w.dev.pools[p]? = some sp)
    (hlive : sp.destroyed = false) (hroom : sp.allocated < sp.maxSets) :
    allocate Sim.driver a w layout =
      Outcome.ok (w.dev.setsIssued, a)
        { dev := { w.dev with
                   pools := w.dev.pools.set p { sp with allocated := sp.allocated + 1 },
                   setsIssued := w.dev.setsIssued + 1 },
          trace := w.trace ++ [Call.allocateDescriptorSets p layout VK_SUCCESS] } := by
  simp only [allocate]
  rw [get_pool_of_ready Sim.driver a w l p hready]
  simp only [sim_attempt_hit w p layout sp hp hlive hroom]
  rw [if_neg (by decide)]
  cases a
  simp_all

/-- The last ready pool is exhausted and it is the only ready pool: it is retired, a pool of
the grown size is created, and the retry on it succeeds exactly when that size is not 0. -/
theorem sim_allocate_grow (a : DescriptorAllocatorGrowable) (w : World Sim)
    (layout : VkDescriptorSetLayout) (p : VkDescriptorPool)
    (sp : SimPool) (hready : a.mReadyPools = [p]) (hp : w.dev.pools[p]? = some sp)
    (hlive : sp.destroyed = false) (hfull : ¬ sp.allocated < sp.maxSets) :
    allocate Sim.driver a w layout =
      if 0 < min ((a.mSetsPerPool * 2) % 2 ^ 32) 4092 then
        Outcome.ok (w.dev.setsIssued,
            { a with
              mFullPools := a.mFullPools ++ [p], mReadyPools := [w.dev.pools.length],
              mSetsPerPool := min ((a.mSetsPerPool * 2) % 2 ^ 32) 4092 })
          { dev := { w.dev with
                     pools := w.dev.pools ++
                       [{ maxSets := min ((a.mSetsPerPool * 2) % 2 ^ 32) 4092, allocated := 1,
                          destroyed := false }],
                     setsIssued := w.dev.setsIssued + 1 },
            trace := w.trace ++
              [Call.allocateDescriptorSets p layout VK_ERROR_OUT_OF_POOL_MEMORY,
               Call.createDescriptorPool (min ((a.mSetsPerPool * 2) % 2 ^ 32) 4092) VK_SUCCESS
                 w.dev.pools.length,
               Call.allocateDescriptorSets w.dev.pools.length layout VK_SUCCESS] }
      else
        Outcome.abort
          { dev := { w.dev with
                     pools := w.dev.pools ++
                       [{ maxSets := min ((a.mSetsPerPool * 2) % 2 ^ 32) 4092, allocated := 0,
                          destroyed := false }] },
            trace := w.trace ++
              [Call.allocateDescriptorSets p layout VK_ERROR_OUT_OF_POOL_MEMORY,
               Call.createDescriptorPool (min ((a.mSetsPerPool * 2) % 2 ^ 32) 4092) VK_SUCCESS
                 w.dev.pools.length,
               Call.allocateDescriptorSets w.dev.pools.length layout
                 VK_ERROR_OUT_OF_POOL_MEMORY] } := by
  simp only [allocate]
  rw [get_pool_of_ready Sim.driver a w [] p (by simpa using hready)]
  simp only [sim_attempt_miss w p layout sp hp hlive hfull]
  simp only [true_or, if_true]
  rw [sim_get_pool_of_empty _ _ rfl]
  simp only []
  by_cases hcap : 0 < min ((a.mSetsPerPool * 2) % 2 ^ 32) 4092
  · rw [if_pos hcap]
    rw [sim_attempt_hit _ _ layout
      { maxSets := min ((a.mSetsPerPool * 2) % 2 ^ 32) 4092, allocated := 0, destroyed := false }
      (by simp) rfl hcap]
    simp [VK_CHECK]
  · rw [if_neg hcap]
    rw [sim_attempt_miss _ _ layout
      { maxSets := min ((a.mSetsPerPool * 2) % 2 ^ 32) 4092, allocated := 0, destroyed := false }
      (by simp) rfl hcap]
    simp [VK_CHECK]

/-! ### `init` on the counting driver -/

theorem foldl_push_back {α : Type} (l : List α) :
    ∀ acc : List α, l.foldl (fun acc x => acc ++ [x]) acc = acc ++ l := by
  induction l with
  | nil => intro acc; simp
  | cons x l ih => intro acc; simp [List.foldl, ih]

theorem sim_init (garbage : Nat) (w : World Sim) (c : Nat) (ratios : List PoolSizeRatio) :
    init Sim.driver (fresh garbage) w c ratios =
      Outcome.ok
        { mPoolRatios := ratios, mFullPools := [], mReadyPools := [w.dev.pools.length],
          mSetsPerPool := c }
        { dev := { w.dev with
                   pools := w.dev.pools ++ [{ maxSets := c, allocated := 0, destroyed := false }] },
          trace := w.trace ++ [Call.createDescriptorPool c VK_SUCCESS w.dev.pools.length] } := by
  simp [init, create_pool, sim_create, VK_CHECK, fresh, foldl_push_back]

/-! ### The pool-selection step and the trace of a call, on any driver -/

/-- What the pool-selection step does when it returns: the full list is untouched, and the pool
is either the last ready pool, popped with no driver call, or a pool created by the one driver
call made, the ready list being empty before and after. -/
theorem get_pool_ok_cases {D : Type} (api : Driver D) (a : DescriptorAllocatorGrowable)
    (w : World D) (p : VkDescriptorPool) (a1 : DescriptorAllocatorGrowable) (w1 : World D)
    (h : get_descriptor_allocation_pool api a w = Outcome.ok (p, a1) w1) :
    a1.mFullPools = a.mFullPools
    ∧ ((a.mReadyPools.getLast? = some p ∧ a1.mReadyPools = a.mReadyPools.dropLast ∧ w1 = w)
      ∨ (a.mReadyPools = [] ∧ a1.mReadyPools = []
          ∧ ∃ cap, w1.trace = w.trace ++ [Call.createDescriptorPool cap VK_SUCCESS p])) := by
  cases hl : a.mReadyPools.getLast? with
  | some q =>
    simp only [get_descriptor_allocation_pool, hl] at h
    injection h with h1 h2
    injection h1 with h3 h4
    subst h3 h4 h2
    exact ⟨rfl, Or.inl ⟨rfl, rfl, rfl⟩⟩
  | none =>
    have hnil : a.mReadyPools = [] := List.getLast?_eq_none_iff.1 hl
    rw [get_pool_of_empty api a w hnil] at h
    split at h
    · rename_i hc
      injection h with h1 h2
      injection h1 with h3 h4
      subst h3 h4 h2
      refine ⟨rfl, Or.inr ⟨hnil, hnil, min ((a.mSetsPerPool * 2) % 2 ^ 32) 4092, ?_⟩⟩
      simp only [World.vkCreateDescriptorPool, hc]
    · exact absurd h (by simp)

/-- When the pool-selection step does not return, the ready list was empty and the one driver
call made is the failed pool creation. -/
theorem get_pool_not_ok_cases {D : Type} (api : Driver D) (a : DescriptorAllocatorGrowable)
    (w : World D) (h : (get_descriptor_allocation_pool api a w).isOk = false) :
    get_descriptor_allocation_pool api a w =
        Outcome.abort (get_descriptor_allocation_pool api a w).world
    ∧ ∃ cap r p, (get_descriptor_allocation_pool api a w).world.trace =
        w.trace ++ [Call.createDescriptorPool cap r p] := by
  cases hl : a.mReadyPools.getLast? with
  | some q =>
    simp [get_descriptor_allocation_pool, hl, Outcome.isOk] at h
  | none =>
    have hnil : a.mReadyPools = [] := List.getLast?_eq_none_iff.1 hl
    rw [get_pool_of_empty api a w hnil] at h ⊢
    split at h
    · simp [Outcome.isOk] at h
    · rename_i hc
      rw [if_neg hc]
      exact ⟨rfl, _, _, _, rfl⟩

theorem attempts_append (s t : List Call) : attempts (s ++ t) = attempts s ++ attempts t := by
  induction s with
  | nil => rfl
  | cons c s ih => cases c <;> simp [attempts, ih]

theorem newCalls_append {D : Type} (w w1 : World D) (extra : List Call)
    (h : w1.trace = w.trace ++ extra) : newCalls w w1 = extra := by
  simp [newCalls, h]

theorem allocate_of_selected {D : Type} (api : Driver D) (a : DescriptorAllocatorGrowable)
    (w : World D) (layout : VkDescriptorSetLayout) (p1 : VkDescriptorPool)
    (a1 : DescriptorAllocatorGrowable) (w1 : World D)
    (hsel : get_descriptor_allocation_pool api a w = Outcome.ok (p1, a1) w1) :
    allocate api a w layout =
      if (w1.vkAllocateDescriptorSets api p1 layout).1 = VK_ERROR_OUT_OF_POOL_MEMORY
          ∨ (w1.vkAllocateDescriptorSets api p1 layout).1 = VK_ERROR_FRAGMENTED_POOL then
        match get_descriptor_allocation_pool api
            { a1 with mFullPools := a1.mFullPools ++ [p1] }
            (w1.vkAllocateDescriptorSets api p1 layout).2.2 with
        | Outcome.ok (p2, a3) w3 =>
          if (w3.vkAllocateDescriptorSets api p2 layout).1 = VK_SUCCESS then
            Outcome.ok ((w3.vkAllocateDescriptorSets api p2 layout).2.1,
                { a3 with mReadyPools := a3.mReadyPools ++ [p2] })
              (w3.vkAllocateDescriptorSets api p2 layout).2.2
          else Outcome.abort (w3.vkAllocateDescriptorSets api p2 layout).2.2
        | Outcome.abort w3 => Outcome.abort w3
        | Outcome.undefined w3 => Outcome.undefined w3
      else
        Outcome.ok ((w1.vkAllocateDescriptorSets api p1 layout).2.1,
            { a1 with mReadyPools := a1.mReadyPools ++ [p1] })
          (w1.vkAllocateDescriptorSets api p1 layout).2.2 := by
  simp only [allocate, hsel, VK_CHECK, decide_eq_true_eq]

theorem attempt_trace {D : Type} (api : Driver D) (w : World D) (p : VkDescriptorPool)
    (layout : VkDescriptorSetLayout) :
    (w.vkAllocateDescriptorSets api p layout).2.2.trace =
      w.trace ++ [Call.allocateDescriptorSets p layout (w.vkAllocateDescriptorSets api p layout).1] :=
  rfl

/-- The calls made by a pool-selection step that returns hold no allocation attempt and at most
the one creation of the pool handed out. -/
theorem get_pool_ok_trace {D : Type} (api : Driver D) (a : DescriptorAllocatorGrowable)
    (w : World D) (p : VkDescriptorPool) (a1 : DescriptorAllocatorGrowable) (w1 : World D)
    (h : get_descriptor_allocation_pool api a w = Outcome.ok (p, a1) w1) :
    ∃ pre, w1.trace = w.trace ++ pre ∧ attempts pre = []
      ∧ (a.mReadyPools.getLast? = some p → creations pre = [])
      ∧ (a.mReadyPools = [] → ∃ cap, creations pre = [(cap, p)]) := by
  rcases (get_pool_ok_cases api a w p a1 w1 h).2 with ⟨hlast, -, rfl⟩ | ⟨hnil, -, cap, htr⟩
  · refine ⟨[], by simp, rfl, fun _ => rfl, fun hnil => ?_⟩
    rw [hnil] at hlast
    exact absurd hlast (by simp)
  · refine ⟨_, htr, rfl, fun hlast => ?_, fun _ => ⟨cap, rfl⟩⟩
    rw [hnil] at hlast
    exact absurd hlast (by simp)

/-! ### `clear_pools` and `destroy_pools` as list operations -/

theorem foldl_reset_collect {D : Type} (api : Driver D) (l : List VkDescriptorPool) :
    ∀ (r : List VkDescriptorPool) (w : World D),
      l.foldl
          (fun (st : List VkDescriptorPool × World D) pool =>
            (st.1 ++ [pool], st.2.vkResetDescriptorPool api pool))
          (r, w)
        = (r ++ l, l.foldl (fun w pool => w.vkResetDescriptorPool api pool) w) := by
  induction l with
  | nil => intro r w; simp
  | cons p l ih => intro r w; simp [List.foldl, ih]

theorem clear_pools_eq {D : Type} (api : Driver D) (a : DescriptorAllocatorGrowable)
    (w : World D) :
    clear_pools api a w =
      ({ a with mReadyPools := a.mReadyPools ++ a.mFullPools, mFullPools := [] },
        (a.mReadyPools ++ a.mFullPools).foldl (fun w pool => w.vkResetDescriptorPool api pool)
          w) := by
  simp only [clear_pools, foldl_reset_collect, List.foldl_append]

theorem foldl_reset_dev (l : List VkDescriptorPool) :
    ∀ w : World Sim,
      (l.foldl (fun w pool => w.vkResetDescriptorPool Sim.driver pool) w).dev
        = l.foldl Sim.resetDescriptorPool w.dev := by
  induction l with
  | nil => intro w; rfl
  | cons p l ih => intro w; simp only [List.foldl, ih]; rfl

/-! ### Resetting pools of the counting driver -/

theorem sim_reset_get (d : Sim) (p q : VkDescriptorPool) :
    (d.resetDescriptorPool p).pools[q]? =
      if p = q then d.pools[q]?.map (fun sp => { sp with allocated := 0 }) else d.pools[q]? := by
  unfold Sim.resetDescriptorPool
  cases hp : d.pools[p]? with
  | none =>
    by_cases hpq : p = q
    · subst hpq; simp [hp]
    · simp [hpq]
  | some sp =>
    by_cases hpq : p = q
    · subst hpq
      simp [List.getElem?_set_self', hp]
    · simp [hpq, List.getElem?_set_ne hpq]

theorem sim_reset_usable (d : Sim) (p q : VkDescriptorPool) (h : d.Usable q) :
    (d.resetDescriptorPool p).Usable q := by
  obtain ⟨sp, hq, hlive, hcap⟩ := h
  by_cases hpq : p = q
  · exact ⟨{ sp with allocated := 0 }, by simp [sim_reset_get, hpq, hq], hlive, hcap⟩
  · exact ⟨sp, by simp [sim_reset_get, hpq, hq], hlive, hcap⟩

theorem sim_reset_unused (d : Sim) (p q : VkDescriptorPool) (h : d.Unused q) :
    (d.resetDescriptorPool p).Unused q := by
  obtain ⟨sp, hq, hzero⟩ := h
  by_cases hpq : p = q
  · exact ⟨{ sp with allocated := 0 }, by simp [sim_reset_get, hpq, hq], rfl⟩
  · exact ⟨sp, by simp [sim_reset_get, hpq, hq], hzero⟩

theorem sim_reset_unused_self (d : Sim) (p : VkDescriptorPool) (h : d.Usable p) :
    (d.resetDescriptorPool p).Unused p := by
  obtain ⟨sp, hq, -, -⟩ := h
  exact ⟨{ sp with allocated := 0 }, by simp [sim_reset_get, hq], rfl⟩

theorem sim_foldl_reset_usable (l : List VkDescriptorPool) :
    ∀ (d : Sim) (q : VkDescriptorPool), d.Usable q →
      (l.foldl Sim.resetDescriptorPool d).Usable q := by
  induction l with
  | nil => intro d q h; exact h
  | cons p l ih => intro d q h; exact ih _ q (sim_reset_usable d p q h)

theorem sim_foldl_reset_keeps_unused (l : List VkDescriptorPool) :
    ∀ (d : Sim) (q : VkDescriptorPool), d.Unused q →
      (l.foldl Sim.resetDescriptorPool d).Unused q := by
  induction l with
  | nil => intro d q h; exact h
  | cons p l ih => intro d q h; exact ih _ q (sim_reset_unused d p q h)

theorem sim_foldl_reset_unused (l : List VkDescriptorPool) :
    ∀ (d : Sim), (∀ p ∈ l, d.Usable p) → ∀ q ∈ l,
      (l.foldl Sim.resetDescriptorPool d).Unused q := by
  induction l with
  | nil => intro d _ q hq; exact absurd hq (by simp)
  | cons p l ih =>
    intro d hall q hq
    simp only [List.foldl]
    rcases List.mem_cons.1 hq with rfl | hql
    · exact sim_foldl_reset_keeps_unused l _ _
        (sim_reset_unused_self d q (hall q (List.mem_cons_self _ _)))
    · exact ih _ (fun r hr => sim_reset_usable d p r (hall r (List.mem_cons_of_mem _ hr))) q hql

/-! ### The invariant is kept by every public call -/

theorem usable_lt {d : Sim} {p : VkDescriptorPool} (h : d.Usable p) : p < d.pools.length := by
  obtain ⟨sp, hp, -, -⟩ := h
  exact (List.getElem?_eq_some_iff.1 hp).1

theorem usable_of_append {d d1 : Sim} {x : SimPool} (hd : d1.pools = d.pools ++ [x])
    {p : VkDescriptorPool} (h : d.Usable p) : d1.Usable p := by
  have hlt := usable_lt h
  obtain ⟨sp, hp, hlive, hcap⟩ := h
  exact ⟨sp, by rw [hd, List.getElem?_append_left hlt, hp], hlive, hcap⟩

theorem unused_of_append {d d1 : Sim} {x : SimPool} (hd : d1.pools = d.pools ++ [x])
    {p : VkDescriptorPool} (h : d.Unused p) : d1.Unused p := by
  obtain ⟨sp, hp, hzero⟩ := h
  have hlt : p < d.pools.length := (List.getElem?_eq_some_iff.1 hp).1
  exact ⟨sp, by rw [hd, List.getElem?_append_left hlt, hp], hzero⟩

theorem usable_of_set {d d1 : Sim} {p : VkDescriptorPool} {sp : SimPool} {n : Nat}
    (hp : d.pools[p]? = some sp) (hd : d1.pools = d.pools.set p { sp with allocated := n })
    {q : VkDescriptorPool} (h : d.Usable q) : d1.Usable q := by
  obtain ⟨sq, hq, hlive, hcap⟩ := h
  by_cases hpq : p = q
  · subst hpq
    rw [hp] at hq
    injection hq with hq
    subst hq
    exact ⟨{ sp with allocated := n }, by rw [hd, List.getElem?_set_self', hp]; rfl, hlive, hcap⟩
  · exact ⟨sq, by rw [hd, List.getElem?_set_ne hpq, hq], hlive, hcap⟩

theorem unused_of_set_ne {d d1 : Sim} {p : VkDescriptorPool} {x : SimPool}
    (hd : d1.pools = d.pools.set p x) {q : VkDescriptorPool} (hpq : p ≠ q) (h : d.Unused q) :
    d1.Unused q := by
  obtain ⟨sq, hq, hz⟩ := h
  exact ⟨sq, by rw [hd, List.getElem?_set_ne hpq, hq], hz⟩

theorem usable_new {d d1 : Sim} {x : SimPool} (hd : d1.pools = d.pools ++ [x])
    (hlive : x.destroyed = false) (hcap : 1 ≤ x.maxSets) : d1.Usable d.pools.length :=
  ⟨x, by rw [hd]; simp, hlive, hcap⟩

theorem allocInv_init (garbage c : Nat) (ratios : List PoolSizeRatio) (w : World Sim)
    (hc : (c * 2) % 2 ^ 32 ≠ 0) :
    ∃ a1 w1, init Sim.driver (fresh garbage) w c ratios = Outcome.ok a1 w1
      ∧ AllocInv a1 w1.dev := by
  refine ⟨_, _, sim_init garbage w c ratios, ?_⟩
  refine ⟨hc, by simp, ?_, by simp⟩
  intro p hp
  simp only [List.append_nil, List.mem_singleton] at hp
  subst hp
  exact ⟨{ maxSets := c, allocated := 0, destroyed := false }, by simp, rfl,
    by show 1 ≤ c; omega⟩

theorem allocInv_clear_pools (a : DescriptorAllocatorGrowable) (w : World Sim)
    (h : AllocInv a w.dev) :
    AllocInv (clear_pools Sim.driver a w).1 (clear_pools Sim.driver a w).2.dev := by
  rw [clear_pools_eq]
  simp only [foldl_reset_dev]
  refine ⟨h.grows, by simpa using h.nodup, ?_, ?_⟩
  · intro p hp
    simp only [List.append_nil] at hp
    exact sim_foldl_reset_usable _ _ _ (h.usable p hp)
  · intro p hp
    exact sim_foldl_reset_unused _ _ h.usable p (List.mem_of_mem_dropLast hp)

theorem allocInv_destroy_pools (a : DescriptorAllocatorGrowable) (w : World Sim)
    (h : AllocInv a w.dev) :
    AllocInv (destroy_pools Sim.driver a w).1 (destroy_pools Sim.driver a w).2.dev := by
  refine ⟨h.grows, ?_, ?_, ?_⟩ <;> simp [destroy_pools]

/-- No pool is ready and the grown size is not 0: a pool is created and serves the call. -/
theorem sim_allocate_fresh (a : DescriptorAllocatorGrowable) (w : World Sim)
    (layout : VkDescriptorSetLayout) (hready : a.mReadyPools = [])
    (hcap : 0 < min ((a.mSetsPerPool * 2) % 2 ^ 32) 4092) :
    allocate Sim.driver a w layout =
      Outcome.ok (w.dev.setsIssued,
          { a with
            mReadyPools := [w.dev.pools.length],
            mSetsPerPool := min ((a.mSetsPerPool * 2) % 2 ^ 32) 4092 })
        { dev := { w.dev with
                   pools := w.dev.pools ++
                     [{ maxSets := min ((a.mSetsPerPool * 2) % 2 ^ 32) 4092, allocated := 1,
                        destroyed := false }],
                   setsIssued := w.dev.setsIssued + 1 },
          trace := w.trace ++
            [Call.createDescriptorPool (min ((a.mSetsPerPool * 2) % 2 ^ 32) 4092) VK_SUCCESS
               w.dev.pools.length,
             Call.allocateDescriptorSets w.dev.pools.length layout VK_SUCCESS] } := by
  simp only [allocate]
  rw [sim_get_pool_of_empty a w hready]
  simp only []
  rw [sim_attempt_hit _ _ layout
    { maxSets := min ((a.mSetsPerPool * 2) % 2 ^ 32) 4092, allocated := 0, destroyed := false }
    (by simp) rfl hcap]
  simp only []
  rw [if_neg (by decide)]
  simp [hready]

/-- The last ready pool is exhausted and the ready pool before it has room: the exhausted pool
is retired and the pool before it serves the call. -/
theorem sim_allocate_next (a : DescriptorAllocatorGrowable) (w : World Sim)
    (layout : VkDescriptorSetLayout) (l : List VkDescriptorPool) (q p : VkDescriptorPool)
    (sp sq : SimPool) (hready : a.mReadyPools = l ++ [q] ++ [p])
    (hp : w.dev.pools[p]? = some sp) (hlive : sp.destroyed = false)
    (hfull : ¬ sp.allocated < sp.maxSets) (hq : w.dev.pools[q]? = some sq)
    (hqlive : sq.destroyed = false) (hqroom : sq.allocated < sq.maxSets) :
    allocate Sim.driver a w layout =
      Outcome.ok (w.dev.setsIssued,
          { a with mFullPools := a.mFullPools ++ [p], mReadyPools := l ++ [q] })
        { dev := { w.dev with
                   pools := w.dev.pools.set q { sq with allocated := sq.allocated + 1 },
                   setsIssued := w.dev.setsIssued + 1 },
          trace := w.trace ++
            [Call.allocateDescriptorSets p layout VK_ERROR_OUT_OF_POOL_MEMORY,
             Call.allocateDescriptorSets q layout VK_SUCCESS] } := by
  simp only [allocate]
  rw [get_pool_of_ready Sim.driver a w (l ++ [q]) p hready]
  simp only [sim_attempt_miss w p layout sp hp hlive hfull]
  simp only [true_or, if_true]
  rw [get_pool_of_ready Sim.driver _ _ l q rfl]
  simp only []
  rw [sim_attempt_hit
    { dev := w.dev,
      trace := w.trace ++ [Call.allocateDescriptorSets p layout VK_ERROR_OUT_OF_POOL_MEMORY] }
    q layout sq hq hqlive hqroom]
  simp [VK_CHECK]

theorem attempts_two_shapes {D : Type} (w w2 : World D) (extra : List Call)
    (htrace : w2.trace = w.trace ++ extra)
    (hshape : (∃ p1, attempts extra = [(p1, VK_SUCCESS)])
      ∨ ∃ p1 p2, attempts extra = [(p1, VK_ERROR_OUT_OF_POOL_MEMORY), (p2, VK_SUCCESS)]) :
    (∃ p1, attempts (newCalls w w2) = [(p1, VK_SUCCESS)])
      ∨ ∃ p1 p2,
          attempts (newCalls w w2) = [(p1, VK_ERROR_OUT_OF_POOL_MEMORY), (p2, VK_SUCCESS)] := by
  rw [newCalls_append w w2 extra htrace]
  exact hshape

/-- Under the invariant a call of `allocate` returns, keeps the invariant, and either its one
attempt succeeds or its first attempt reports exhaustion and its second succeeds. -/
theorem allocInv_allocate (a : DescriptorAllocatorGrowable) (w : World Sim)
    (layout : VkDescriptorSetLayout) (h : AllocInv a w.dev) :
    ∃ ds a2 w2, allocate Sim.driver a w layout = Outcome.ok (ds, a2) w2
      ∧ AllocInv a2 w2.dev
      ∧ ((∃ p1, attempts (newCalls w w2) = [(p1, VK_SUCCESS)])
        ∨ ∃ p1 p2,
            attempts (newCalls w w2) =
              [(p1, VK_ERROR_OUT_OF_POOL_MEMORY), (p2, VK_SUCCESS)]) := by
  have hgrow := h.grows
  have hcap : 0 < min ((a.mSetsPerPool * 2) % 2 ^ 32) 4092 := by omega
  have hcap2 : (min ((a.mSetsPerPool * 2) % 2 ^ 32) 4092 * 2) % 2 ^ 32 ≠ 0 := by omega
  rcases List.eq_nil_or_concat a.mReadyPools with hnil | ⟨l, p, hlp⟩
  · -- no ready pool: grow
    refine ⟨_, _, _, sim_allocate_fresh a w layout hnil hcap, ?_,
      attempts_two_shapes _ _ _ rfl (Or.inl ⟨_, rfl⟩)⟩
    have hus := h.usable
    have hnd := h.nodup
    rw [hnil] at hus hnd
    simp only [List.nil_append] at hus hnd
    refine ⟨hcap2, ?_, ?_, by simp⟩
    · simp only [List.singleton_append, List.nodup_cons]
      exact ⟨fun hmem => absurd (usable_lt (hus _ hmem)) (Nat.lt_irrefl _), hnd⟩
    · intro r hr
      simp only [List.singleton_append, List.mem_cons] at hr
      rcases hr with rfl | hr
      · exact usable_new rfl rfl hcap
      · exact usable_of_append rfl (hus r hr)
  · -- a ready pool `p` is tried first
    rw [List.concat_eq_append] at hlp
    have hus := h.usable
    have hnd := h.nodup
    have hun := h.unused
    rw [hlp] at hus hnd hun
    simp only [List.dropLast_concat] at hun
    obtain ⟨sp, hp, hlive, hmax⟩ := hus p (by simp)
    by_cases hroom : sp.allocated < sp.maxSets
    · -- it has room
      refine ⟨_, _, _, sim_allocate_hit a w layout l p sp hlp hp hlive hroom, ?_,
        attempts_two_shapes _ _ _ rfl (Or.inl ⟨_, rfl⟩)⟩
      refine ⟨hgrow, h.nodup, ?_, ?_⟩
      · intro r hr
        exact usable_of_set hp rfl (h.usable r hr)
      · intro r hr
        rw [hlp, List.dropLast_concat] at hr
        have hne : p ≠ r := by
          rintro rfl
          have := List.nodup_append.1 hnd
          have hnd2 := List.nodup_append.1 this.1
          exact hnd2.2.2 hr (by simp)
        exact unused_of_set_ne rfl hne (hun r hr)
    · rcases List.eq_nil_or_concat l with hl | ⟨l2, q, hl2⟩
      · -- it is exhausted and no other pool is ready: grow
        subst hl
        simp only [List.nil_append] at hlp hus hnd
        have hres := sim_allocate_grow a w layout p sp hlp hp hlive hroom
        rw [if_pos hcap] at hres
        refine ⟨_, _, _, hres, ?_, attempts_two_shapes _ _ _ rfl (Or.inr ⟨_, _, rfl⟩)⟩
        have hperm : (a.mFullPools ++ [p]).Perm ([p] ++ a.mFullPools) := List.perm_append_comm
        have hfresh : w.dev.pools.length ∉ a.mFullPools ++ [p] := fun hmem =>
          absurd (usable_lt (hus _ (hperm.mem_iff.1 hmem))) (Nat.lt_irrefl _)
        refine ⟨hcap2, ?_, ?_, by simp⟩
        · show ([w.dev.pools.length] ++ (a.mFullPools ++ [p])).Nodup
          exact List.nodup_cons.2 ⟨hfresh, hperm.nodup_iff.2 hnd⟩
        · intro r hr
          have hr2 : r = w.dev.pools.length ∨ r ∈ a.mFullPools ++ [p] := by
            simpa using hr
          rcases hr2 with rfl | hr2
          · exact usable_new rfl rfl hcap
          · exact usable_of_append rfl (hus r (hperm.mem_iff.1 hr2))
      · -- it is exhausted and the pool before it, being unused, serves the call
        rw [List.concat_eq_append] at hl2
        subst hl2
        obtain ⟨sq, hq, hqlive, hqmax⟩ := hus q (by simp)
        obtain ⟨sq2, hq2, hqzero⟩ := hun q (by simp)
        rw [hq] at hq2
        injection hq2 with hq2
        subst hq2
        have hqroom : sq.allocated < sq.maxSets := by omega
        refine ⟨_, _, _, sim_allocate_next a w layout l2 q p sp sq hlp hp hlive hroom hq hqlive
          hqroom, ?_, attempts_two_shapes _ _ _ rfl (Or.inr ⟨_, _, rfl⟩)⟩
        have hperm : (l2 ++ [q] ++ (a.mFullPools ++ [p])).Perm
            (l2 ++ [q] ++ [p] ++ a.mFullPools) := by
          simp only [List.append_assoc]
          exact List.Perm.append_left _ (List.Perm.append_left _ List.perm_append_comm)
        refine ⟨hgrow, hperm.nodup_iff.2 hnd, ?_, ?_⟩
        · intro r hr
          exact usable_of_set hq rfl (hus r ((hperm.mem_iff).1 hr))
        · intro r hr
          simp only [List.dropLast_concat] at hr
          have hne : q ≠ r := by
            rintro rfl
            have h1 := (List.nodup_append.1 hnd).1
            have h2 := (List.nodup_append.1 h1).1
            have h3 := List.nodup_append.1 h2
            exact h3.2.2 hr (by simp)
          exact unused_of_set_ne rfl hne (hun r (by simp [hr]))

theorem allocInv_runOps (ops : List AllocOp) :
    ∀ (a : DescriptorAllocatorGrowable) (w : World Sim), AllocInv a w.dev →
      ∃ a1 w1, runOps Sim.driver ops a w = Outcome.ok a1 w1 ∧ AllocInv a1 w1.dev := by
  induction ops with
  | nil => intro a w h; exact ⟨a, w, rfl, h⟩
  | cons op ops ih =>
    intro a w h
    cases op with
    | allocate layout =>
      obtain ⟨ds, a2, w2, halloc, hinv, -⟩ := allocInv_allocate a w layout h
      obtain ⟨a3, w3, hrun, hinv3⟩ := ih a2 w2 hinv
      exact ⟨a3, w3, by simp only [runOps, step, halloc]; exact hrun, hinv3⟩
    | clear_pools =>
      obtain ⟨a3, w3, hrun, hinv3⟩ := ih _ _ (allocInv_clear_pools a w h)
      exact ⟨a3, w3, by simp only [runOps, step]; exact hrun, hinv3⟩
    | destroy_pools =>
      obtain ⟨a3, w3, hrun, hinv3⟩ := ih _ _ (allocInv_destroy_pools a w h)
      exact ⟨a3, w3, by simp only [runOps, step]; exact hrun, hinv3⟩

theorem allocInv_initThenRun (c garbage : Nat) (ratios : List PoolSizeRatio) (w0 : World Sim)
    (ops : List AllocOp) (hc : (c * 2) % 2 ^ 32 ≠ 0) :
    ∃ a w1, initThenRun Sim.driver garbage w0 c ratios ops = Outcome.ok a w1
      ∧ AllocInv a w1.dev := by
  obtain ⟨a1, w1, hinit, hinv⟩ := allocInv_init garbage c ratios w0 hc
  obtain ⟨a2, w2, hrun, hinv2⟩ := allocInv_runOps ops a1 w1 hinv
  exact ⟨a2, w2, by simp only [initThenRun, hinit]; exact hrun, hinv2⟩

/-- C5, refuted as stated: on the counting driver, an allocator initialised with
`initialSetCount = 0` reaches the fatal check in its first call of `allocate`: the initial
pool of capacity 0 reports exhaustion, the grown pool has capacity `0 * 2 = 0`, and the retry
on it reports exhaustion too. -/
theorem C5_fatal_from_zero_sets :
    (initThenRun Sim.driver 0 (Sim.world (Sim.start 0 [] [])) 0 []
        [AllocOp.allocate 0]).isAbort = true
    ∧ (initThenRun Sim.driver 0 (Sim.world (Sim.start 0 [] [])) 0 []
        [AllocOp.allocate 0]).world.trace =
      [Call.createDescriptorPool 0 VK_SUCCESS 0,
        Call.allocateDescriptorSets 0 0 VK_ERROR_OUT_OF_POOL_MEMORY,
        Call.createDescriptorPool 0 VK_SUCCESS 1,
        Call.allocateDescriptorSets 1 0 VK_ERROR_OUT_OF_POOL_MEMORY] := by
  constructor <;> decide

/-- C5, amended: on the counting driver, for every 32-bit `initialSetCount` other than 0 and
`2 ^ 31`, every sequence of `allocate`, `clear_pools` and `destroy_pools` calls after `init`
returns, and in the state it reaches a call of `allocate` returns too: either its one attempt
succeeds, or its first attempt reports pool exhaustion and its one retry succeeds. -/
theorem C5_exhaustion_not_fatal (c garbage : Nat) (ratios : List PoolSizeRatio) (w0 : World Sim)
    (ops : List AllocOp) (layout : VkDescriptorSetLayout) (hc : c < 2 ^ 32) (h0 : c ≠ 0)
    (h31 : c ≠ 2 ^ 31) :
    ∃ a w1, initThenRun Sim.driver garbage w0 c ratios ops = Outcome.ok a w1
      ∧ ∃ ds a2 w2, allocate Sim.driver a w1 layout = Outcome.ok (ds, a2) w2
        ∧ ((∃ p1, attempts (newCalls w1 w2) = [(p1, VK_SUCCESS)])
          ∨ ∃ p1 p2,
              attempts (newCalls w1 w2) =
                [(p1, VK_ERROR_OUT_OF_POOL_MEMORY), (p2, VK_SUCCESS)]) := by
  obtain ⟨a, w1, hrun, hinv⟩ :=
    allocInv_initThenRun c garbage ratios w0 ops (by omega)
  obtain ⟨ds, a2, w2, halloc, -, hshape⟩ := allocInv_allocate a w1 layout hinv
  exact ⟨a, w1, hrun, ds, a2, w2, halloc, hshape⟩

/-- C5, amended, at a concrete input: `initialSetCount = 1`, then two calls of `allocate` and
a `clear_pools`. -/
theorem C5_exhaustion_not_fatal_witness :
    ∃ a w1,
      initThenRun Sim.driver 0 (Sim.world (Sim.start 0 [] [])) 1 []
          [AllocOp.allocate 0, AllocOp.allocate 0, AllocOp.clear_pools] = Outcome.ok a w1
      ∧ ∃ ds a2 w2, allocate Sim.driver a w1 0 = Outcome.ok (ds, a2) w2
        ∧ ((∃ p1, attempts (newCalls w1 w2) = [(p1, VK_SUCCESS)])
          ∨ ∃ p1 p2,
              attempts (newCalls w1 w2) =
                [(p1, VK_ERROR_OUT_OF_POOL_MEMORY), (p2, VK_SUCCESS)]) :=
  C5_exhaustion_not_fatal 1 0 [] (Sim.world (Sim.start 0 [] []))
    [AllocOp.allocate 0, AllocOp.allocate 0, AllocOp.clear_pools] 0 (by decide) (by decide)
    (by decide)

/-! ### The retry of `allocate`, on any driver -/

/-- C6, refuted as stated: on a device with memory for one pool only, after `init` with one set
per pool and one call of `allocate`, the next call fails its first attempt on pool 0 with
out-of-pool-memory, the pool creation of the second selection step fails, and the call is
aborted there: it has made one attempt in all, and no further attempt.  And from a state that
lists pool 0 twice as ready, the failed pool 0 is the pool of the second attempt too. -/
theorem C6_no_second_attempt_when_growth_fails :
    (∃ a w,
      initThenRun Sim.driverOnePool 0 (Sim.world (Sim.start 0 [] [])) 1 [] [AllocOp.allocate 0]
        = Outcome.ok a w
      ∧ a.mReadyPools = [0] ∧ a.mFullPools = []
      ∧ (allocate Sim.driverOnePool a w 0).isAbort = true
      ∧ newCalls w (allocate Sim.driverOnePool a w 0).world =
          [Call.allocateDescriptorSets 0 0 VK_ERROR_OUT_OF_POOL_MEMORY,
            Call.createDescriptorPool 2 VK_ERROR_OUT_OF_DEVICE_MEMORY 0]
      ∧ attempts (newCalls w (allocate Sim.driverOnePool a w 0).world) =
          [(0, VK_ERROR_OUT_OF_POOL_MEMORY)])
    ∧ attempts (newCalls
        (Sim.world { Sim.start 0 [] [] with pools := [⟨1, 1, false⟩] })
        (allocate Sim.driver
          { mPoolRatios := [], mFullPools := [], mReadyPools := [0, 0], mSetsPerPool := 1 }
          (Sim.world { Sim.start 0 [] [] with pools := [⟨1, 1, false⟩] }) 0).world)
      = [(0, VK_ERROR_OUT_OF_POOL_MEMORY), (0, VK_ERROR_OUT_OF_POOL_MEMORY)] := by
  refine ⟨⟨_, _, rfl, rfl, rfl, ?_, ?_, ?_⟩, ?_⟩ <;> decide

/-- C6, amended: on any driver and from any allocator state, a call of `allocate` makes at most
two allocation attempts.  When the first attempt, on the selected pool `p1`, reports
out-of-pool-memory or fragmented-pool, `p1` is appended to the full list and the selection
step runs again on the remaining ready list.  If that step returns a pool `p2` (the last of the
remaining ready pools, or else the one pool it creates), the full list is the old one followed
by `p1`, `p2` is not `p1` unless that handle is listed again among the ready pools or handed
out again by the driver, the attempts of the call are exactly the one on `p1` and one on `p2`,
and the call
returns when the attempt on `p2` succeeds and is aborted otherwise.  If that step does not
return (the pool creation failed), the call is aborted with the one attempt made.  The pool of
a first attempt, too, is the last ready pool or a pool created for the call, and the selection
step leaves the full list alone: no attempt is ever made on a pool taken from the full list. -/
theorem C6_retry_once {D : Type} (api : Driver D) (a : DescriptorAllocatorGrowable)
    (w : World D) (layout : VkDescriptorSetLayout) :
    (attempts (newCalls w (allocate api a w layout).world)).length ≤ 2
    ∧ (∀ p1 a1 w1, get_descriptor_allocation_pool api a w = Outcome.ok (p1, a1) w1 →
        ((w1.vkAllocateDescriptorSets api p1 layout).1 = VK_ERROR_OUT_OF_POOL_MEMORY
          ∨ (w1.vkAllocateDescriptorSets api p1 layout).1 = VK_ERROR_FRAGMENTED_POOL) →
        (∀ p2 a3 w3,
            get_descriptor_allocation_pool api { a1 with mFullPools := a1.mFullPools ++ [p1] }
                (w1.vkAllocateDescriptorSets api p1 layout).2.2 = Outcome.ok (p2, a3) w3 →
            a3.mFullPools = a.mFullPools ++ [p1]
            ∧ ((a1.mReadyPools.getLast? = some p2 ∧ a3.mReadyPools = a1.mReadyPools.dropLast
                  ∧ creations (newCalls (w1.vkAllocateDescriptorSets api p1 layout).2.2 w3) = [])
                ∨ (a1.mReadyPools = [] ∧ a3.mReadyPools = []
                  ∧ ∃ cap,
                      creations (newCalls (w1.vkAllocateDescriptorSets api p1 layout).2.2 w3)
                        = [(cap, p2)]))
            ∧ (p1 ∉ a1.mReadyPools →
                (∀ cap, (cap, p1) ∉
                  creations (newCalls (w1.vkAllocateDescriptorSets api p1 layout).2.2 w3)) →
                p2 ≠ p1)
            ∧ attempts (newCalls w (allocate api a w layout).world) =
                [(p1, (w1.vkAllocateDescriptorSets api p1 layout).1),
                  (p2, (w3.vkAllocateDescriptorSets api p2 layout).1)]
            ∧ ((w3.vkAllocateDescriptorSets api p2 layout).1 = VK_SUCCESS →
                allocate api a w layout =
                  Outcome.ok ((w3.vkAllocateDescriptorSets api p2 layout).2.1,
                      { a3 with mReadyPools := a3.mReadyPools ++ [p2] })
                    (w3.vkAllocateDescriptorSets api p2 layout).2.2)
            ∧ ((w3.vkAllocateDescriptorSets api p2 layout).1 ≠ VK_SUCCESS →
                allocate api a w layout =
                  Outcome.abort (w3.vkAllocateDescriptorSets api p2 layout).2.2))
        ∧ ((get_descriptor_allocation_pool api { a1 with mFullPools := a1.mFullPools ++ [p1] }
                (w1.vkAllocateDescriptorSets api p1 layout).2.2).isOk = false →
            (allocate api a w layout).isAbort = true
            ∧ attempts (newCalls w (allocate api a w layout).world) =
                [(p1, (w1.vkAllocateDescriptorSets api p1 layout).1)]))
    ∧ ∀ p1 a1 w1, get_descriptor_allocation_pool api a w = Outcome.ok (p1, a1) w1 →
        a1.mFullPools = a.mFullPools
        ∧ ((a.mReadyPools.getLast? = some p1 ∧ a1.mReadyPools = a.mReadyPools.dropLast ∧ w1 = w)
          ∨ (a.mReadyPools = [] ∧ a1.mReadyPools = []
            ∧ ∃ cap, w1.trace = w.trace ++ [Call.createDescriptorPool cap VK_SUCCESS p1])) := by
  have retry : ∀ p1 a1 w1, get_descriptor_allocation_pool api a w = Outcome.ok (p1, a1) w1 →
      ((w1.vkAllocateDescriptorSets api p1 layout).1 = VK_ERROR_OUT_OF_POOL_MEMORY
        ∨ (w1.vkAllocateDescriptorSets api p1 layout).1 = VK_ERROR_FRAGMENTED_POOL) →
      (∀ p2 a3 w3,
          get_descriptor_allocation_pool api { a1 with mFullPools := a1.mFullPools ++ [p1] }
              (w1.vkAllocateDescriptorSets api p1 layout).2.2 = Outcome.ok (p2, a3) w3 →
          a3.mFullPools = a.mFullPools ++ [p1]
          ∧ ((a1.mReadyPools.getLast? = some p2 ∧ a3.mReadyPools = a1.mReadyPools.dropLast
                ∧ creations (newCalls (w1.vkAllocateDescriptorSets api p1 layout).2.2 w3) = [])
              ∨ (a1.mReadyPools = [] ∧ a3.mReadyPools = []
                ∧ ∃ cap,
                    creations (newCalls (w1.vkAllocateDescriptorSets api p1 layout).2.2 w3)
                      = [(cap, p2)]))
          ∧ (p1 ∉ a1.mReadyPools →
              (∀ cap, (cap, p1) ∉
                creations (newCalls (w1.vkAllocateDescriptorSets api p1 layout).2.2 w3)) →
              p2 ≠ p1)
          ∧ attempts (newCalls w (allocate api a w layout).world) =
              [(p1, (w1.vkAllocateDescriptorSets api p1 layout).1),
                (p2, (w3.vkAllocateDescriptorSets api p2 layout).1)]
          ∧ ((w3.vkAllocateDescriptorSets api p2 layout).1 = VK_SUCCESS →
              allocate api a w layout =
                Outcome.ok ((w3.vkAllocateDescriptorSets api p2 layout).2.1,
                    { a3 with mReadyPools := a3.mReadyPools ++ [p2] })
                  (w3.vkAllocateDescriptorSets api p2 layout).2.2)
          ∧ ((w3.vkAllocateDescriptorSets api p2 layout).1 ≠ VK_SUCCESS →
              allocate api a w layout =
                Outcome.abort (w3.vkAllocateDescriptorSets api p2 layout).2.2))
      ∧ ((get_descriptor_allocation_pool api { a1 with mFullPools := a1.mFullPools ++ [p1] }
              (w1.vkAllocateDescriptorSets api p1 layout).2.2).isOk = false →
          (allocate api a w layout).isAbort = true
          ∧ attempts (newCalls w (allocate api a w layout).world) =
              [(p1, (w1.vkAllocateDescriptorSets api p1 layout).1)]) := by
    intro p1 a1 w1 hsel hfail
    obtain ⟨pre1, hpre1, hatt1, -, -⟩ := get_pool_ok_trace api a w p1 a1 w1 hsel
    have hfull1 := (get_pool_ok_cases api a w p1 a1 w1 hsel).1
    have halloc := allocate_of_selected api a w layout p1 a1 w1 hsel
    rw [if_pos hfail] at halloc
    constructor
    · intro p2 a3 w3 hsel2
      obtain ⟨pre2, hpre2, hatt2, hc1, hc2⟩ := get_pool_ok_trace api _ _ p2 a3 w3 hsel2
      have hcases2 := get_pool_ok_cases api _ _ p2 a3 w3 hsel2
      rw [hsel2] at halloc
      simp only [] at halloc
      have hnew2 : newCalls (w1.vkAllocateDescriptorSets api p1 layout).2.2 w3 = pre2 :=
        newCalls_append _ _ _ hpre2
      refine ⟨by rw [hcases2.1, ← hfull1], ?_, ?_, ?_, ?_, ?_⟩
      · rcases hcases2.2 with ⟨hlast, hdrop, -⟩ | ⟨hnil, hnil3, -⟩
        · exact Or.inl ⟨hlast, hdrop, by rw [hnew2]; exact hc1 hlast⟩
        · exact Or.inr ⟨hnil, hnil3, by rw [hnew2]; exact hc2 hnil⟩
      · intro hnotin hfresh heq
        subst heq
        rcases hcases2.2 with ⟨hlast, -, -⟩ | ⟨hnil, -, -⟩
        · exact hnotin (List.mem_of_getLast?_eq_some hlast)
        · obtain ⟨cap, hcap⟩ := hc2 hnil
          exact hfresh cap (by rw [hnew2, hcap]; simp)
      · have htrace : (allocate api a w layout).world.trace =
            w.trace ++ (pre1 ++ [Call.allocateDescriptorSets p1 layout
                (w1.vkAllocateDescriptorSets api p1 layout).1] ++ pre2
              ++ [Call.allocateDescriptorSets p2 layout
                (w3.vkAllocateDescriptorSets api p2 layout).1]) := by
          rw [halloc]
          have h4 : ∀ (o : Outcome (World D) (VkDescriptorSet × DescriptorAllocatorGrowable)),
              (o = Outcome.ok ((w3.vkAllocateDescriptorSets api p2 layout).2.1,
                    { a3 with mReadyPools := a3.mReadyPools ++ [p2] })
                  (w3.vkAllocateDescriptorSets api p2 layout).2.2
                ∨ o = Outcome.abort (w3.vkAllocateDescriptorSets api p2 layout).2.2) →
              o.world = (w3.vkAllocateDescriptorSets api p2 layout).2.2 := by
            rintro o (rfl | rfl) <;> rfl
          rw [h4 _ (by split <;> simp)]
          rw [attempt_trace, hpre2, attempt_trace, hpre1]
          simp only [List.append_assoc]
        rw [newCalls_append _ _ _ htrace]
        simp [attempts_append, hatt1, hatt2, attempts]
      · intro hok
        rw [halloc, if_pos hok]
      · intro hbad
        rw [halloc, if_neg hbad]
    · intro hno
      obtain ⟨habort, cap, r, p, htr⟩ := get_pool_not_ok_cases api _ _ hno
      rw [habort] at halloc
      simp only [] at halloc
      refine ⟨by rw [halloc]; rfl, ?_⟩
      have htrace : (allocate api a w layout).world.trace =
          w.trace ++ (pre1 ++ [Call.allocateDescriptorSets p1 layout
              (w1.vkAllocateDescriptorSets api p1 layout).1]
            ++ [Call.createDescriptorPool cap r p]) := by
        rw [halloc]
        show (get_descriptor_allocation_pool api _ _).world.trace = _
        rw [htr, attempt_trace, hpre1]
        simp only [List.append_assoc]
      rw [newCalls_append _ _ _ htrace]
      simp [attempts_append, hatt1, attempts]
  refine ⟨?_, retry, fun p1 a1 w1 hsel => get_pool_ok_cases api a w p1 a1 w1 hsel⟩
  cases hsel : get_descriptor_allocation_pool api a w with
  | ok res w1 =>
    obtain ⟨p1, a1⟩ := res
    by_cases hfail : (w1.vkAllocateDescriptorSets api p1 layout).1 = VK_ERROR_OUT_OF_POOL_MEMORY
        ∨ (w1.vkAllocateDescriptorSets api p1 layout).1 = VK_ERROR_FRAGMENTED_POOL
    · obtain ⟨hyes, hno⟩ := retry p1 a1 w1 hsel hfail
      cases hsel2 : get_descriptor_allocation_pool api
          { a1 with mFullPools := a1.mFullPools ++ [p1] }
          (w1.vkAllocateDescriptorSets api p1 layout).2.2 with
      | ok res2 w3 =>
        obtain ⟨p2, a3⟩ := res2
        rw [(hyes p2 a3 w3 hsel2).2.2.2.1]
        simp
      | abort w3 =>
        rw [(hno (by rw [hsel2]; rfl)).2]
        simp
      | undefined w3 =>
        rw [(hno (by rw [hsel2]; rfl)).2]
        simp
    · obtain ⟨pre1, hpre1, hatt1, -, -⟩ := get_pool_ok_trace api a w p1 a1 w1 hsel
      have halloc := allocate_of_selected api a w layout p1 a1 w1 hsel
      rw [if_neg hfail] at halloc
      have htrace : (allocate api a w layout).world.trace =
          w.trace ++ (pre1 ++ [Call.allocateDescriptorSets p1 layout
              (w1.vkAllocateDescriptorSets api p1 layout).1]) := by
        rw [halloc]
        show (w1.vkAllocateDescriptorSets api p1 layout).2.2.trace = _
        rw [attempt_trace, hpre1]
        simp only [List.append_assoc]
      rw [newCalls_append _ _ _ htrace]
      simp [attempts_append, hatt1, attempts]
  | abort w1 =>
    obtain ⟨-, cap, r, p, htr⟩ := get_pool_not_ok_cases api a w (by rw [hsel]; rfl)
    have htrace : (allocate api a w layout).world.trace =
        w.trace ++ [Call.createDescriptorPool cap r p] := by
      rw [← htr]
      simp only [allocate, hsel]
    rw [newCalls_append _ _ _ htrace]
    simp [attempts]
  | undefined w1 =>
    obtain ⟨habort, -⟩ := get_pool_not_ok_cases api a w (by rw [hsel]; rfl)
    rw [hsel] at habort
    exact absurd habort (by simp)

/-- C6, amended, at a concrete input: on the counting driver, the only ready pool (capacity 1) is
exhausted; the call makes one failed attempt on it and one successful attempt on the pool it
grows. -/
theorem C6_retry_once_witness :
    attempts (newCalls
        { dev := { pools := [{ maxSets := 1, allocated := 1, destroyed := false }],
                   setsIssued := 1, fences := [], acquireResults := [], presentResults := [] },
          trace := [] }
        (allocate Sim.driver
          { mPoolRatios := [], mFullPools := [], mReadyPools := [0], mSetsPerPool := 1 }
          { dev := { pools := [{ maxSets := 1, allocated := 1, destroyed := false }],
                     setsIssued := 1, fences := [], acquireResults := [], presentResults := [] },
            trace := [] } 0).world)
      = [(0, VK_ERROR_OUT_OF_POOL_MEMORY), (1, VK_SUCCESS)] :=
  (((C6_retry_once Sim.driver
      { mPoolRatios := [], mFullPools := [], mReadyPools := [0], mSetsPerPool := 1 }
      { dev := { pools := [{ maxSets := 1, allocated := 1, destroyed := false }],
                 setsIssued := 1, fences := [], acquireResults := [], presentResults := [] },
        trace := [] } 0).2.1 0
      { mPoolRatios := [], mFullPools := [], mReadyPools := [], mSetsPerPool := 1 }
      { dev := { pools := [{ maxSets := 1, allocated := 1, destroyed := false }],
                 setsIssued := 1, fences := [], acquireResults := [], presentResults := [] },
        trace := [] } rfl (Or.inl rfl)).1 1
      { mPoolRatios := [], mFullPools := [0], mReadyPools := [], mSetsPerPool := 2 }
      { dev := { pools := [{ maxSets := 1, allocated := 1, destroyed := false },
                           { maxSets := 2, allocated := 0, destroyed := false }],
                 setsIssued := 1, fences := [], acquireResults := [], presentResults := [] },
        trace := [Call.allocateDescriptorSets 0 0 VK_ERROR_OUT_OF_POOL_MEMORY,
                  Call.createDescriptorPool 2 VK_SUCCESS 1] } rfl).2.2.2.1

/-! ### Runs of `allocate` that stay inside the capacity of the last ready pool -/

theorem sim_runOps_within (a : DescriptorAllocatorGrowable) (l : List VkDescriptorPool)
    (p : VkDescriptorPool) (c : Nat) (hready : a.mReadyPools = l ++ [p]) :
    ∀ (layouts : List VkDescriptorSetLayout) (w : World Sim) (k : Nat),
      w.dev.pools[p]? = some { maxSets := c, allocated := k, destroyed := false } →
      k + layouts.length ≤ c →
      runOps Sim.driver (layouts.map AllocOp.allocate) a w =
        Outcome.ok a
          { dev := { w.dev with
                     pools := w.dev.pools.set p
                       { maxSets := c, allocated := k + layouts.length, destroyed := false },
                     setsIssued := w.dev.setsIssued + layouts.length },
            trace := w.trace ++
              layouts.map fun layout => Call.allocateDescriptorSets p layout VK_SUCCESS } := by
  intro layouts
  induction layouts with
  | nil =>
    intro w k hp _
    have hset : w.dev.pools.set p { maxSets := c, allocated := k, destroyed := false }
        = w.dev.pools := by
      apply List.ext_getElem? ; intro i
      by_cases hi : p = i
      · subst hi
        rw [List.getElem?_set_self', hp]; rfl
      · rw [List.getElem?_set_ne hi]
    simp [runOps, hset]
  | cons layout layouts ih =>
    intro w k hp hk
    simp only [List.length_cons] at hk
    have hlt : p < w.dev.pools.length := (List.getElem?_eq_some_iff.1 hp).1
    simp only [List.map_cons, runOps, step]
    rw [sim_allocate_hit a w layout l p _ hready hp rfl (by show k < c; omega)]
    simp only []
    rw [ih _ (k + 1) (by simp [List.getElem?_set_self, hlt]) (by omega)]
    simp [List.set_set, Nat.add_assoc, Nat.add_comm 1]

theorem sim_initThenRun_within (c garbage : Nat) (ratios : List PoolSizeRatio) (w0 : World Sim)
    (layouts : List VkDescriptorSetLayout) (hn : layouts.length ≤ c) :
    initThenRun Sim.driver garbage w0 c ratios (layouts.map AllocOp.allocate) =
      Outcome.ok
        { mPoolRatios := ratios, mFullPools := [], mReadyPools := [w0.dev.pools.length],
          mSetsPerPool := c }
        { dev := { w0.dev with
                   pools := w0.dev.pools ++
                     [{ maxSets := c, allocated := layouts.length, destroyed := false }],
                   setsIssued := w0.dev.setsIssued + layouts.length },
          trace := w0.trace ++
            Call.createDescriptorPool c VK_SUCCESS w0.dev.pools.length ::
              layouts.map fun layout =>
                Call.allocateDescriptorSets w0.dev.pools.length layout VK_SUCCESS } := by
  simp only [initThenRun, sim_init]
  rw [sim_runOps_within _ [] w0.dev.pools.length c rfl layouts _ 0 (by simp) (by omega)]
  simp

theorem creations_map_allocate (p : VkDescriptorPool) (r : VkResult)
    (layouts : List VkDescriptorSetLayout) :
    creations (layouts.map (Call.allocateDescriptorSets p · r)) = [] := by
  induction layouts with
  | nil => rfl
  | cons x xs ih => simpa [creations] using ih

theorem attempts_map_allocate (p : VkDescriptorPool) (r : VkResult)
    (layouts : List VkDescriptorSetLayout) :
    attempts (layouts.map (Call.allocateDescriptorSets p · r)) = layouts.map (fun _ => (p, r)) := by
  induction layouts with
  | nil => rfl
  | cons x xs ih => simpa [attempts] using ih

/-- C7: on the counting driver, an allocator initialised with `initialSetCount = c` serves any
`n ≤ c` calls of `allocate`: the run returns, the only pool ever created is the initial one,
every call makes one attempt, on that pool, which succeeds, and afterwards `setsPerPool = c`,
the full list is empty and the ready list is the initial pool alone. -/
theorem C7_allocations_within_capacity (c garbage : Nat) (ratios : List PoolSizeRatio)
    (w0 : World Sim) (layouts : List VkDescriptorSetLayout) (hn : layouts.length ≤ c) :
    ∃ w1,
      initThenRun Sim.driver garbage w0 c ratios (layouts.map AllocOp.allocate) =
        Outcome.ok
          { mPoolRatios := ratios, mFullPools := [], mReadyPools := [w0.dev.pools.length],
            mSetsPerPool := c } w1
      ∧ newCalls w0 w1 =
          Call.createDescriptorPool c VK_SUCCESS w0.dev.pools.length ::
            layouts.map (Call.allocateDescriptorSets w0.dev.pools.length · VK_SUCCESS)
      ∧ creations (newCalls w0 w1) = [(c, w0.dev.pools.length)]
      ∧ attempts (newCalls w0 w1) = layouts.map (fun _ => (w0.dev.pools.length, VK_SUCCESS)) := by
  refine ⟨_, sim_initThenRun_within c garbage ratios w0 layouts hn, ?_⟩
  have hnew : ∀ (t : List Call) (extra : List Call), (t ++ extra).drop t.length = extra := by
    intro t extra; simp
  simp only [newCalls, hnew, creations, attempts, creations_map_allocate, attempts_map_allocate]
  exact ⟨trivial, trivial, trivial⟩

/-- C7 at a concrete input: capacity 4, four calls of `allocate`. -/
theorem C7_allocations_within_capacity_witness :
    ∃ w1,
      initThenRun Sim.driver 0 (Sim.world (Sim.start 0 [] [])) 4 []
          ([0, 0, 0, 0].map AllocOp.allocate) =
        Outcome.ok
          { mPoolRatios := [], mFullPools := [], mReadyPools := [0], mSetsPerPool := 4 } w1
      ∧ newCalls (Sim.world (Sim.start 0 [] [])) w1 =
          Call.createDescriptorPool 4 VK_SUCCESS 0 ::
            [0, 0, 0, 0].map (Call.allocateDescriptorSets 0 · VK_SUCCESS)
      ∧ creations (newCalls (Sim.world (Sim.start 0 [] [])) w1) = [(4, 0)]
      ∧ attempts (newCalls (Sim.world (Sim.start 0 [] [])) w1) =
          [0, 0, 0, 0].map (fun _ => (0, VK_SUCCESS)) :=
  C7_allocations_within_capacity 4 0 [] (Sim.world (Sim.start 0 [] [])) [0, 0, 0, 0] (by decide)

/-! ### The call that exhausts the initial pool -/

/-- After `c` calls served by the initial pool of capacity `c ≥ 1`, the next call retires that
pool and grows; it returns exactly when the grown capacity is not 0. -/
theorem sim_fill_then_allocate (c garbage : Nat) (ratios : List PoolSizeRatio) (w0 : World Sim)
    (layouts : List VkDescriptorSetLayout) (layout : VkDescriptorSetLayout)
    (hlen : layouts.length = c) :
    ∃ a1 w1,
      initThenRun Sim.driver garbage w0 c ratios (layouts.map AllocOp.allocate) = Outcome.ok a1 w1
      ∧ attempts (newCalls w0 w1) = layouts.map (fun _ => (w0.dev.pools.length, VK_SUCCESS))
      ∧ ((0 < min ((c * 2) % 2 ^ 32) 4092 →
          ∃ ds w2,
            allocate Sim.driver a1 w1 layout =
              Outcome.ok (ds,
                { mPoolRatios := ratios, mFullPools := [w0.dev.pools.length],
                  mReadyPools := [w0.dev.pools.length + 1],
                  mSetsPerPool := min ((c * 2) % 2 ^ 32) 4092 }) w2
            ∧ newCalls w1 w2 =
                [Call.allocateDescriptorSets w0.dev.pools.length layout
                    VK_ERROR_OUT_OF_POOL_MEMORY,
                  Call.createDescriptorPool (min ((c * 2) % 2 ^ 32) 4092) VK_SUCCESS
                    (w0.dev.pools.length + 1),
                  Call.allocateDescriptorSets (w0.dev.pools.length + 1) layout VK_SUCCESS])
        ∧ (¬ 0 < min ((c * 2) % 2 ^ 32) 4092 →
            (allocate Sim.driver a1 w1 layout).isAbort = true)) := by
  refine ⟨_, _, sim_initThenRun_within c garbage ratios w0 layouts (by omega), ?_, ?_⟩
  · have hnew : ∀ (t : List Call) (extra : List Call), (t ++ extra).drop t.length = extra := by
      intro t extra; simp
    simp only [newCalls, hnew, attempts, attempts_map_allocate]
  · have hgrow := sim_allocate_grow
      { mPoolRatios := ratios, mFullPools := [], mReadyPools := [w0.dev.pools.length],
        mSetsPerPool := c }
      { dev := { w0.dev with
                 pools := w0.dev.pools ++
                   [{ maxSets := c, allocated := layouts.length, destroyed := false }],
                 setsIssued := w0.dev.setsIssued + layouts.length },
        trace := w0.trace ++
          Call.createDescriptorPool c VK_SUCCESS w0.dev.pools.length ::
            layouts.map fun layout =>
              Call.allocateDescriptorSets w0.dev.pools.length layout VK_SUCCESS }
      layout w0.dev.pools.length
      { maxSets := c, allocated := layouts.length, destroyed := false } rfl (by simp) rfl
      (by show ¬ layouts.length < c; omega)
    simp only [List.nil_append, List.length_append, List.length_singleton] at hgrow
    constructor
    · intro hcap
      rw [hgrow, if_pos hcap]
      exact ⟨_, _, rfl, by simp [newCalls]⟩
    · intro hcap
      rw [hgrow, if_neg hcap]
      rfl

/-- C8, refuted as stated: with `initialSetCount = 2 ^ 31` the initial pool serves `2 ^ 31`
calls, and the next call doubles `setsPerPool` to 0 modulo `2 ^ 32`, creates a pool of
capacity 0 and is aborted when the retry fails. -/
theorem C8_growth_fatal_at_two_pow_31 :
    ∃ a1 w1,
      initThenRun Sim.driver 0 (Sim.world (Sim.start 0 [] [])) (2 ^ 31) []
          ((List.replicate (2 ^ 31) 0).map AllocOp.allocate) = Outcome.ok a1 w1
      ∧ attempts (newCalls (Sim.world (Sim.start 0 [] [])) w1) =
          (List.replicate (2 ^ 31) 0).map (fun _ => (0, VK_SUCCESS))
      ∧ (allocate Sim.driver a1 w1 0).isAbort = true := by
  obtain ⟨a1, w1, hrun, hatt, -, hfatal⟩ :=
    sim_fill_then_allocate (2 ^ 31) 0 [] (Sim.world (Sim.start 0 [] []))
      (List.replicate (2 ^ 31) 0) 0 (List.length_replicate _ _)
  exact ⟨a1, w1, hrun, hatt, hfatal (by decide)⟩

/-- C8, amended: on the counting driver, for `1 ≤ c < 2 ^ 31`, after `c` calls served by the
initial pool of an allocator initialised with `initialSetCount = c`, the next call of
`allocate` fails once on the initial pool, moves it to the full list, sets `setsPerPool` to
`min (2 * c) 4092`, creates exactly one pool, of that capacity, succeeds on it, and returns
with the ready list holding that new pool alone. -/
theorem C8_growth_on_exhaustion (c garbage : Nat) (ratios : List PoolSizeRatio) (w0 : World Sim)
    (layouts : List VkDescriptorSetLayout) (layout : VkDescriptorSetLayout)
    (hlen : layouts.length = c) (h1 : 1 ≤ c) (h31 : c < 2 ^ 31) :
    ∃ a1 w1 ds w2,
      initThenRun Sim.driver garbage w0 c ratios (layouts.map AllocOp.allocate) = Outcome.ok a1 w1
      ∧ attempts (newCalls w0 w1) = layouts.map (fun _ => (w0.dev.pools.length, VK_SUCCESS))
      ∧ allocate Sim.driver a1 w1 layout =
          Outcome.ok (ds,
            { mPoolRatios := ratios, mFullPools := [w0.dev.pools.length],
              mReadyPools := [w0.dev.pools.length + 1], mSetsPerPool := min (2 * c) 4092 }) w2
      ∧ newCalls w1 w2 =
          [Call.allocateDescriptorSets w0.dev.pools.length layout VK_ERROR_OUT_OF_POOL_MEMORY,
            Call.createDescriptorPool (min (2 * c) 4092) VK_SUCCESS (w0.dev.pools.length + 1),
            Call.allocateDescriptorSets (w0.dev.pools.length + 1) layout VK_SUCCESS] := by
  obtain ⟨a1, w1, hrun, hatt, hok, -⟩ :=
    sim_fill_then_allocate c garbage ratios w0 layouts layout hlen
  have hcap : min ((c * 2) % 2 ^ 32) 4092 = min (2 * c) 4092 := by omega
  obtain ⟨ds, w2, halloc, hcalls⟩ := hok (by omega)
  rw [hcap] at halloc hcalls
  exact ⟨a1, w1, ds, w2, hrun, hatt, halloc, hcalls⟩

/-- C8, amended, at a concrete input (scenario A): capacity 4; four calls are served by pool 0,
the fifth grows to capacity 8 and succeeds on pool 1. -/
theorem C8_growth_on_exhaustion_witness :
    ∃ a1 w1 ds w2,
      initThenRun Sim.driver 0 (Sim.world (Sim.start 0 [] [])) 4 []
          ([0, 0, 0, 0].map AllocOp.allocate) = Outcome.ok a1 w1
      ∧ attempts (newCalls (Sim.world (Sim.start 0 [] [])) w1) =
          [(0, VK_SUCCESS), (0, VK_SUCCESS), (0, VK_SUCCESS), (0, VK_SUCCESS)]
      ∧ allocate Sim.driver a1 w1 0 =
          Outcome.ok (ds,
            { mPoolRatios := [], mFullPools := [0], mReadyPools := [1], mSetsPerPool := 8 }) w2
      ∧ newCalls w1 w2 =
          [Call.allocateDescriptorSets 0 0 VK_ERROR_OUT_OF_POOL_MEMORY,
            Call.createDescriptorPool 8 VK_SUCCESS 1,
            Call.allocateDescriptorSets 1 0 VK_SUCCESS] :=
  C8_growth_on_exhaustion 4 0 [] (Sim.world (Sim.start 0 [] [])) [0, 0, 0, 0] 0 rfl (by decide)
    (by decide)

/-! ### Claims on the frame loop -/

/-- C9, at the failing input: the engine before its first frame, the acquire of the first
iteration reporting out-of-date.  That iteration resets the fence of slot 0, sets the resize
flag and returns without a submission; the next iteration rebuilds the swapchain and then waits
on the same fence, which nothing will signal: the wait times out and the process is aborted
before the acquire is reached.  The same happens when the out-of-date result comes in the third
iteration, after both slots have been used. -/
theorem C9_out_of_date_then_fence_timeout :
    ((VulkanEngine.runIteration Sim.driver [] false (VulkanEngine.initial (World Sim))
          (Sim.world (Sim.start 2 [VK_ERROR_OUT_OF_DATE_KHR] []))).value?.map
        fun st => (st.2.mSwapchainResizeRequested, st.2.mCurrentFrameNumber)) = some (true, 0)
    ∧ (VulkanEngine.run Sim.driver [[], []] (VulkanEngine.initial (World Sim))
          (Sim.world (Sim.start 2 [VK_ERROR_OUT_OF_DATE_KHR] []))).isAbort = true
    ∧ (VulkanEngine.run Sim.driver [[], []] (VulkanEngine.initial (World Sim))
          (Sim.world (Sim.start 2 [VK_ERROR_OUT_OF_DATE_KHR] []))).world.trace =
        [Call.waitForFences 0 VK_SUCCESS, Call.resetFences 0 VK_SUCCESS,
          Call.acquireNextImage 0 VK_ERROR_OUT_OF_DATE_KHR 0,
          Call.deviceWaitIdle, Call.destroySwapchain, Call.destroyImageView 0,
          Call.destroyImageView 1, Call.destroyImageView 2, Call.buildSwapchain 1700 900,
          Call.waitForFences 0 VK_TIMEOUT]
    ∧ (VulkanEngine.run Sim.driver [[], [], [], []] (VulkanEngine.initial (World Sim))
          (Sim.world (Sim.start 2 [VK_SUCCESS, VK_SUCCESS, VK_ERROR_OUT_OF_DATE_KHR] []))).isAbort
        = true
    ∧ (VulkanEngine.run Sim.driver [[], [], [], []] (VulkanEngine.initial (World Sim))
          (Sim.world (Sim.start 2 [VK_SUCCESS, VK_SUCCESS, VK_ERROR_OUT_OF_DATE_KHR]
            []))).world.trace.getLast? = some (Call.waitForFences 0 VK_TIMEOUT) := by
  refine ⟨?_, ?_, ?_, ?_, ?_⟩ <;> decide

/-- C10, at the failing inputs: the acquire of the first frame times out, and in another run the
present of the first frame reports a lost device.  Neither result is checked: after the timed
out acquire `draw` goes on to reset, begin, record and end the command buffer, submit and
present, and returns; after the failed present it returns as after a successful one. -/
theorem C10_unchecked_acquire_and_present :
    (VulkanEngine.draw Sim.driver (VulkanEngine.initial (World Sim))
        (Sim.world (Sim.start 2 [VK_TIMEOUT] []))).isOk = true
    ∧ (VulkanEngine.draw Sim.driver (VulkanEngine.initial (World Sim))
        (Sim.world (Sim.start 2 [VK_TIMEOUT] []))).world.trace =
        [Call.waitForFences 0 VK_SUCCESS, Call.resetFences 0 VK_SUCCESS,
          Call.acquireNextImage 0 VK_TIMEOUT 0, Call.resetCommandBuffer 0 VK_SUCCESS,
          Call.beginCommandBuffer 0 VK_SUCCESS, Call.recordCommands 0 0,
          Call.endCommandBuffer 0 VK_SUCCESS, Call.queueSubmit2 0 0 1 0 VK_SUCCESS,
          Call.queuePresent 1 0 VK_SUCCESS]
    ∧ (VulkanEngine.draw Sim.driver (VulkanEngine.initial (World Sim))
        (Sim.world (Sim.start 2 [] [VK_ERROR_DEVICE_LOST]))).isOk = true
    ∧ (VulkanEngine.draw Sim.driver (VulkanEngine.initial (World Sim))
        (Sim.world (Sim.start 2 [] [VK_ERROR_DEVICE_LOST]))).world.trace.getLast? =
        some (Call.queuePresent 1 0 VK_ERROR_DEVICE_LOST)
    ∧ ((VulkanEngine.draw Sim.driver (VulkanEngine.initial (World Sim))
          (Sim.world (Sim.start 2 [] [VK_ERROR_DEVICE_LOST]))).value?.map
        fun e => (e.mCurrentFrameNumber, e.mSwapchainResizeRequested)) = some (1, false) := by
  refine ⟨?_, ?_, ?_, ?_, ?_⟩ <;> decide

/-! ### Traces of the recycle step -/

theorem foldl_reset_trace {D : Type} (api : Driver D) (l : List VkDescriptorPool) :
    ∀ w : World D,
      (l.foldl (fun w pool => w.vkResetDescriptorPool api pool) w).trace
        = w.trace ++ l.map Call.resetDescriptorPool := by
  induction l with
  | nil => intro w; simp
  | cons p l ih =>
    intro w
    simp only [List.foldl, ih, List.map_cons]
    simp only [World.vkResetDescriptorPool, List.append_assoc, List.singleton_append]

theorem clear_pools_trace {D : Type} (api : Driver D) (a : DescriptorAllocatorGrowable)
    (w : World D) :
    (clear_pools api a w).2.trace
      = w.trace ++ (a.mReadyPools ++ a.mFullPools).map Call.resetDescriptorPool := by
  rw [clear_pools_eq]
  exact foldl_reset_trace api _ w

theorem flush_snd {W : Type} (q : DeletionQueue W) (w : W) :
    (q.flush w).2 = q.deletors.reverse.foldl (fun w f => f w) w :=
  flushLoop_length q.deletors w

theorem foldl_releaseOnly {D : Type} (l : List (World D → World D))
    (h : ∀ f ∈ l, ReleaseOnly f) :
    ∀ w : World D, ∃ extra, (l.foldl (fun w f => f w) w).trace = w.trace ++ extra
      ∧ extra.all (fun c => !c.isFrameWork) = true := by
  induction l with
  | nil => intro w; exact ⟨[], by simp, rfl⟩
  | cons f l ih =>
    intro w
    obtain ⟨x1, h1, hx1⟩ := h f (List.mem_cons_self _ _) w
    obtain ⟨x2, h2, hx2⟩ := ih (fun g hg => h g (List.mem_cons_of_mem _ hg)) (f w)
    refine ⟨x1 ++ x2, ?_, ?_⟩
    · simp only [List.foldl, h2, h1, List.append_assoc]
    · rw [List.all_append, hx1, hx2]; rfl

theorem flush_releaseOnly {D : Type} (q : DeletionQueue (World D))
    (h : ∀ f ∈ q.deletors, ReleaseOnly f) (w : World D) :
    ∃ extra, (q.flush w).2.trace = w.trace ++ extra
      ∧ extra.all (fun c => !c.isFrameWork) = true := by
  rw [flush_snd]
  exact foldl_releaseOnly _ (fun f hf => h f (List.mem_reverse.1 hf)) w

theorem all_map_reset (l : List VkDescriptorPool) :
    (l.map Call.resetDescriptorPool).all (fun c => !c.isFrameWork) = true := by
  induction l with
  | nil => rfl
  | cons p l ih => simp [Call.isFrameWork]

/-! ### The frame that the acquire reports out of date -/

theorem draw_out_of_date {D : Type} (api : Driver D) (e : VulkanEngine (World D)) (w : World D)
    (frame : FrameData (World D)) (hframe : e.get_current_frame = some frame)
    (hwait : (w.vkWaitForFences api frame.mRenderFence).1 = VK_SUCCESS)
    (hreset : ((w.vkWaitForFences api frame.mRenderFence).2.vkResetFences api
        frame.mRenderFence).1 = VK_SUCCESS)
    (hacquire : ((VulkanEngine.recycled api frame w).vkAcquireNextImageKHR api
        frame.mSwapchainSemaphore).1 = VK_ERROR_OUT_OF_DATE_KHR) :
    VulkanEngine.draw api e w =
      Outcome.ok
        { e.set_current_frame
            { frame with
              mDeletionQueue := (frame.mDeletionQueue.flush
                (VulkanEngine.reclaimed api frame w)).1,
              mFrameDescriptors := (frame.mFrameDescriptors.clear_pools api
                (frame.mDeletionQueue.flush (VulkanEngine.reclaimed api frame w)).2).1 } with
          mSwapchainResizeRequested := true }
        ((VulkanEngine.recycled api frame w).vkAcquireNextImageKHR api
          frame.mSwapchainSemaphore).2.2 := by
  simp only [VulkanEngine.recycled, VulkanEngine.reclaimed] at hacquire ⊢
  simp only [VulkanEngine.draw, hframe, VK_CHECK, hwait, hreset, hacquire, decide_True,
    Bool.not_true, if_true, Bool.false_eq_true, if_false]

theorem get_current_frame_bounds {W : Type} (e : VulkanEngine W) (frame : FrameData W)
    (h : e.get_current_frame = some frame) :
    0 ≤ e.mCurrentFrameNumber ∧ e.mCurrentFrameNumber.toNat < e.mFrames.length
      ∧ e.mFrames[e.mCurrentFrameNumber.toNat]? = some frame := by
  unfold VulkanEngine.get_current_frame at h
  split at h
  · rename_i h0
    exact ⟨h0, (List.getElem?_eq_some_iff.1 h).1, h⟩
  · exact absurd h (by simp)

theorem get_set_current_frame {W : Type} (e : VulkanEngine W) (frame frame1 : FrameData W)
    (flag : Bool) (h : e.get_current_frame = some frame) :
    VulkanEngine.get_current_frame
        { e.set_current_frame frame1 with mSwapchainResizeRequested := flag }
      = some frame1 := by
  obtain ⟨h0, hlt, -⟩ := get_current_frame_bounds e frame h
  simp only [VulkanEngine.get_current_frame, VulkanEngine.set_current_frame, h0, if_true]
  exact List.getElem?_set_self hlt

theorem reclaimed_trace {D : Type} (api : Driver D) (frame : FrameData (World D))
    (w : World D) :
    (VulkanEngine.reclaimed api frame w).trace =
      w.trace ++
        [Call.waitForFences frame.mRenderFence (w.vkWaitForFences api frame.mRenderFence).1,
          Call.resetFences frame.mRenderFence
            ((w.vkWaitForFences api frame.mRenderFence).2.vkResetFences api
              frame.mRenderFence).1] := by
  simp [VulkanEngine.reclaimed, World.vkResetFences, World.vkWaitForFences]

theorem recycled_trace {D : Type} (api : Driver D) (frame : FrameData (World D))
    (w : World D) :
    (VulkanEngine.recycled api frame w).trace =
      (frame.mDeletionQueue.deletors.reverse.foldl (fun w g => g w)
          (VulkanEngine.reclaimed api frame w)).trace
        ++ (frame.mFrameDescriptors.mReadyPools ++ frame.mFrameDescriptors.mFullPools).map
            Call.resetDescriptorPool := by
  simp only [VulkanEngine.recycled, clear_pools_trace, flush_snd]

/-- C11: on any driver and in any engine state with a current slot, when the fence wait and
the fence reset of `draw` succeed and its acquire reports out-of-date, `draw` returns with
`mSwapchainResizeRequested` set and the ring index unchanged; the deletion queue of the slot is
empty and its allocator cleared (every pool of its full list moved behind its ready pools);
the calls made are the wait, the reset, those of the flushed release actions, one reset per
pool of the allocator and the acquire, in this order; when the flushed actions are release
actions, no call of the iteration resets, begins, records or ends a command buffer, submits
or presents. -/
theorem C11_acquire_out_of_date_aborts_frame {D : Type} (api : Driver D)
    (e : VulkanEngine (World D)) (w : World D) (frame : FrameData (World D))
    (hframe : e.get_current_frame = some frame)
    (hwait : (w.vkWaitForFences api frame.mRenderFence).1 = VK_SUCCESS)
    (hreset : ((w.vkWaitForFences api frame.mRenderFence).2.vkResetFences api
        frame.mRenderFence).1 = VK_SUCCESS)
    (hacquire : ((VulkanEngine.recycled api frame w).vkAcquireNextImageKHR api
        frame.mSwapchainSemaphore).1 = VK_ERROR_OUT_OF_DATE_KHR) :
    ∃ e1 w1, VulkanEngine.draw api e w = Outcome.ok e1 w1
      ∧ e1.mSwapchainResizeRequested = true
      ∧ e1.mCurrentFrameNumber = e.mCurrentFrameNumber
      ∧ e1.get_current_frame =
          some { frame with
                 mDeletionQueue := DeletionQueue.empty,
                 mFrameDescriptors :=
                   { frame.mFrameDescriptors with
                     mReadyPools :=
                       frame.mFrameDescriptors.mReadyPools ++ frame.mFrameDescriptors.mFullPools,
                     mFullPools := [] } }
      ∧ (VulkanEngine.reclaimed api frame w).trace =
          w.trace ++ [Call.waitForFences frame.mRenderFence VK_SUCCESS,
            Call.resetFences frame.mRenderFence VK_SUCCESS]
      ∧ w1.trace =
          (frame.mDeletionQueue.deletors.reverse.foldl (fun w g => g w)
              (VulkanEngine.reclaimed api frame w)).trace
            ++ (frame.mFrameDescriptors.mReadyPools ++ frame.mFrameDescriptors.mFullPools).map
                Call.resetDescriptorPool
            ++ [Call.acquireNextImage frame.mSwapchainSemaphore VK_ERROR_OUT_OF_DATE_KHR
                ((VulkanEngine.recycled api frame w).vkAcquireNextImageKHR api
                  frame.mSwapchainSemaphore).2.1]
      ∧ ((∀ g ∈ frame.mDeletionQueue.deletors, ReleaseOnly g) →
          (newCalls w w1).all (fun c => !c.isFrameWork) = true) := by
  have hrecl := reclaimed_trace api frame w
  rw [hwait, hreset] at hrecl
  have hfinal : ((VulkanEngine.recycled api frame w).vkAcquireNextImageKHR api
      frame.mSwapchainSemaphore).2.2.trace =
      (VulkanEngine.recycled api frame w).trace
        ++ [Call.acquireNextImage frame.mSwapchainSemaphore VK_ERROR_OUT_OF_DATE_KHR
            ((VulkanEngine.recycled api frame w).vkAcquireNextImageKHR api
              frame.mSwapchainSemaphore).2.1] := by
    rw [← hacquire]; rfl
  refine ⟨_, _, draw_out_of_date api e w frame hframe hwait hreset hacquire, rfl, rfl, ?_,
    hrecl, ?_, ?_⟩
  · rw [get_set_current_frame e frame _ true hframe, clear_pools_eq]
    rfl
  · rw [hfinal, recycled_trace]
  · intro hrel
    obtain ⟨extra, hextra, hall⟩ :=
      foldl_releaseOnly _ (fun g hg => hrel g (List.mem_reverse.1 hg))
        (VulkanEngine.reclaimed api frame w)
    have htrace : ((VulkanEngine.recycled api frame w).vkAcquireNextImageKHR api
        frame.mSwapchainSemaphore).2.2.trace =
        w.trace ++ ([Call.waitForFences frame.mRenderFence VK_SUCCESS,
            Call.resetFences frame.mRenderFence VK_SUCCESS] ++ extra
          ++ (frame.mFrameDescriptors.mReadyPools ++ frame.mFrameDescriptors.mFullPools).map
              Call.resetDescriptorPool
          ++ [Call.acquireNextImage frame.mSwapchainSemaphore VK_ERROR_OUT_OF_DATE_KHR
              ((VulkanEngine.recycled api frame w).vkAcquireNextImageKHR api
                frame.mSwapchainSemaphore).2.1]) := by
      rw [hfinal, recycled_trace, hextra, hrecl]
      simp only [List.append_assoc]
    rw [newCalls_append _ _ _ htrace]
    simp only [List.all_append, hall, all_map_reset]
    rfl

/-- C11 at a concrete input: the engine before its first frame on the counting driver, the
first acquire reporting out-of-date. -/
theorem C11_acquire_out_of_date_aborts_frame_witness :
    ∃ e1 w1,
      VulkanEngine.draw Sim.driver (VulkanEngine.initial (World Sim))
          (Sim.world (Sim.start 2 [VK_ERROR_OUT_OF_DATE_KHR] [])) = Outcome.ok e1 w1
      ∧ e1.mSwapchainResizeRequested = true
      ∧ e1.mCurrentFrameNumber = 0
      ∧ w1.trace = [Call.waitForFences 0 VK_SUCCESS, Call.resetFences 0 VK_SUCCESS,
          Call.acquireNextImage 0 VK_ERROR_OUT_OF_DATE_KHR 0] := by
  obtain ⟨e1, w1, hdraw, hflag, hidx, -, -, htrace, -⟩ :=
    C11_acquire_out_of_date_aborts_frame Sim.driver (VulkanEngine.initial (World Sim))
      (Sim.world (Sim.start 2 [VK_ERROR_OUT_OF_DATE_KHR] []))
      (VulkanEngine.initialFrame (World Sim) 0) rfl rfl rfl rfl
  exact ⟨e1, w1, hdraw, hflag, hidx, htrace⟩

/-! ### Reclaim precedes record: the scan of a trace -/

theorem draw_eq_drawTail {D : Type} (api : Driver D) (e : VulkanEngine (World D)) (w : World D)
    (frame : FrameData (World D)) (hframe : e.get_current_frame = some frame) :
    VulkanEngine.draw api e w =
      if !VK_CHECK (w.vkWaitForFences api frame.mRenderFence).1 then
        Outcome.abort (w.vkWaitForFences api frame.mRenderFence).2
      else if !VK_CHECK ((w.vkWaitForFences api frame.mRenderFence).2.vkResetFences api
          frame.mRenderFence).1 then
        Outcome.abort ((w.vkWaitForFences api frame.mRenderFence).2.vkResetFences api
          frame.mRenderFence).2
      else if ((VulkanEngine.recycled api frame w).vkAcquireNextImageKHR api
          frame.mSwapchainSemaphore).1 = VK_ERROR_OUT_OF_DATE_KHR then
        Outcome.ok
          { VulkanEngine.afterRecycle api e frame w with mSwapchainResizeRequested := true }
          ((VulkanEngine.recycled api frame w).vkAcquireNextImageKHR api
            frame.mSwapchainSemaphore).2.2
      else
        VulkanEngine.drawTail api frame (VulkanEngine.afterRecycle api e frame w)
          ((VulkanEngine.recycled api frame w).vkAcquireNextImageKHR api
            frame.mSwapchainSemaphore).2.1
          ((VulkanEngine.recycled api frame w).vkAcquireNextImageKHR api
            frame.mSwapchainSemaphore).2.2 := by
  unfold VulkanEngine.draw
  rw [hframe]
  rfl

theorem draw_of_no_frame {D : Type} (api : Driver D) (e : VulkanEngine (World D)) (w : World D)
    (hframe : e.get_current_frame = none) :
    VulkanEngine.draw api e w = Outcome.undefined w := by
  unfold VulkanEngine.draw
  rw [hframe]

/-- When the tail of `draw` returns, it has advanced the ring index by one modulo the ring
size, its last call is the present, and the resize flag is set when the present reported
out-of-date and is as before otherwise; the frames are untouched. -/
theorem drawTail_ok {D : Type} (api : Driver D) (frame : FrameData (World D))
    (e1 : VulkanEngine (World D)) (imageIndex : Nat) (w : World D)
    (e2 : VulkanEngine (World D)) (w2 : World D)
    (h : VulkanEngine.drawTail api frame e1 imageIndex w = Outcome.ok e2 w2) :
    e2.mFrames = e1.mFrames
    ∧ e2.mCurrentFrameNumber = Int.tmod (e1.mCurrentFrameNumber + 1) FRAMES_IN_FLIGHT
    ∧ ∃ r, w2.trace.getLast? = some (Call.queuePresent frame.mRenderSemaphore imageIndex r)
        ∧ (r = VK_ERROR_OUT_OF_DATE_KHR → e2.mSwapchainResizeRequested = true)
        ∧ (r ≠ VK_ERROR_OUT_OF_DATE_KHR →
            e2.mSwapchainResizeRequested = e1.mSwapchainResizeRequested) := by
  unfold VulkanEngine.drawTail at h
  simp only [] at h
  split_ifs at h with h1 h2 h3 h4 h5
  · injection h with he hw
    subst he hw
    exact ⟨rfl, rfl, _, by simp [World.vkQueuePresentKHR], fun _ => rfl, fun hne => absurd h5 hne⟩
  · injection h with he hw
    subst he hw
    exact ⟨rfl, rfl, _, by simp [World.vkQueuePresentKHR], fun heq => absurd heq h5,
      fun _ => rfl⟩

theorem drawTail_not_undefined {D : Type} (api : Driver D) (frame : FrameData (World D))
    (e1 : VulkanEngine (World D)) (imageIndex : Nat) (w : World D) :
    (VulkanEngine.drawTail api frame e1 imageIndex w).isOk = true
      ∨ (VulkanEngine.drawTail api frame e1 imageIndex w).isAbort = true := by
  unfold VulkanEngine.drawTail
  simp only []
  split_ifs <;> simp [Outcome.isOk, Outcome.isAbort]

theorem draw_not_undefined {D : Type} (api : Driver D) (e : VulkanEngine (World D))
    (w : World D) (frame : FrameData (World D)) (hframe : e.get_current_frame = some frame) :
    (VulkanEngine.draw api e w).isOk = true ∨ (VulkanEngine.draw api e w).isAbort = true := by
  rw [draw_eq_drawTail api e w frame hframe]
  split_ifs
  · exact Or.inr rfl
  · exact Or.inr rfl
  · exact Or.inl rfl
  · exact drawTail_not_undefined api frame _ _ _

theorem foldl_destroyImageView_trace {D : Type} (api : Driver D) (l : List VkImageView) :
    ∀ w : World D,
      (l.foldl (fun w view => w.vkDestroyImageView api view) w).trace
        = w.trace ++ l.map Call.destroyImageView := by
  induction l with
  | nil => intro w; simp
  | cons p l ih =>
    intro w
    simp only [List.foldl, ih, List.map_cons]
    simp only [World.vkDestroyImageView, List.append_assoc, List.singleton_append]

theorem resize_swapchain_facts {D : Type} (api : Driver D) (e : VulkanEngine (World D))
    (w : World D) :
    (VulkanEngine.resize_swapchain api e w).1.mFrames = e.mFrames
    ∧ (VulkanEngine.resize_swapchain api e w).1.mCurrentFrameNumber = e.mCurrentFrameNumber
    ∧ (VulkanEngine.resize_swapchain api e w).1.mSwapchainResizeRequested = false
    ∧ ∃ quiet, (VulkanEngine.resize_swapchain api e w).2.trace = w.trace ++ quiet
        ∧ quiet.all (fun c => !c.isFrameWork) = true := by
  refine ⟨rfl, rfl, rfl, [Call.deviceWaitIdle, Call.destroySwapchain]
    ++ e.mSwapchainImageViews.map Call.destroyImageView
    ++ [Call.buildSwapchain (api.getWindowSize
          (VulkanEngine.destroy_swapchain api e (w.vkDeviceWaitIdle api)).dev).1
        (api.getWindowSize
          (VulkanEngine.destroy_swapchain api e (w.vkDeviceWaitIdle api)).dev).2], ?_, ?_⟩
  · simp only [VulkanEngine.resize_swapchain, VulkanEngine.create_swapchain,
      World.buildSwapchain, VulkanEngine.destroy_swapchain, foldl_destroyImageView_trace,
      World.vkDestroySwapchainKHR, World.vkDeviceWaitIdle, List.append_assoc,
      List.singleton_append, List.cons_append, List.nil_append]
  · simp only [List.all_append, List.all_cons, List.all_nil, Call.isFrameWork, Bool.not_false,
      Bool.and_true, Bool.true_and]
    induction e.mSwapchainImageViews with
    | nil => rfl
    | cons v l ih => simp [Call.isFrameWork]

/-! ### The main loop -/

theorem pollEvents_facts {W : Type} (events : List SDL_EventType) :
    ∀ (bQuitEngine : Bool) (e : VulkanEngine W),
      (VulkanEngine.pollEvents events bQuitEngine e).2.mFrames = e.mFrames
      ∧ (VulkanEngine.pollEvents events bQuitEngine e).2.mCurrentFrameNumber
          = e.mCurrentFrameNumber
      ∧ (VulkanEngine.pollEvents events bQuitEngine e).2.mSwapchainResizeRequested
          = e.mSwapchainResizeRequested := by
  induction events with
  | nil => intro bq e; exact ⟨rfl, rfl, rfl⟩
  | cons ev events ih =>
    intro bq e
    simp only [VulkanEngine.pollEvents, List.foldl] at ih ⊢
    obtain ⟨h1, h2, h3⟩ := ih
      (if ev = SDL_EventType.quit then true else bq)
      (if ev = SDL_EventType.windowRestored then
        { (if ev = SDL_EventType.windowMinimized then { e with mStopRendering := true }
            else e) with mStopRendering := false }
       else (if ev = SDL_EventType.windowMinimized then { e with mStopRendering := true }
            else e))
    rw [h1, h2, h3]
    cases ev <;> simp

theorem foldl_reset_dev_any {D : Type} (api : Driver D) (l : List VkDescriptorPool) :
    ∀ w : World D,
      (l.foldl (fun w pool => w.vkResetDescriptorPool api pool) w).dev
        = l.foldl api.vkResetDescriptorPool w.dev := by
  induction l with
  | nil => intro w; rfl
  | cons p l ih => intro w; simp only [List.foldl, ih]; rfl

theorem count_map_reset (l : List VkDescriptorPool) (p : VkDescriptorPool) :
    (l.map Call.resetDescriptorPool).count (Call.resetDescriptorPool p) = l.count p :=
  List.count_map_of_injective l Call.resetDescriptorPool
    (fun _ _ h => by injection h) p

theorem creations_map_reset (l : List VkDescriptorPool) :
    creations (l.map Call.resetDescriptorPool) = [] := by
  induction l with
  | nil => rfl
  | cons p l ih => simpa [creations] using ih

/-- C13: on any driver and for every allocator state, the calls `clear_pools` makes are one
reset per entry of the ready list followed by one reset per entry of the full list, in order,
and nothing else (no creation, no destruction; each handle is reset as many times as it is
listed, so once when it is listed once); the device state is the one these resets leave;
afterwards the full list is empty, the ready list is the old ready list followed by the old
full list, and `mSetsPerPool` and the pool ratios are unchanged. -/
theorem C13_clear_pools_contract {D : Type} (api : Driver D) (a : DescriptorAllocatorGrowable)
    (w : World D) :
    newCalls w (clear_pools api a w).2
        = a.mReadyPools.map Call.resetDescriptorPool ++ a.mFullPools.map Call.resetDescriptorPool
    ∧ (∀ p, (newCalls w (clear_pools api a w).2).count (Call.resetDescriptorPool p)
        = (a.mReadyPools ++ a.mFullPools).count p)
    ∧ creations (newCalls w (clear_pools api a w).2) = []
    ∧ (∀ p, Call.destroyDescriptorPool p ∉ newCalls w (clear_pools api a w).2)
    ∧ (clear_pools api a w).2.dev
        = (a.mReadyPools ++ a.mFullPools).foldl api.vkResetDescriptorPool w.dev
    ∧ (clear_pools api a w).1.mFullPools = []
    ∧ (clear_pools api a w).1.mReadyPools = a.mReadyPools ++ a.mFullPools
    ∧ (clear_pools api a w).1.mSetsPerPool = a.mSetsPerPool
    ∧ (clear_pools api a w).1.mPoolRatios = a.mPoolRatios := by
  have hcalls : newCalls w (clear_pools api a w).2
      = (a.mReadyPools ++ a.mFullPools).map Call.resetDescriptorPool :=
    newCalls_append w _ _ (clear_pools_trace api a w)
  refine ⟨by rw [hcalls, List.map_append], fun p => by rw [hcalls, count_map_reset], ?_, ?_, ?_,
    ?_, ?_, ?_, ?_⟩
  · rw [hcalls, creations_map_reset]
  · intro p hp
    rw [hcalls] at hp
    simp at hp
  · rw [clear_pools_eq]
    exact foldl_reset_dev_any api _ w
  all_goals rw [clear_pools_eq]

/-! ### A run does not depend on the calls made before it -/

theorem create_pool_prepend {D : Type} (api : Driver D) (t : List Call) (w : World D) (n : Nat)
    (r : List PoolSizeRatio) :
    create_pool api (World.prepend t w) n r
      = (create_pool api w n r).mapWorld (World.prepend t) := by
  simp only [create_pool, World.vkCreateDescriptorPool, World.prepend]
  split <;> simp [Outcome.mapWorld, World.prepend, List.append_assoc]

theorem get_pool_prepend {D : Type} (api : Driver D) (t : List Call)
    (a : DescriptorAllocatorGrowable) (w : World D) :
    get_descriptor_allocation_pool api a (World.prepend t w)
      = (get_descriptor_allocation_pool api a w).mapWorld (World.prepend t) := by
  unfold get_descriptor_allocation_pool
  cases h : a.mReadyPools.getLast? with
  | some p => rfl
  | none =>
    simp only []
    rw [create_pool_prepend]
    cases create_pool api w _ a.mPoolRatios <;> rfl

theorem attempt_prepend {D : Type} (api : Driver D) (t : List Call) (w : World D)
    (p : VkDescriptorPool) (layout : VkDescriptorSetLayout) :
    (World.prepend t w).vkAllocateDescriptorSets api p layout
      = ((w.vkAllocateDescriptorSets api p layout).1,
          (w.vkAllocateDescriptorSets api p layout).2.1,
          World.prepend t (w.vkAllocateDescriptorSets api p layout).2.2) := by
  simp [World.vkAllocateDescriptorSets, World.prepend, List.append_assoc]

theorem allocate_prepend {D : Type} (api : Driver D) (t : List Call)
    (a : DescriptorAllocatorGrowable) (w : World D) (layout : VkDescriptorSetLayout) :
    allocate api a (World.prepend t w) layout
      = (allocate api a w layout).mapWorld (World.prepend t) := by
  unfold allocate
  rw [get_pool_prepend]
  cases h1 : get_descriptor_allocation_pool api a w with
  | abort w1 => rfl
  | undefined w1 => rfl
  | ok v w1 =>
    obtain ⟨p, a1⟩ := v
    simp only [Outcome.mapWorld, attempt_prepend]
    split
    · rw [get_pool_prepend]
      cases h2 : get_descriptor_allocation_pool api
          { a1 with mFullPools := a1.mFullPools ++ [p] }
          (w1.vkAllocateDescriptorSets api p layout).2.2 with
      | abort w3 => rfl
      | undefined w3 => rfl
      | ok v2 w3 =>
        obtain ⟨p2, a3⟩ := v2
        simp only [Outcome.mapWorld, attempt_prepend]
        split <;> rfl
    · rfl

theorem allocateMany_prepend {D : Type} (api : Driver D) (t : List Call)
    (layouts : List VkDescriptorSetLayout) :
    ∀ (a : DescriptorAllocatorGrowable) (w : World D),
      allocateMany api layouts a (World.prepend t w)
        = (allocateMany api layouts a w).mapWorld (World.prepend t) := by
  induction layouts with
  | nil => intro a w; rfl
  | cons layout layouts ih =>
    intro a w
    simp only [allocateMany]
    rw [allocate_prepend]
    cases h1 : allocate api a w layout with
    | abort w1 => rfl
    | undefined w1 => rfl
    | ok res w1 =>
      simp only [Outcome.mapWorld]
      rw [ih]
      cases h2 : allocateMany api layouts res.2 w1 <;> rfl

theorem world_eq_prepend {D : Type} (w : World D) :
    w = World.prepend w.trace { dev := w.dev, trace := [] } := by
  cases w; simp [World.prepend]

theorem mapWorld_value {W α : Type} (f : W → W) (o : Outcome W α) :
    (o.mapWorld f).value? = o.value? := by
  cases o <;> rfl

theorem mapWorld_isOk {W α : Type} (f : W → W) (o : Outcome W α) :
    (o.mapWorld f).isOk = o.isOk := by
  cases o <;> rfl

theorem mapWorld_isAbort {W α : Type} (f : W → W) (o : Outcome W α) :
    (o.mapWorld f).isAbort = o.isAbort := by
  cases o <;> rfl

theorem mapWorld_world {W α : Type} (f : W → W) (o : Outcome W α) :
    (o.mapWorld f).world = f o.world := by
  cases o <;> rfl

/-- Two runs of `allocate` calls from the same allocator state and the same device state return
the same values, end the same way, leave the same device state and make the same calls,
whatever calls were made before. -/
theorem allocateMany_same_dev {D : Type} (api : Driver D) (layouts : List VkDescriptorSetLayout)
    (a : DescriptorAllocatorGrowable) (w w' : World D) (h : w'.dev = w.dev) :
    (allocateMany api layouts a w').value? = (allocateMany api layouts a w).value?
    ∧ (allocateMany api layouts a w').isOk = (allocateMany api layouts a w).isOk
    ∧ (allocateMany api layouts a w').isAbort = (allocateMany api layouts a w).isAbort
    ∧ (allocateMany api layouts a w').world.dev = (allocateMany api layouts a w).world.dev
    ∧ newCalls w' (allocateMany api layouts a w').world
        = newCalls w (allocateMany api layouts a w).world := by
  have e1 : allocateMany api layouts a w
      = (allocateMany api layouts a { dev := w.dev, trace := [] }).mapWorld
          (World.prepend w.trace) := by
    rw [← allocateMany_prepend, ← world_eq_prepend]
  have e2 : allocateMany api layouts a w'
      = (allocateMany api layouts a { dev := w.dev, trace := [] }).mapWorld
          (World.prepend w'.trace) := by
    rw [← allocateMany_prepend, ← h, ← world_eq_prepend]
  rw [e1, e2]
  simp only [mapWorld_value, mapWorld_isOk, mapWorld_isAbort, mapWorld_world, World.prepend,
    newCalls, List.drop_left, and_self]

/-! ### Clearing twice -/

theorem foldl_reset_keeps_empty {D : Type} (api : Driver D)
    (Empty : D → VkDescriptorPool → Prop)
    (hkeep : ∀ d p q, Empty d q → Empty (api.vkResetDescriptorPool d p) q)
    (l : List VkDescriptorPool) :
    ∀ d q, Empty d q → Empty (l.foldl api.vkResetDescriptorPool d) q := by
  induction l with
  | nil => intro d q h; exact h
  | cons p l ih => intro d q h; exact ih _ q (hkeep d p q h)

theorem foldl_reset_empties {D : Type} (api : Driver D)
    (Empty : D → VkDescriptorPool → Prop)
    (hreset : ∀ d p, Empty (api.vkResetDescriptorPool d p) p)
    (hkeep : ∀ d p q, Empty d q → Empty (api.vkResetDescriptorPool d p) q)
    (l : List VkDescriptorPool) :
    ∀ d, ∀ q ∈ l, Empty (l.foldl api.vkResetDescriptorPool d) q := by
  induction l with
  | nil => intro d q hq; exact absurd hq (by simp)
  | cons p l ih =>
    intro d q hq
    simp only [List.foldl]
    rcases List.mem_cons.1 hq with rfl | hql
    · exact foldl_reset_keeps_empty api Empty hkeep l _ _ (hreset d q)
    · exact ih _ q hql

theorem foldl_reset_of_empty {D : Type} (api : Driver D)
    (Empty : D → VkDescriptorPool → Prop)
    (hnoop : ∀ d p, Empty d p → api.vkResetDescriptorPool d p = d)
    (l : List VkDescriptorPool) :
    ∀ d, (∀ q ∈ l, Empty d q) → l.foldl api.vkResetDescriptorPool d = d := by
  induction l with
  | nil => intro d _; rfl
  | cons p l ih =>
    intro d h
    simp only [List.foldl]
    rw [hnoop d p (h p (List.mem_cons_self _ _))]
    exact ih d (fun q hq => h q (List.mem_cons_of_mem _ hq))

/-- On the counting driver: nothing is allocated from pool `p`, if it exists. -/
theorem sim_reset_noop (d : Sim) (p : VkDescriptorPool)
    (h : ∀ sp, d.pools[p]? = some sp → sp.allocated = 0) :
    Sim.resetDescriptorPool d p = d := by
  unfold Sim.resetDescriptorPool
  cases hp : d.pools[p]? with
  | none => rfl
  | some sp =>
    have hz := h sp hp
    have hsp : ({ sp with allocated := 0 } : SimPool) = sp := by
      cases sp; simp only [SimPool.mk.injEq] at hz ⊢; simp_all
    simp only [hsp]
    have : d.pools.set p sp = d.pools := by
      apply List.ext_getElem?
      intro n
      by_cases hn : p = n
      · subst hn; rw [List.getElem?_set_self', hp]; rfl
      · rw [List.getElem?_set_ne hn]
    rw [this]

theorem sim_reset_empties (d : Sim) (p : VkDescriptorPool) :
    ∀ sp, (Sim.resetDescriptorPool d p).pools[p]? = some sp → sp.allocated = 0 := by
  intro sp h
  rw [sim_reset_get, if_pos rfl] at h
  cases hp : d.pools[p]? with
  | none => rw [hp] at h; exact absurd h (by simp)
  | some sp0 =>
    rw [hp, Option.map_some', Option.some.injEq] at h
    rw [← h]

theorem sim_reset_keeps_empty (d : Sim) (p q : VkDescriptorPool)
    (hq : ∀ sp, d.pools[q]? = some sp → sp.allocated = 0) :
    ∀ sp, (Sim.resetDescriptorPool d p).pools[q]? = some sp → sp.allocated = 0 := by
  intro sp h
  by_cases hpq : p = q
  · subst hpq; exact sim_reset_empties d p sp h
  · rw [sim_reset_get, if_neg hpq] at h
    exact hq sp h

/-- C14: on any driver on which a reset empties the pool named, keeps the other empty pools
empty and changes nothing when the pool named is already empty, and for every allocator state:
calling `clear_pools` twice in a row leaves the same allocator state and the same device state
as calling it once, and from there every sequence of `allocate` calls returns the same
descriptor sets and final allocator state, ends the same way, leaves the same device state
and makes the same driver calls (so the same pool creations and attempts) in both cases. -/
theorem C14_idempotent_recycle {D : Type} (api : Driver D) (a : DescriptorAllocatorGrowable)
    (w : World D) (Empty : D → VkDescriptorPool → Prop)
    (hreset : ∀ d p, Empty (api.vkResetDescriptorPool d p) p)
    (hkeep : ∀ d p q, Empty d q → Empty (api.vkResetDescriptorPool d p) q)
    (hnoop : ∀ d p, Empty d p → api.vkResetDescriptorPool d p = d) :
    (clear_pools api (clear_pools api a w).1 (clear_pools api a w).2).1 = (clear_pools api a w).1
    ∧ (clear_pools api (clear_pools api a w).1 (clear_pools api a w).2).2.dev
        = (clear_pools api a w).2.dev
    ∧ ∀ layouts : List VkDescriptorSetLayout,
        (allocateMany api layouts
            (clear_pools api (clear_pools api a w).1 (clear_pools api a w).2).1
            (clear_pools api (clear_pools api a w).1 (clear_pools api a w).2).2).value?
          = (allocateMany api layouts (clear_pools api a w).1 (clear_pools api a w).2).value?
        ∧ (allocateMany api layouts
            (clear_pools api (clear_pools api a w).1 (clear_pools api a w).2).1
            (clear_pools api (clear_pools api a w).1 (clear_pools api a w).2).2).isOk
          = (allocateMany api layouts (clear_pools api a w).1 (clear_pools api a w).2).isOk
        ∧ (allocateMany api layouts
            (clear_pools api (clear_pools api a w).1 (clear_pools api a w).2).1
            (clear_pools api (clear_pools api a w).1 (clear_pools api a w).2).2).isAbort
          = (allocateMany api layouts (clear_pools api a w).1 (clear_pools api a w).2).isAbort
        ∧ (allocateMany api layouts
            (clear_pools api (clear_pools api a w).1 (clear_pools api a w).2).1
            (clear_pools api (clear_pools api a w).1 (clear_pools api a w).2).2).world.dev
          = (allocateMany api layouts (clear_pools api a w).1 (clear_pools api a w).2).world.dev
        ∧ newCalls (clear_pools api (clear_pools api a w).1 (clear_pools api a w).2).2
            (allocateMany api layouts
              (clear_pools api (clear_pools api a w).1 (clear_pools api a w).2).1
              (clear_pools api (clear_pools api a w).1 (clear_pools api a w).2).2).world
          = newCalls (clear_pools api a w).2
              (allocateMany api layouts (clear_pools api a w).1 (clear_pools api a w).2).world := by
  have hstate : (clear_pools api (clear_pools api a w).1 (clear_pools api a w).2).1
      = (clear_pools api a w).1 := by
    simp only [clear_pools_eq, List.append_nil]
  have hdev : (clear_pools api (clear_pools api a w).1 (clear_pools api a w).2).2.dev
      = (clear_pools api a w).2.dev := by
    simp only [clear_pools_eq, List.append_nil, foldl_reset_dev_any]
    exact foldl_reset_of_empty api Empty hnoop _ _
      (foldl_reset_empties api Empty hreset hkeep _ w.dev)
  refine ⟨hstate, hdev, fun layouts => ?_⟩
  rw [hstate]
  exact allocateMany_same_dev api layouts _ _ _ hdev

/-- C14 at a concrete input: the counting driver, an allocator with pool 0 ready and pool 1
full, one set allocated from pool 0 and two from pool 1, and seven `allocate` calls after the
recycle. -/
theorem C14_idempotent_recycle_witness :
    (∀ (d : Sim) (p : VkDescriptorPool) (sp : SimPool),
        (Sim.driver.vkResetDescriptorPool d p).pools[p]? = some sp → sp.allocated = 0)
    ∧ (allocateMany Sim.driver [7, 7, 7, 7, 7, 7, 7]
          (clear_pools Sim.driver
            (clear_pools Sim.driver
              { mPoolRatios := [], mFullPools := [1], mReadyPools := [0], mSetsPerPool := 2 }
              (Sim.world { Sim.start 0 [] [] with pools := [⟨4, 1, false⟩, ⟨2, 2, false⟩] })).1
            (clear_pools Sim.driver
              { mPoolRatios := [], mFullPools := [1], mReadyPools := [0], mSetsPerPool := 2 }
              (Sim.world { Sim.start 0 [] [] with pools := [⟨4, 1, false⟩, ⟨2, 2, false⟩] })).2).1
          (clear_pools Sim.driver
            (clear_pools Sim.driver
              { mPoolRatios := [], mFullPools := [1], mReadyPools := [0], mSetsPerPool := 2 }
              (Sim.world { Sim.start 0 [] [] with pools := [⟨4, 1, false⟩, ⟨2, 2, false⟩] })).1
            (clear_pools Sim.driver
              { mPoolRatios := [], mFullPools := [1], mReadyPools := [0], mSetsPerPool := 2 }
              (Sim.world { Sim.start 0 [] [] with pools := [⟨4, 1, false⟩, ⟨2, 2, false⟩] })).2).2).value?
        = (allocateMany Sim.driver [7, 7, 7, 7, 7, 7, 7]
            (clear_pools Sim.driver
              { mPoolRatios := [], mFullPools := [1], mReadyPools := [0], mSetsPerPool := 2 }
              (Sim.world { Sim.start 0 [] [] with pools := [⟨4, 1, false⟩, ⟨2, 2, false⟩] })).1
            (clear_pools Sim.driver
              { mPoolRatios := [], mFullPools := [1], mReadyPools := [0], mSetsPerPool := 2 }
              (Sim.world { Sim.start 0 [] [] with pools := [⟨4, 1, false⟩, ⟨2, 2, false⟩] })).2).value? :=
  ⟨sim_reset_empties,
    ((C14_idempotent_recycle Sim.driver
      { mPoolRatios := [], mFullPools := [1], mReadyPools := [0], mSetsPerPool := 2 }
      (Sim.world { Sim.start 0 [] [] with pools := [⟨4, 1, false⟩, ⟨2, 2, false⟩] })
      (fun d p => ∀ sp, d.pools[p]? = some sp → sp.allocated = 0)
      sim_reset_empties sim_reset_keeps_empty sim_reset_noop).2.2 [7, 7, 7, 7, 7, 7, 7]).1⟩

/-! ### `mSetsPerPool` across calls -/

/-- The value of `mSetsPerPool` before and after the call that exhausts the initial pool. -/
theorem sim_setsPerPool_after_fill (c garbage : Nat) (ratios : List PoolSizeRatio)
    (w0 : World Sim) (layouts : List VkDescriptorSetLayout) (layout : VkDescriptorSetLayout)
    (hlen : layouts.length = c) (hcap : 0 < min ((c * 2) % 2 ^ 32) 4092) :
    ∃ a1 w1 ds a2 w2,
      initThenRun Sim.driver garbage w0 c ratios (layouts.map AllocOp.allocate) = Outcome.ok a1 w1
      ∧ a1.mSetsPerPool = c
      ∧ allocate Sim.driver a1 w1 layout = Outcome.ok (ds, a2) w2
      ∧ a2.mSetsPerPool = min ((c * 2) % 2 ^ 32) 4092 := by
  obtain ⟨a1, w1, hrun, -, hgrow, -⟩ :=
    sim_fill_then_allocate c garbage ratios w0 layouts layout hlen
  obtain ⟨ds, w2, halloc, -⟩ := hgrow hcap
  have hstate := sim_initThenRun_within c garbage ratios w0 layouts (by omega)
  rw [hrun] at hstate
  injection hstate with ha hw
  exact ⟨a1, w1, ds, _, w2, hrun, by rw [ha], halloc, rfl⟩

/-- C15, refuted: on the counting driver, an allocator initialised with `initialSetCount = 5000`
has `mSetsPerPool = 5000` after 5000 calls of `allocate` served by the initial pool, and
`mSetsPerPool = 4092` after the next call, which exhausts that pool and grows; the same drop
follows `init`, `destroy_pools`, `allocate`. -/
theorem C15_setsPerPool_drops_to_cap :
    (∃ a1 w1 ds a2 w2,
      initThenRun Sim.driver 0 (Sim.world (Sim.start 0 [] [])) 5000 []
          ((List.replicate 5000 0).map AllocOp.allocate) = Outcome.ok a1 w1
      ∧ a1.mSetsPerPool = 5000
      ∧ allocate Sim.driver a1 w1 0 = Outcome.ok (ds, a2) w2
      ∧ a2.mSetsPerPool = 4092)
    ∧ (∃ a1 w1 a2 w2,
      initThenRun Sim.driver 0 (Sim.world (Sim.start 0 [] [])) 5000 [] [AllocOp.destroy_pools]
        = Outcome.ok a1 w1
      ∧ a1.mSetsPerPool = 5000
      ∧ step Sim.driver a1 w1 (AllocOp.allocate 0) = Outcome.ok a2 w2
      ∧ a2.mSetsPerPool = 4092) := by
  constructor
  · obtain ⟨a1, w1, ds, a2, w2, h1, h2, h3, h4⟩ :=
      sim_setsPerPool_after_fill 5000 0 [] (Sim.world (Sim.start 0 [] []))
        (List.replicate 5000 0) 0 (List.length_replicate _ _) (by decide)
    exact ⟨a1, w1, ds, a2, w2, h1, h2, h3, by rw [h4]; decide⟩
  · exact ⟨_, _, _, _, rfl, rfl, rfl, rfl⟩

/-! ### The capacity of the pools created after `init` -/

theorem creations_append (s t : List Call) :
    creations (s ++ t) = creations s ++ creations t := by
  induction s with
  | nil => rfl
  | cons c s ih => cases c <;> simp [creations, ih]

theorem foldl_destroy_trace {D : Type} (api : Driver D) (l : List VkDescriptorPool) :
    ∀ w : World D,
      (l.foldl (fun w pool => w.vkDestroyDescriptorPool api pool) w).trace
        = w.trace ++ l.map Call.destroyDescriptorPool := by
  induction l with
  | nil => intro w; simp
  | cons p l ih =>
    intro w
    simp only [List.foldl, ih, List.map_cons]
    simp only [World.vkDestroyDescriptorPool, List.append_assoc, List.singleton_append]

theorem destroy_pools_trace {D : Type} (api : Driver D) (a : DescriptorAllocatorGrowable)
    (w : World D) :
    (destroy_pools api a w).2.trace
      = w.trace ++ (a.mReadyPools ++ a.mFullPools).map Call.destroyDescriptorPool := by
  simp only [destroy_pools, foldl_destroy_trace, List.map_append, List.append_assoc]

theorem creations_map_destroy (l : List VkDescriptorPool) :
    creations (l.map Call.destroyDescriptorPool) = [] := by
  induction l with
  | nil => rfl
  | cons p l ih => simpa [creations] using ih

/-- The calls of one pool-selection step: every creation among them asks for the clamped
capacity, which is the value `mSetsPerPool` has when the step returns. -/
theorem get_pool_caps {D : Type} (api : Driver D) (a : DescriptorAllocatorGrowable)
    (w : World D) :
    ∃ extra, (get_descriptor_allocation_pool api a w).world.trace = w.trace ++ extra
      ∧ (a.mReadyPools ≠ [] → extra = [])
      ∧ (a.mReadyPools = [] → ∃ r p, extra =
          [Call.createDescriptorPool (min ((a.mSetsPerPool * 2) % 2 ^ 32) 4092) r p])
      ∧ (∀ c ∈ creations extra, c.1 = min ((a.mSetsPerPool * 2) % 2 ^ 32) 4092 ∧ c.1 ≤ 4092)
      ∧ (∀ p a1 w1, get_descriptor_allocation_pool api a w = Outcome.ok (p, a1) w1 →
          ∀ c ∈ creations extra, c.1 = a1.mSetsPerPool) := by
  cases hl : a.mReadyPools.getLast? with
  | some q =>
    have hne : a.mReadyPools ≠ [] := by
      intro h; rw [h] at hl; exact absurd hl (by simp)
    refine ⟨[], ?_, fun _ => rfl, fun h => absurd h hne, ?_, ?_⟩
    · simp [get_descriptor_allocation_pool, hl, Outcome.world]
    · intro c hc; exact absurd hc (by simp [creations])
    · intro p a1 w1 _ c hc; exact absurd hc (by simp [creations])
  | none =>
    have hnil : a.mReadyPools = [] := List.getLast?_eq_none_iff.1 hl
    rw [get_pool_of_empty api a w hnil]
    refine ⟨[Call.createDescriptorPool (min ((a.mSetsPerPool * 2) % 2 ^ 32) 4092)
        (api.vkCreateDescriptorPool w.dev (min ((a.mSetsPerPool * 2) % 2 ^ 32) 4092)
          a.mPoolRatios).1
        (api.vkCreateDescriptorPool w.dev (min ((a.mSetsPerPool * 2) % 2 ^ 32) 4092)
          a.mPoolRatios).2.1], ?_, fun h => absurd hnil h, fun _ => ⟨_, _, rfl⟩, ?_, ?_⟩
    · split <;> simp [Outcome.world, World.vkCreateDescriptorPool]
    · intro c hc
      simp only [creations, List.mem_singleton] at hc
      subst hc
      exact ⟨rfl, Nat.min_le_right _ _⟩
    · intro p a1 w1 h c hc
      simp only [creations, List.mem_singleton] at hc
      subst hc
      split at h
      · injection h with h1 h2
        injection h1 with h3 h4
        rw [← h4]
      · exact absurd h (by simp)

theorem allocate_caps {D : Type} (api : Driver D) (a : DescriptorAllocatorGrowable)
    (w : World D) (layout : VkDescriptorSetLayout) :
    ∃ extra, (allocate api a w layout).world.trace = w.trace ++ extra
      ∧ ∀ c ∈ creations extra, c.1 ≤ 4092 := by
  obtain ⟨e1, ht1, -, -, hc1, -⟩ := get_pool_caps api a w
  cases h1 : get_descriptor_allocation_pool api a w with
  | abort w1 =>
    rw [h1] at ht1
    refine ⟨e1, ?_, fun c hc => (hc1 c hc).2⟩
    simp only [allocate, h1]
    exact ht1
  | undefined w1 =>
    rw [h1] at ht1
    refine ⟨e1, ?_, fun c hc => (hc1 c hc).2⟩
    simp only [allocate, h1]
    exact ht1
  | ok v w1 =>
    obtain ⟨p, a1⟩ := v
    rw [h1] at ht1
    simp only [Outcome.world] at ht1
    rw [allocate_of_selected api a w layout p a1 w1 h1]
    split
    · obtain ⟨e2, ht2, -, -, hc2, -⟩ := get_pool_caps api
        { a1 with mFullPools := a1.mFullPools ++ [p] }
        (w1.vkAllocateDescriptorSets api p layout).2.2
      rw [attempt_trace, ht1] at ht2
      cases h2 : get_descriptor_allocation_pool api
          { a1 with mFullPools := a1.mFullPools ++ [p] }
          (w1.vkAllocateDescriptorSets api p layout).2.2 with
      | abort w3 =>
        rw [h2] at ht2
        refine ⟨e1 ++ [Call.allocateDescriptorSets p layout
          (w1.vkAllocateDescriptorSets api p layout).1] ++ e2, ?_, ?_⟩
        · simpa [Outcome.world] using ht2
        · intro c hc
          simp only [creations_append, creations, List.append_nil, List.mem_append] at hc
          rcases hc with hc | hc
          · exact (hc1 c hc).2
          · exact (hc2 c hc).2
      | undefined w3 =>
        rw [h2] at ht2
        refine ⟨e1 ++ [Call.allocateDescriptorSets p layout
          (w1.vkAllocateDescriptorSets api p layout).1] ++ e2, ?_, ?_⟩
        · simpa [Outcome.world] using ht2
        · intro c hc
          simp only [creations_append, creations, List.append_nil, List.mem_append] at hc
          rcases hc with hc | hc
          · exact (hc1 c hc).2
          · exact (hc2 c hc).2
      | ok v2 w3 =>
        obtain ⟨p2, a3⟩ := v2
        rw [h2] at ht2
        simp only [Outcome.world] at ht2
        refine ⟨e1 ++ [Call.allocateDescriptorSets p layout
          (w1.vkAllocateDescriptorSets api p layout).1] ++ e2 ++
          [Call.allocateDescriptorSets p2 layout
            (w3.vkAllocateDescriptorSets api p2 layout).1], ?_, ?_⟩
        · simp only []
          split <;> simp [Outcome.world, attempt_trace, ht2]
        · intro c hc
          simp only [creations_append, creations, List.append_nil, List.mem_append] at hc
          rcases hc with hc | hc
          · exact (hc1 c hc).2
          · exact (hc2 c hc).2
    · refine ⟨e1 ++ [Call.allocateDescriptorSets p layout
        (w1.vkAllocateDescriptorSets api p layout).1], ?_, ?_⟩
      · simp [Outcome.world, attempt_trace, ht1]
      · intro c hc
        simp only [creations_append, creations, List.append_nil] at hc
        exact (hc1 c hc).2

theorem step_caps {D : Type} (api : Driver D) (a : DescriptorAllocatorGrowable)
    (w : World D) (op : AllocOp) :
    ∃ extra, (step api a w op).world.trace = w.trace ++ extra
      ∧ ∀ c ∈ creations extra, c.1 ≤ 4092 := by
  cases op with
  | allocate layout =>
    obtain ⟨e, ht, hc⟩ := allocate_caps api a w layout
    refine ⟨e, ?_, hc⟩
    simp only [step]
    cases h : allocate api a w layout <;> rw [h] at ht <;> exact ht
  | clear_pools =>
    refine ⟨_, clear_pools_trace api a w, ?_⟩
    intro c hc
    rw [creations_map_reset] at hc
    exact absurd hc (by simp)
  | destroy_pools =>
    refine ⟨_, destroy_pools_trace api a w, ?_⟩
    intro c hc
    rw [creations_map_destroy] at hc
    exact absurd hc (by simp)

theorem runOps_caps {D : Type} (api : Driver D) (ops : List AllocOp) :
    ∀ (a : DescriptorAllocatorGrowable) (w : World D),
      ∃ extra, (runOps api ops a w).world.trace = w.trace ++ extra
        ∧ ∀ c ∈ creations extra, c.1 ≤ 4092 := by
  induction ops with
  | nil => intro a w; exact ⟨[], by simp [runOps, Outcome.world], by simp [creations]⟩
  | cons op ops ih =>
    intro a w
    obtain ⟨e1, ht1, hc1⟩ := step_caps api a w op
    simp only [runOps]
    cases h : step api a w op with
    | abort w1 => rw [h] at ht1; exact ⟨e1, ht1, hc1⟩
    | undefined w1 => rw [h] at ht1; exact ⟨e1, ht1, hc1⟩
    | ok a1 w1 =>
      rw [h] at ht1
      simp only [Outcome.world] at ht1
      obtain ⟨e2, ht2, hc2⟩ := ih a1 w1
      refine ⟨e1 ++ e2, ?_, ?_⟩
      · simp only []
        rw [ht2, ht1, List.append_assoc]
      · intro c hc
        rw [creations_append, List.mem_append] at hc
        rcases hc with hc | hc
        · exact hc1 c hc
        · exact hc2 c hc

/-- C16: on any driver and for every allocator state (every prior value of `mSetsPerPool`):
a growth event (pool selection with an empty ready list) makes exactly one pool creation, and
the capacity it is asked for is `min ((2 * s) mod 2 ^ 32) 4092`, at most 4092, and is the
value stored in `mSetsPerPool` when the step returns; a pool selection with a ready pool
creates nothing; and no pool created by `allocate`, or by any sequence of `allocate`,
`clear_pools` and `destroy_pools` calls, has a capacity above 4092. -/
theorem C16_cap_respected_on_growth {D : Type} (api : Driver D)
    (a : DescriptorAllocatorGrowable) (w : World D) :
    (a.mReadyPools = [] →
      ∃ r p,
        newCalls w (get_descriptor_allocation_pool api a w).world
          = [Call.createDescriptorPool (min ((a.mSetsPerPool * 2) % 2 ^ 32) 4092) r p]
        ∧ min ((a.mSetsPerPool * 2) % 2 ^ 32) 4092 ≤ CAP_SETS_IN_POOL
        ∧ ∀ q a1 w1, get_descriptor_allocation_pool api a w = Outcome.ok (q, a1) w1 →
            a1.mSetsPerPool = min ((a.mSetsPerPool * 2) % 2 ^ 32) 4092)
    ∧ (a.mReadyPools ≠ [] →
        newCalls w (get_descriptor_allocation_pool api a w).world = [])
    ∧ (∀ layout, ∀ c ∈ creations (newCalls w (allocate api a w layout).world),
        c.1 ≤ CAP_SETS_IN_POOL)
    ∧ (∀ ops, ∀ c ∈ creations (newCalls w (runOps api ops a w).world),
        c.1 ≤ CAP_SETS_IN_POOL) := by
  obtain ⟨e, ht, hready, hgrow, hc, hstored⟩ := get_pool_caps api a w
  refine ⟨fun hnil => ?_, fun hne => ?_, fun layout c hcm => ?_, fun ops c hcm => ?_⟩
  · obtain ⟨r, p, he⟩ := hgrow hnil
    refine ⟨r, p, ?_, Nat.min_le_right _ _, fun q a1 w1 hok => ?_⟩
    · rw [newCalls_append w _ e ht, he]
    · have := hstored q a1 w1 hok
        (min ((a.mSetsPerPool * 2) % 2 ^ 32) 4092, p) (by rw [he]; simp [creations])
      exact this.symm
  · rw [newCalls_append w _ e ht, hready hne]
  · obtain ⟨e2, ht2, hc2⟩ := allocate_caps api a w layout
    rw [newCalls_append w _ e2 ht2] at hcm
    exact hc2 c hcm
  · obtain ⟨e2, ht2, hc2⟩ := runOps_caps api ops a w
    rw [newCalls_append w _ e2 ht2] at hcm
    exact hc2 c hcm

/-! ### Sequences of `push_function` and `flush` -/

theorem queue_flush_eq {W : Type} (q : DeletionQueue W) (w : W) :
    q.flush w = (DeletionQueue.empty, q.deletors.reverse.foldl (fun w f => f w) w) := by
  simp only [DeletionQueue.flush, DeletionQueue.empty, flushLoop_length]

theorem queue_runOps_append {W : Type} (ops1 ops2 : List (QueueOp W))
    (st : DeletionQueue W × W) :
    DeletionQueue.runOps (ops1 ++ ops2) st
      = DeletionQueue.runOps ops2 (DeletionQueue.runOps ops1 st) := by
  simp only [DeletionQueue.runOps, List.foldl_append]

theorem queue_runOps_pushes {W : Type} (acts : List (W → W)) :
    ∀ (q : DeletionQueue W) (w : W),
      DeletionQueue.runOps (acts.map QueueOp.push_function) (q, w)
        = ({ deletors := q.deletors ++ acts }, w) := by
  induction acts with
  | nil => intro q w; simp [DeletionQueue.runOps]
  | cons f acts ih =>
    intro q w
    have h := ih (q.push_function f) w
    simp only [DeletionQueue.runOps, DeletionQueue.push_function, List.append_assoc,
      List.singleton_append] at h
    simp only [DeletionQueue.runOps, List.map_cons, List.foldl_cons, DeletionQueue.step,
      DeletionQueue.push_function, h]

theorem queue_flushEffects_append {W : Type} (ops1 ops2 : List (QueueOp W)) :
    ∀ st : DeletionQueue W × W,
      DeletionQueue.flushEffects (ops1 ++ ops2) st
        = DeletionQueue.flushEffects ops1 st
          ++ DeletionQueue.flushEffects ops2 (DeletionQueue.runOps ops1 st) := by
  induction ops1 with
  | nil => intro st; rfl
  | cons op ops1 ih =>
    intro st
    rw [List.cons_append]
    cases op with
    | push_function f =>
      simp only [DeletionQueue.flushEffects, ih, DeletionQueue.runOps, List.foldl_cons]
    | flush =>
      simp only [DeletionQueue.flushEffects, ih, DeletionQueue.runOps, List.foldl_cons,
        List.cons_append]

theorem queue_flushEffects_pushes {W : Type} (acts : List (W → W)) :
    ∀ st : DeletionQueue W × W,
      DeletionQueue.flushEffects (acts.map QueueOp.push_function) st = [] := by
  induction acts with
  | nil => intro st; rfl
  | cons f acts ih => intro st; simp only [List.map_cons, DeletionQueue.flushEffects, ih]

theorem queue_opsOf_cons {W : Type} (seg : List (W → W)) (w : W) :
    DeletionQueue.runOps (seg.map QueueOp.push_function ++ [QueueOp.flush])
        (DeletionQueue.empty, w)
      = (DeletionQueue.empty, seg.reverse.foldl (fun w f => f w) w) := by
  rw [queue_runOps_append, queue_runOps_pushes]
  simp only [DeletionQueue.runOps, List.foldl_cons, List.foldl_nil, DeletionQueue.step,
    queue_flush_eq, DeletionQueue.empty, List.nil_append]

theorem queue_runOps_opsOf {W : Type} (segs : List (List (W → W))) (tail : List (W → W)) :
    ∀ w : W,
      DeletionQueue.runOps (DeletionQueue.opsOf segs tail) (DeletionQueue.empty, w)
        = ({ deletors := tail },
            (segs.map List.reverse).flatten.foldl (fun w f => f w) w) := by
  induction segs with
  | nil =>
    intro w
    simp [DeletionQueue.opsOf, queue_runOps_pushes, DeletionQueue.empty]
  | cons seg segs ih =>
    intro w
    have hsplit : DeletionQueue.opsOf (seg :: segs) tail
        = (seg.map QueueOp.push_function ++ [QueueOp.flush]) ++ DeletionQueue.opsOf segs tail := by
      simp [DeletionQueue.opsOf]
    rw [hsplit, queue_runOps_append, queue_opsOf_cons seg, ih]
    simp only [List.map_cons, List.flatten_cons, List.foldl_append]

theorem queue_flushEffects_opsOf {W : Type} (segs : List (List (W → W)))
    (tail : List (W → W)) :
    ∀ w : W,
      List.Forall₂ (fun seg (p : W × W) => p.2 = seg.reverse.foldl (fun w f => f w) p.1) segs
        (DeletionQueue.flushEffects (DeletionQueue.opsOf segs tail) (DeletionQueue.empty, w)) := by
  induction segs with
  | nil =>
    intro w
    simp only [DeletionQueue.opsOf, queue_flushEffects_pushes]
    exact List.Forall₂.nil
  | cons seg segs ih =>
    intro w
    have hsplit : DeletionQueue.opsOf (seg :: segs) tail
        = seg.map QueueOp.push_function ++ ([QueueOp.flush] ++ DeletionQueue.opsOf segs tail) := by
      simp [DeletionQueue.opsOf]
    rw [hsplit, queue_flushEffects_append, queue_flushEffects_pushes, queue_runOps_pushes,
      List.nil_append]
    simp only [List.singleton_append, DeletionQueue.flushEffects, DeletionQueue.step,
      queue_flush_eq, DeletionQueue.empty, List.nil_append]
    exact List.Forall₂.cons rfl (ih _)

theorem queue_ops_shape {W : Type} (ops : List (QueueOp W)) :
    ∃ segs tail, ops = DeletionQueue.opsOf segs tail := by
  induction ops with
  | nil => exact ⟨[], [], rfl⟩
  | cons op ops ih =>
    obtain ⟨segs, tail, rfl⟩ := ih
    cases op with
    | flush => exact ⟨[] :: segs, tail, rfl⟩
    | push_function f =>
      cases segs with
      | nil => exact ⟨[], f :: tail, rfl⟩
      | cons seg segs => exact ⟨(f :: seg) :: segs, tail, rfl⟩

/-- C17: every finite sequence of `push_function` and `flush` calls is, for some lists of
actions `segs` and `tail`, the sequence that pushes each list of `segs` and flushes after it,
and then pushes `tail`.  Run from an empty queue, with any actions on any world, the k-th
`flush` takes the world through exactly the actions of the k-th list, last pushed first, and
the pushes change nothing; at the end the queue holds exactly `tail`, none of which has run.
With actions that log their label, the k-th `flush` appends exactly the labels of the k-th
list in reverse, and at the end every label is in the log as many times as it was pushed before
a `flush`.  A `flush` that directly follows a `flush` (of any queue) leaves the world as it
is. -/
theorem C17_each_action_once_and_reusable :
    (∀ (W : Type) (ops : List (QueueOp W)),
        ∃ segs tail, ops = DeletionQueue.opsOf segs tail)
    ∧ (∀ (W : Type) (segs : List (List (W → W))) (tail : List (W → W)) (w : W),
        DeletionQueue.runOps (DeletionQueue.opsOf segs tail) (DeletionQueue.empty, w)
            = ({ deletors := tail }, (segs.map List.reverse).flatten.foldl (fun w f => f w) w)
        ∧ List.Forall₂
            (fun seg (p : W × W) => p.2 = seg.reverse.foldl (fun w f => f w) p.1) segs
            (DeletionQueue.flushEffects (DeletionQueue.opsOf segs tail)
              (DeletionQueue.empty, w)))
    ∧ (∀ (α : Type) [DecidableEq α] (segs : List (List α)) (tail : List α) (log : List α),
        List.Forall₂ (fun (seg : List α) (p : List α × List α) => p.2 = p.1 ++ seg.reverse) segs
            (DeletionQueue.flushEffects
              (DeletionQueue.opsOf (segs.map (List.map DeletionQueue.logAction))
                (tail.map DeletionQueue.logAction))
              (DeletionQueue.empty, log))
        ∧ (DeletionQueue.runOps
              (DeletionQueue.opsOf (segs.map (List.map DeletionQueue.logAction))
                (tail.map DeletionQueue.logAction))
              (DeletionQueue.empty, log)).2 = log ++ (segs.map List.reverse).flatten
        ∧ ∀ a, ((DeletionQueue.runOps
              (DeletionQueue.opsOf (segs.map (List.map DeletionQueue.logAction))
                (tail.map DeletionQueue.logAction))
              (DeletionQueue.empty, log)).2).count a = log.count a + segs.flatten.count a)
    ∧ (∀ (W : Type) (q : DeletionQueue W) (w : W),
        DeletionQueue.runOps [QueueOp.flush, QueueOp.flush] (q, w)
          = DeletionQueue.runOps [QueueOp.flush] (q, w)) := by
  refine ⟨fun W ops => queue_ops_shape ops, fun W segs tail w =>
    ⟨queue_runOps_opsOf segs tail w, queue_flushEffects_opsOf segs tail w⟩, ?_, ?_⟩
  · intro α _ segs tail log
    have hlog : ∀ (seg : List α) (l : List α),
        (seg.map DeletionQueue.logAction).reverse.foldl (fun w f => f w) l = l ++ seg.reverse := by
      intro seg l
      rw [← List.map_reverse, foldl_logAction]
    have hfinal : (DeletionQueue.runOps
          (DeletionQueue.opsOf (segs.map (List.map DeletionQueue.logAction))
            (tail.map DeletionQueue.logAction))
          (DeletionQueue.empty, log)).2 = log ++ (segs.map List.reverse).flatten := by
      rw [queue_runOps_opsOf]
      show (List.map List.reverse (segs.map (List.map DeletionQueue.logAction))).flatten.foldl
        (fun w f => f w) log = _
      clear hlog
      induction segs generalizing log with
      | nil => simp
      | cons seg segs ih =>
        simp only [List.map_cons, List.flatten_cons, List.foldl_append]
        rw [ih, ← List.map_reverse, foldl_logAction, List.append_assoc]
    refine ⟨?_, hfinal, fun a => ?_⟩
    · have h := queue_flushEffects_opsOf (segs.map (List.map DeletionQueue.logAction))
        (tail.map DeletionQueue.logAction) log
      rw [List.forall₂_map_left_iff] at h
      refine List.Forall₂.imp ?_ h
      intro seg p hp
      rw [hp, hlog]
    · rw [hfinal, List.count_append]
      congr 1
      clear hfinal hlog
      induction segs with
      | nil => rfl
      | cons seg segs ih =>
        simp only [List.map_cons, List.flatten_cons, List.count_append, ih, List.count_reverse]
  · intro W q w
    simp only [DeletionQueue.runOps, List.foldl_cons, List.foldl_nil, DeletionQueue.step,
      queue_flush_eq, DeletionQueue.empty, List.reverse_nil]

/-! ### `destroy_pools` and the call of `allocate` after it -/

theorem foldl_destroy_dev {D : Type} (api : Driver D) (l : List VkDescriptorPool) :
    ∀ w : World D,
      (l.foldl (fun w pool => w.vkDestroyDescriptorPool api pool) w).dev
        = l.foldl api.vkDestroyDescriptorPool w.dev := by
  induction l with
  | nil => intro w; rfl
  | cons p l ih => intro w; simp only [List.foldl, ih]; rfl

theorem count_map_destroy (l : List VkDescriptorPool) (p : VkDescriptorPool) :
    (l.map Call.destroyDescriptorPool).count (Call.destroyDescriptorPool p) = l.count p :=
  List.count_map_of_injective l Call.destroyDescriptorPool
    (fun _ _ h => by injection h) p

/-- A call of `allocate` on an allocator whose ready list is empty makes its attempts only on
pools created during that call. -/
theorem allocate_from_empty {D : Type} (api : Driver D) (a : DescriptorAllocatorGrowable)
    (w : World D) (layout : VkDescriptorSetLayout) (hr : a.mReadyPools = []) :
    ∃ extra, (allocate api a w layout).world.trace = w.trace ++ extra
      ∧ ∀ att ∈ attempts extra, ∃ cap, (cap, att.1) ∈ creations extra := by
  cases h1 : get_descriptor_allocation_pool api a w with
  | abort w1 =>
    obtain ⟨-, cap, r, p, ht⟩ := get_pool_not_ok_cases api a w (by rw [h1]; rfl)
    rw [h1] at ht
    refine ⟨[Call.createDescriptorPool cap r p], ?_, ?_⟩
    · simp only [allocate, h1]; exact ht
    · intro att hatt; exact absurd hatt (by simp [attempts])
  | undefined w1 =>
    obtain ⟨-, cap, r, p, ht⟩ := get_pool_not_ok_cases api a w (by rw [h1]; rfl)
    rw [h1] at ht
    refine ⟨[Call.createDescriptorPool cap r p], ?_, ?_⟩
    · simp only [allocate, h1]; exact ht
    · intro att hatt; exact absurd hatt (by simp [attempts])
  | ok v w1 =>
    obtain ⟨p, a1⟩ := v
    obtain ⟨-, hcase⟩ := get_pool_ok_cases api a w p a1 w1 h1
    rcases hcase with ⟨hlast, -, -⟩ | ⟨-, hr1, cap, ht1⟩
    · rw [hr] at hlast; exact absurd hlast (by simp)
    rw [allocate_of_selected api a w layout p a1 w1 h1]
    split
    · cases h2 : get_descriptor_allocation_pool api
          { a1 with mFullPools := a1.mFullPools ++ [p] }
          (w1.vkAllocateDescriptorSets api p layout).2.2 with
      | abort w3 =>
        obtain ⟨-, cap2, r2, p2, ht2⟩ := get_pool_not_ok_cases api
          { a1 with mFullPools := a1.mFullPools ++ [p] }
          (w1.vkAllocateDescriptorSets api p layout).2.2 (by rw [h2]; rfl)
        rw [h2, attempt_trace, ht1] at ht2
        refine ⟨[Call.createDescriptorPool cap VK_SUCCESS p,
          Call.allocateDescriptorSets p layout (w1.vkAllocateDescriptorSets api p layout).1,
          Call.createDescriptorPool cap2 r2 p2], ?_, ?_⟩
        · simpa [Outcome.world] using ht2
        · intro att hatt
          simp only [attempts, List.mem_singleton] at hatt
          subst hatt
          exact ⟨cap, by simp [creations]⟩
      | undefined w3 =>
        obtain ⟨-, cap2, r2, p2, ht2⟩ := get_pool_not_ok_cases api
          { a1 with mFullPools := a1.mFullPools ++ [p] }
          (w1.vkAllocateDescriptorSets api p layout).2.2 (by rw [h2]; rfl)
        rw [h2, attempt_trace, ht1] at ht2
        refine ⟨[Call.createDescriptorPool cap VK_SUCCESS p,
          Call.allocateDescriptorSets p layout (w1.vkAllocateDescriptorSets api p layout).1,
          Call.createDescriptorPool cap2 r2 p2], ?_, ?_⟩
        · simpa [Outcome.world] using ht2
        · intro att hatt
          simp only [attempts, List.mem_singleton] at hatt
          subst hatt
          exact ⟨cap, by simp [creations]⟩
      | ok v2 w3 =>
        obtain ⟨p2, a3⟩ := v2
        obtain ⟨-, hcase2⟩ := get_pool_ok_cases api _ _ p2 a3 w3 h2
        rcases hcase2 with ⟨hlast2, -, -⟩ | ⟨-, -, cap2, ht2⟩
        · simp only [hr1] at hlast2; exact absurd hlast2 (by simp)
        rw [attempt_trace, ht1] at ht2
        refine ⟨[Call.createDescriptorPool cap VK_SUCCESS p,
          Call.allocateDescriptorSets p layout (w1.vkAllocateDescriptorSets api p layout).1,
          Call.createDescriptorPool cap2 VK_SUCCESS p2,
          Call.allocateDescriptorSets p2 layout
            (w3.vkAllocateDescriptorSets api p2 layout).1], ?_, ?_⟩
        · simp only []
          split <;> simp [Outcome.world, attempt_trace, ht2]
        · intro att hatt
          simp only [attempts, List.mem_cons, List.mem_singleton, List.not_mem_nil,
            or_false] at hatt
          rcases hatt with rfl | rfl
          · exact ⟨cap, by simp [creations]⟩
          · exact ⟨cap2, by simp [creations]⟩
    · refine ⟨[Call.createDescriptorPool cap VK_SUCCESS p,
        Call.allocateDescriptorSets p layout (w1.vkAllocateDescriptorSets api p layout).1], ?_, ?_⟩
      · simp [Outcome.world, attempt_trace, ht1]
      · intro att hatt
        simp only [attempts, List.mem_singleton] at hatt
        subst hatt
        exact ⟨cap, by simp [creations]⟩

/-- C18: on any driver, for every allocator state in which no pool handle is listed twice
across the ready and full lists: the calls `destroy_pools` makes are one destruction per pool
of the ready list followed by one per pool of the full list and nothing else, so every listed
pool is destroyed exactly once and no other pool is; the device state is the one these
destructions leave; afterwards both lists are empty and `mSetsPerPool` and the pool ratios are
unchanged; and every allocation attempt of a following call of `allocate` is made on a pool
created during that call. -/
theorem C18_destroy_pools_contract {D : Type} (api : Driver D)
    (a : DescriptorAllocatorGrowable) (w : World D)
    (hnodup : (a.mReadyPools ++ a.mFullPools).Nodup) :
    newCalls w (destroy_pools api a w).2
        = a.mReadyPools.map Call.destroyDescriptorPool
          ++ a.mFullPools.map Call.destroyDescriptorPool
    ∧ (∀ p ∈ a.mReadyPools ++ a.mFullPools,
        (newCalls w (destroy_pools api a w).2).count (Call.destroyDescriptorPool p) = 1)
    ∧ (∀ p, p ∉ a.mReadyPools ++ a.mFullPools →
        Call.destroyDescriptorPool p ∉ newCalls w (destroy_pools api a w).2)
    ∧ (destroy_pools api a w).2.dev
        = (a.mReadyPools ++ a.mFullPools).foldl api.vkDestroyDescriptorPool w.dev
    ∧ (destroy_pools api a w).1.mReadyPools = []
    ∧ (destroy_pools api a w).1.mFullPools = []
    ∧ (destroy_pools api a w).1.mSetsPerPool = a.mSetsPerPool
    ∧ (destroy_pools api a w).1.mPoolRatios = a.mPoolRatios
    ∧ ∀ layout,
        ∀ att ∈ attempts (newCalls (destroy_pools api a w).2
            (allocate api (destroy_pools api a w).1 (destroy_pools api a w).2 layout).world),
          ∃ cap, (cap, att.1) ∈ creations (newCalls (destroy_pools api a w).2
            (allocate api (destroy_pools api a w).1 (destroy_pools api a w).2 layout).world) := by
  have hcalls : newCalls w (destroy_pools api a w).2
      = (a.mReadyPools ++ a.mFullPools).map Call.destroyDescriptorPool :=
    newCalls_append w _ _ (destroy_pools_trace api a w)
  refine ⟨by rw [hcalls, List.map_append], fun p hp => ?_, fun p hp hmem => ?_, ?_, rfl, rfl,
    rfl, rfl, fun layout att hatt => ?_⟩
  · rw [hcalls, count_map_destroy]
    exact List.count_eq_one_of_mem hnodup hp
  · rw [hcalls, List.mem_map] at hmem
    obtain ⟨q, hq, heq⟩ := hmem
    injection heq with heq
    exact hp (heq ▸ hq)
  · simp only [destroy_pools, foldl_destroy_dev, List.foldl_append]
  · obtain ⟨extra, ht, hall⟩ := allocate_from_empty api (destroy_pools api a w).1
      (destroy_pools api a w).2 layout rfl
    rw [newCalls_append _ _ extra ht] at hatt ⊢
    exact hall att hatt

/-- C18 at a concrete input: the counting driver with pools 0 and 1, pool 0 ready and pool 1
full; the one attempt of the following `allocate` is on pool 2, which that call creates. -/
theorem C18_destroy_pools_contract_witness :
    ([0] ++ [1] : List VkDescriptorPool).Nodup
    ∧ attempts (newCalls
          (destroy_pools Sim.driver
            { mPoolRatios := [], mFullPools := [1], mReadyPools := [0], mSetsPerPool := 2 }
            (Sim.world { Sim.start 0 [] [] with pools := [⟨4, 1, false⟩, ⟨2, 2, false⟩] })).2
          (allocate Sim.driver
            (destroy_pools Sim.driver
              { mPoolRatios := [], mFullPools := [1], mReadyPools := [0], mSetsPerPool := 2 }
              (Sim.world { Sim.start 0 [] [] with pools := [⟨4, 1, false⟩, ⟨2, 2, false⟩] })).1
            (destroy_pools Sim.driver
              { mPoolRatios := [], mFullPools := [1], mReadyPools := [0], mSetsPerPool := 2 }
              (Sim.world { Sim.start 0 [] [] with pools := [⟨4, 1, false⟩, ⟨2, 2, false⟩] })).2
            7).world) = [(2, VK_SUCCESS)]
    ∧ ∀ att ∈ attempts (newCalls
          (destroy_pools Sim.driver
            { mPoolRatios := [], mFullPools := [1], mReadyPools := [0], mSetsPerPool := 2 }
            (Sim.world { Sim.start 0 [] [] with pools := [⟨4, 1, false⟩, ⟨2, 2, false⟩] })).2
          (allocate Sim.driver
            (destroy_pools Sim.driver
              { mPoolRatios := [], mFullPools := [1], mReadyPools := [0], mSetsPerPool := 2 }
              (Sim.world { Sim.start 0 [] [] with pools := [⟨4, 1, false⟩, ⟨2, 2, false⟩] })).1
            (destroy_pools Sim.driver
              { mPoolRatios := [], mFullPools := [1], mReadyPools := [0], mSetsPerPool := 2 }
              (Sim.world { Sim.start 0 [] [] with pools := [⟨4, 1, false⟩, ⟨2, 2, false⟩] })).2
            7).world),
        ∃ cap, (cap, att.1) ∈ creations (newCalls
          (destroy_pools Sim.driver
            { mPoolRatios := [], mFullPools := [1], mReadyPools := [0], mSetsPerPool := 2 }
            (Sim.world { Sim.start 0 [] [] with pools := [⟨4, 1, false⟩, ⟨2, 2, false⟩] })).2
          (allocate Sim.driver
            (destroy_pools Sim.driver
              { mPoolRatios := [], mFullPools := [1], mReadyPools := [0], mSetsPerPool := 2 }
              (Sim.world { Sim.start 0 [] [] with pools := [⟨4, 1, false⟩, ⟨2, 2, false⟩] })).1
            (destroy_pools Sim.driver
              { mPoolRatios := [], mFullPools := [1], mReadyPools := [0], mSetsPerPool := 2 }
              (Sim.world { Sim.start 0 [] [] with pools := [⟨4, 1, false⟩, ⟨2, 2, false⟩] })).2
            7).world) :=
  ⟨by decide, by decide,
    (C18_destroy_pools_contract Sim.driver
      { mPoolRatios := [], mFullPools := [1], mReadyPools := [0], mSetsPerPool := 2 }
      (Sim.world { Sim.start 0 [] [] with pools := [⟨4, 1, false⟩, ⟨2, 2, false⟩] })
      (by decide)).2.2.2.2.2.2.2.2 7⟩

/-! ### The ring index -/

theorem get_current_frame_some {W : Type} (e : VulkanEngine W) (hlen : e.mFrames.length = 2)
    (hlo : 0 ≤ e.mCurrentFrameNumber) (hhi : e.mCurrentFrameNumber < FRAMES_IN_FLIGHT) :
    ∃ frame, e.get_current_frame = some frame := by
  have hlt : e.mCurrentFrameNumber.toNat < e.mFrames.length := by
    have : e.mCurrentFrameNumber < 2 := hhi
    omega
  refine ⟨e.mFrames.get ⟨_, hlt⟩, ?_⟩
  simp only [VulkanEngine.get_current_frame, hlo, if_true]
  exact List.getElem?_eq_getElem hlt

theorem ring_step (i : Int) (hlo : 0 ≤ i) (hhi : i < FRAMES_IN_FLIGHT) :
    Int.tmod (i + 1) FRAMES_IN_FLIGHT = (i + 1) % FRAMES_IN_FLIGHT
    ∧ 0 ≤ Int.tmod (i + 1) FRAMES_IN_FLIGHT
    ∧ Int.tmod (i + 1) FRAMES_IN_FLIGHT < FRAMES_IN_FLIGHT := by
  have h2 : i < 2 := hhi
  have heq : Int.tmod (i + 1) FRAMES_IN_FLIGHT = (i + 1) % FRAMES_IN_FLIGHT :=
    Int.tmod_eq_emod (by omega) (by decide)
  refine ⟨heq, ?_, ?_⟩
  · rw [heq]; exact Int.emod_nonneg _ (by decide)
  · rw [heq]; exact Int.emod_lt_of_pos _ (by decide)

/-- When `draw` returns, the frame array has its length, and either the last call is the
acquire, which reported out-of-date, and the ring index is unchanged, or the last call is the
present and the ring index is the old one plus one, reduced modulo the ring size by the
truncating remainder. -/
theorem draw_index_facts {D : Type} (api : Driver D) (e : VulkanEngine (World D)) (w : World D)
    (e1 : VulkanEngine (World D)) (w1 : World D)
    (h : VulkanEngine.draw api e w = Outcome.ok e1 w1) :
    e1.mFrames.length = e.mFrames.length
    ∧ ((∃ sem img, w1.trace.getLast? =
            some (Call.acquireNextImage sem VK_ERROR_OUT_OF_DATE_KHR img)
          ∧ e1.mCurrentFrameNumber = e.mCurrentFrameNumber
          ∧ e1.mSwapchainResizeRequested = true)
      ∨ (∃ sem img r, w1.trace.getLast? = some (Call.queuePresent sem img r)
          ∧ e1.mCurrentFrameNumber = Int.tmod (e.mCurrentFrameNumber + 1) FRAMES_IN_FLIGHT
          ∧ (r = VK_ERROR_OUT_OF_DATE_KHR → e1.mSwapchainResizeRequested = true)
          ∧ (r ≠ VK_ERROR_OUT_OF_DATE_KHR →
              e1.mSwapchainResizeRequested = e.mSwapchainResizeRequested))) := by
  cases hframe : e.get_current_frame with
  | none =>
    rw [draw_of_no_frame api e w hframe] at h
    exact absurd h (by simp)
  | some frame =>
    have hlen : (VulkanEngine.afterRecycle api e frame w).mFrames.length = e.mFrames.length := by
      simp [VulkanEngine.afterRecycle, VulkanEngine.set_current_frame]
    have hidx : (VulkanEngine.afterRecycle api e frame w).mCurrentFrameNumber
        = e.mCurrentFrameNumber := rfl
    have hflag : (VulkanEngine.afterRecycle api e frame w).mSwapchainResizeRequested
        = e.mSwapchainResizeRequested := rfl
    rw [draw_eq_drawTail api e w frame hframe] at h
    split_ifs at h with h1 h2 h3
    · injection h with he hw
      subst he hw
      refine ⟨hlen, Or.inl ⟨frame.mSwapchainSemaphore,
        ((VulkanEngine.recycled api frame w).vkAcquireNextImageKHR api
          frame.mSwapchainSemaphore).2.1, ?_, hidx, rfl⟩⟩
      rw [← h3]
      simp [World.vkAcquireNextImageKHR]
    · obtain ⟨hfr, hnext, r, hlast, hood, hnood⟩ := drawTail_ok api frame _ _ _ e1 w1 h
      exact ⟨by rw [hfr]; exact hlen,
        Or.inr ⟨_, _, r, hlast, by rw [hnext, hidx], hood, fun hne => by rw [hnood hne, hflag]⟩⟩

/-- With the ring index inside the frame array, an iteration of the main loop never indexes
outside it, and when it returns the index is inside the array again. -/
theorem runIteration_ring {D : Type} (api : Driver D) (events : List SDL_EventType)
    (bQuitEngine : Bool) (e : VulkanEngine (World D)) (w : World D)
    (hlen : e.mFrames.length = 2) (hlo : 0 ≤ e.mCurrentFrameNumber)
    (hhi : e.mCurrentFrameNumber < FRAMES_IN_FLIGHT) :
    ((VulkanEngine.runIteration api events bQuitEngine e w).isOk = true
      ∨ (VulkanEngine.runIteration api events bQuitEngine e w).isAbort = true)
    ∧ ∀ st w1, VulkanEngine.runIteration api events bQuitEngine e w = Outcome.ok st w1 →
        st.2.mFrames.length = 2 ∧ 0 ≤ st.2.mCurrentFrameNumber
          ∧ st.2.mCurrentFrameNumber < FRAMES_IN_FLIGHT := by
  obtain ⟨hpf, hpi, -⟩ := pollEvents_facts events bQuitEngine e
  unfold VulkanEngine.runIteration
  simp only []
  by_cases hstop : (VulkanEngine.pollEvents events bQuitEngine e).2.mStopRendering = true
  · rw [if_pos hstop]
    refine ⟨Or.inl rfl, fun st w1 h => ?_⟩
    injection h with hst hw
    subst hst
    rw [hpf, hpi]
    exact ⟨hlen, hlo, hhi⟩
  · rw [if_neg hstop]
    obtain ⟨er, hres⟩ : ∃ er, er =
        (if (VulkanEngine.pollEvents events bQuitEngine e).2.mSwapchainResizeRequested = true
          then VulkanEngine.resize_swapchain api (VulkanEngine.pollEvents events bQuitEngine e).2 w
          else ((VulkanEngine.pollEvents events bQuitEngine e).2, w)) := ⟨_, rfl⟩
    rw [← hres]
    have hfacts : er.1.mFrames = e.mFrames ∧ er.1.mCurrentFrameNumber = e.mCurrentFrameNumber := by
      rw [hres]
      split_ifs
      · obtain ⟨hf, hi, -, -⟩ := resize_swapchain_facts api
          (VulkanEngine.pollEvents events bQuitEngine e).2 w
        exact ⟨by rw [hf, hpf], by rw [hi, hpi]⟩
      · exact ⟨hpf, hpi⟩
    obtain ⟨hf, hi⟩ := hfacts
    obtain ⟨frame, hframe⟩ := get_current_frame_some er.1 (by rw [hf]; exact hlen)
      (by rw [hi]; exact hlo) (by rw [hi]; exact hhi)
    cases hd : VulkanEngine.draw api er.1 er.2 with
    | ok e1 w2 =>
      refine ⟨Or.inl rfl, fun st w1 h => ?_⟩
      injection h with hst hw2
      subst hst
      obtain ⟨hl1, hcase⟩ := draw_index_facts api er.1 er.2 e1 w2 hd
      refine ⟨by rw [hl1, hf]; exact hlen, ?_⟩
      rcases hcase with ⟨-, -, -, hsame, -⟩ | ⟨-, -, -, -, hnext, -, -⟩
      · show 0 ≤ e1.mCurrentFrameNumber ∧ e1.mCurrentFrameNumber < FRAMES_IN_FLIGHT
        rw [hsame, hi]; exact ⟨hlo, hhi⟩
      · show 0 ≤ e1.mCurrentFrameNumber ∧ e1.mCurrentFrameNumber < FRAMES_IN_FLIGHT
        rw [hnext, hi]; exact (ring_step _ hlo hhi).2
    | abort w2 => exact ⟨Or.inr rfl, fun st w1 h => absurd h (by simp)⟩
    | undefined w2 =>
      rcases draw_not_undefined api er.1 er.2 frame hframe with hok | hab
      · rw [hd] at hok; exact absurd hok (by simp [Outcome.isOk])
      · rw [hd] at hab; exact absurd hab (by simp [Outcome.isAbort])

theorem runLoop_ring {D : Type} (api : Driver D) (batches : List (List SDL_EventType)) :
    ∀ (bQuitEngine : Bool) (e : VulkanEngine (World D)) (w : World D),
      e.mFrames.length = 2 → 0 ≤ e.mCurrentFrameNumber →
      e.mCurrentFrameNumber < FRAMES_IN_FLIGHT →
      ((VulkanEngine.runLoop api batches bQuitEngine e w).isOk = true
        ∨ (VulkanEngine.runLoop api batches bQuitEngine e w).isAbort = true)
      ∧ ∀ e1 w1, VulkanEngine.runLoop api batches bQuitEngine e w = Outcome.ok e1 w1 →
          e1.mFrames.length = 2 ∧ 0 ≤ e1.mCurrentFrameNumber
            ∧ e1.mCurrentFrameNumber < FRAMES_IN_FLIGHT := by
  induction batches with
  | nil =>
    intro bq e w hlen hlo hhi
    refine ⟨Or.inl rfl, fun e1 w1 h => ?_⟩
    simp only [VulkanEngine.runLoop] at h
    injection h with he hw
    subst he
    exact ⟨hlen, hlo, hhi⟩
  | cons events later ih =>
    intro bq e w hlen hlo hhi
    unfold VulkanEngine.runLoop
    split_ifs with hq
    · refine ⟨Or.inl rfl, fun e1 w1 h => ?_⟩
      injection h with he hw
      subst he
      exact ⟨hlen, hlo, hhi⟩
    · obtain ⟨hdef, hok⟩ := runIteration_ring api events bq e w hlen hlo hhi
      cases hit : VulkanEngine.runIteration api events bq e w with
      | ok st w1 =>
        obtain ⟨hl1, hlo1, hhi1⟩ := hok st w1 hit
        exact ih st.1 st.2 w1 hl1 hlo1 hhi1
      | abort w1 => exact ⟨Or.inr rfl, fun e1 w2 h => absurd h (by simp)⟩
      | undefined w1 =>
        rw [hit] at hdef
        rcases hdef with h | h
        · exact absurd h (by simp [Outcome.isOk])
        · exact absurd h (by simp [Outcome.isAbort])

/-- C19: on any driver, for an engine whose frame array has its two slots and whose ring index
`i` satisfies `0 ≤ i < FRAMES_IN_FLIGHT`: `get_current_frame` is inside the array and `draw`
never indexes outside it; when `draw` returns, either its last call is the acquire, which
reported out-of-date, the index is still `i` and the resize flag is set, or its last call is
the present, the index is `(i + 1) mod FRAMES_IN_FLIGHT`, and the resize flag is set when the
present reported out-of-date and is as before otherwise; in both cases the index is again in
`[0, FRAMES_IN_FLIGHT)` and `get_current_frame` is inside the array; and the same holds after
any number of iterations of the main loop. -/
theorem C19_ring_index_transition {D : Type} (api : Driver D) (e : VulkanEngine (World D))
    (w : World D) (hlen : e.mFrames.length = 2) (hlo : 0 ≤ e.mCurrentFrameNumber)
    (hhi : e.mCurrentFrameNumber < FRAMES_IN_FLIGHT) :
    (∃ frame, e.get_current_frame = some frame)
    ∧ ((VulkanEngine.draw api e w).isOk = true ∨ (VulkanEngine.draw api e w).isAbort = true)
    ∧ (∀ e1 w1, VulkanEngine.draw api e w = Outcome.ok e1 w1 →
        ((∃ sem img, w1.trace.getLast? =
              some (Call.acquireNextImage sem VK_ERROR_OUT_OF_DATE_KHR img)
            ∧ e1.mCurrentFrameNumber = e.mCurrentFrameNumber
            ∧ e1.mSwapchainResizeRequested = true)
          ∨ (∃ sem img r, w1.trace.getLast? = some (Call.queuePresent sem img r)
            ∧ e1.mCurrentFrameNumber = (e.mCurrentFrameNumber + 1) % FRAMES_IN_FLIGHT
            ∧ (r = VK_ERROR_OUT_OF_DATE_KHR → e1.mSwapchainResizeRequested = true)
            ∧ (r ≠ VK_ERROR_OUT_OF_DATE_KHR →
                e1.mSwapchainResizeRequested = e.mSwapchainResizeRequested)))
        ∧ e1.mFrames.length = 2
        ∧ 0 ≤ e1.mCurrentFrameNumber ∧ e1.mCurrentFrameNumber < FRAMES_IN_FLIGHT
        ∧ ∃ frame, e1.get_current_frame = some frame)
    ∧ ∀ (batches : List (List SDL_EventType)) (bQuitEngine : Bool),
        ((VulkanEngine.runLoop api batches bQuitEngine e w).isOk = true
          ∨ (VulkanEngine.runLoop api batches bQuitEngine e w).isAbort = true)
        ∧ ∀ e1 w1, VulkanEngine.runLoop api batches bQuitEngine e w = Outcome.ok e1 w1 →
            0 ≤ e1.mCurrentFrameNumber ∧ e1.mCurrentFrameNumber < FRAMES_IN_FLIGHT
              ∧ ∃ frame, e1.get_current_frame = some frame := by
  obtain ⟨frame, hframe⟩ := get_current_frame_some e hlen hlo hhi
  refine ⟨⟨frame, hframe⟩, draw_not_undefined api e w frame hframe, fun e1 w1 h => ?_,
    fun batches bq => ?_⟩
  · obtain ⟨hl1, hcase⟩ := draw_index_facts api e w e1 w1 h
    obtain ⟨hmod, hnn, hlt⟩ := ring_step e.mCurrentFrameNumber hlo hhi
    have hrange : 0 ≤ e1.mCurrentFrameNumber ∧ e1.mCurrentFrameNumber < FRAMES_IN_FLIGHT := by
      rcases hcase with ⟨-, -, -, hsame, -⟩ | ⟨-, -, -, -, hnext, -, -⟩
      · rw [hsame]; exact ⟨hlo, hhi⟩
      · rw [hnext]; exact ⟨hnn, hlt⟩
    refine ⟨?_, by rw [hl1]; exact hlen, hrange.1, hrange.2,
      get_current_frame_some e1 (by rw [hl1]; exact hlen) hrange.1 hrange.2⟩
    rcases hcase with hood | ⟨sem, img, r, hlast, hnext, h1, h2⟩
    · exact Or.inl hood
    · exact Or.inr ⟨sem, img, r, hlast, by rw [hnext, hmod], h1, h2⟩
  · obtain ⟨hdef, hok⟩ := runLoop_ring api batches bq e w hlen hlo hhi
    refine ⟨hdef, fun e1 w1 h => ?_⟩
    obtain ⟨hl1, hlo1, hhi1⟩ := hok e1 w1 h
    exact ⟨hlo1, hhi1, get_current_frame_some e1 hl1 hlo1 hhi1⟩

/-- C19 at a concrete input: the engine before its first frame on the counting driver, four
iterations of the main loop, the second present and the fourth acquire reporting
out-of-date. -/
theorem C19_ring_index_transition_witness :
    (VulkanEngine.initial (World Sim)).mFrames.length = 2
    ∧ ((VulkanEngine.runLoop Sim.driver [[], [], [], []] false (VulkanEngine.initial (World Sim))
          (Sim.world (Sim.start 2
            [VK_SUCCESS, VK_SUCCESS, VK_SUCCESS, VK_ERROR_OUT_OF_DATE_KHR]
            [VK_SUCCESS, VK_ERROR_OUT_OF_DATE_KHR]))).value?.map
        fun e1 => (e1.mCurrentFrameNumber, e1.mSwapchainResizeRequested)) = some (1, true)
    ∧ ((VulkanEngine.runLoop Sim.driver [[], [], [], []] false (VulkanEngine.initial (World Sim))
          (Sim.world (Sim.start 2
            [VK_SUCCESS, VK_SUCCESS, VK_SUCCESS, VK_ERROR_OUT_OF_DATE_KHR]
            [VK_SUCCESS, VK_ERROR_OUT_OF_DATE_KHR]))).isOk = true
        ∨ (VulkanEngine.runLoop Sim.driver [[], [], [], []] false
          (VulkanEngine.initial (World Sim))
          (Sim.world (Sim.start 2
            [VK_SUCCESS, VK_SUCCESS, VK_SUCCESS, VK_ERROR_OUT_OF_DATE_KHR]
            [VK_SUCCESS, VK_ERROR_OUT_OF_DATE_KHR]))).isAbort = true) :=
  ⟨rfl, by decide,
    ((C19_ring_index_transition Sim.driver (VulkanEngine.initial (World Sim))
      (Sim.world (Sim.start 2
        [VK_SUCCESS, VK_SUCCESS, VK_SUCCESS, VK_ERROR_OUT_OF_DATE_KHR]
        [VK_SUCCESS, VK_ERROR_OUT_OF_DATE_KHR]))
      rfl (by decide) (by decide)).2.2.2 [[], [], [], []] false).1⟩

/-! ### Teardown -/

theorem frames_in_flight_toNat : FRAMES_IN_FLIGHT.toNat = 2 := rfl

/-- The loop of `cleanup` over an array of two frame slots flushes the queue of slot 0 and then
the queue of slot 1, and leaves both empty. -/
theorem flushFrameQueues_two {W : Type} (e : VulkanEngine W) (w : W) (f0 f1 : FrameData W)
    (h : e.mFrames = [f0, f1]) :
    VulkanEngine.flushFrameQueues 0 2 e w =
      Outcome.ok
        { e with
          mFrames := [{ f0 with mDeletionQueue := DeletionQueue.empty },
            { f1 with mDeletionQueue := DeletionQueue.empty }] }
        (f1.mDeletionQueue.deletors.reverse.foldl (fun w f => f w)
          (f0.mDeletionQueue.deletors.reverse.foldl (fun w f => f w) w)) := by
  simp [VulkanEngine.flushFrameQueues, h, queue_flush_eq]

theorem init_registrations {D : Type} (api : Driver D) (e0 : VulkanEngine (World D)) :
    (VulkanEngine.init api e0).mEngineDeletionQueue.deletors =
      e0.mEngineDeletionQueue.deletors ++
        [World.releaseEngineObject api EngineRelease.vmaAllocator,
          World.releaseEngineObject api EngineRelease.drawImage,
          World.releaseEngineObject api EngineRelease.immediateCommandPool,
          World.releaseEngineObject api (EngineRelease.frameCommandPool 0),
          World.releaseEngineObject api (EngineRelease.frameCommandPool 1),
          World.releaseEngineObject api (EngineRelease.frameSyncStructures 0),
          World.releaseEngineObject api (EngineRelease.frameSyncStructures 1),
          World.releaseEngineObject api EngineRelease.immediateFence,
          World.releaseEngineObject api EngineRelease.imgui] := by
  have hrange : List.range FRAMES_IN_FLIGHT.toNat = [0, 1] := rfl
  simp [VulkanEngine.init, VulkanEngine.init_imgui, VulkanEngine.init_sync_structures,
    VulkanEngine.init_commands, VulkanEngine.init_swapchain, VulkanEngine.init_vulkan,
    DeletionQueue.push_function, hrange]

theorem cleanup_eq {D : Type} (api : Driver D) (e : VulkanEngine (World D)) (w : World D)
    (f0 f1 : FrameData (World D)) (hfr : e.mFrames = [f0, f1]) :
    VulkanEngine.cleanup api e w =
      Outcome.ok
        { e with
          mFrames := [{ f0 with mDeletionQueue := DeletionQueue.empty },
            { f1 with mDeletionQueue := DeletionQueue.empty }],
          mEngineDeletionQueue := DeletionQueue.empty }
        (World.SDL_DestroyWindow api (World.vkDestroyInstance api
          (World.destroy_debug_utils_messenger api (World.vkDestroyDevice api
            (World.vkDestroySurfaceKHR api (VulkanEngine.destroy_swapchain api e
              (e.mEngineDeletionQueue.deletors.reverse.foldl (fun w f => f w)
                ((e.mFrames.map fun fr => fr.mDeletionQueue.deletors.reverse).flatten.foldl
                  (fun w f => f w) (w.vkDeviceWaitIdle api))))))))) := by
  unfold VulkanEngine.cleanup
  simp only [frames_in_flight_toNat, flushFrameQueues_two e _ f0 f1 hfr, queue_flush_eq,
    hfr, List.map_cons, List.map_nil, List.flatten_cons, List.flatten_nil, List.append_nil,
    List.foldl_append, VulkanEngine.destroy_swapchain]

/-- C20: on any driver, for every engine state (the frame array has its two slots) and any
pending actions: `cleanup` returns, and the world it leaves is the one reached by waiting for
the device, then running the pending actions of frame slot 0 and then those of frame slot 1,
each slot last pushed first, then the pending actions of the engine queue, last pushed first,
and then destroying the swapchain, the surface, the device, the debug messenger, the instance
and the window; every queue is empty afterwards.  The engine queue as `init` leaves it holds the
nine callbacks in the order of their registration, the one releasing the memory allocator
first, so that flushing it releases the overlay first and the memory allocator last. -/
theorem C20_teardown_order {D : Type} (api : Driver D) (e : VulkanEngine (World D))
    (w : World D) (hlen : e.mFrames.length = 2) :
    (∃ e1 w1, VulkanEngine.cleanup api e w = Outcome.ok e1 w1
      ∧ w1 = World.SDL_DestroyWindow api (World.vkDestroyInstance api
          (World.destroy_debug_utils_messenger api (World.vkDestroyDevice api
            (World.vkDestroySurfaceKHR api (VulkanEngine.destroy_swapchain api e
              (e.mEngineDeletionQueue.deletors.reverse.foldl (fun w f => f w)
                ((e.mFrames.map fun fr => fr.mDeletionQueue.deletors.reverse).flatten.foldl
                  (fun w f => f w) (w.vkDeviceWaitIdle api))))))))
      ∧ e1.mEngineDeletionQueue.deletors = []
      ∧ e1.mFrames.length = 2
      ∧ ∀ fr ∈ e1.mFrames, fr.mDeletionQueue.deletors = [])
    ∧ (∀ e0 : VulkanEngine (World D),
        (VulkanEngine.init api e0).mEngineDeletionQueue.deletors =
          e0.mEngineDeletionQueue.deletors ++
            [World.releaseEngineObject api EngineRelease.vmaAllocator,
              World.releaseEngineObject api EngineRelease.drawImage,
              World.releaseEngineObject api EngineRelease.immediateCommandPool,
              World.releaseEngineObject api (EngineRelease.frameCommandPool 0),
              World.releaseEngineObject api (EngineRelease.frameCommandPool 1),
              World.releaseEngineObject api (EngineRelease.frameSyncStructures 0),
              World.releaseEngineObject api (EngineRelease.frameSyncStructures 1),
              World.releaseEngineObject api EngineRelease.immediateFence,
              World.releaseEngineObject api EngineRelease.imgui])
    ∧ (∀ (e0 : VulkanEngine (World D)) (x : World D),
        e0.mEngineDeletionQueue.deletors = [] →
        newCalls x ((VulkanEngine.init api e0).mEngineDeletionQueue.flush x).2 =
          [Call.releaseEngineObject EngineRelease.imgui,
            Call.releaseEngineObject EngineRelease.immediateFence,
            Call.releaseEngineObject (EngineRelease.frameSyncStructures 1),
            Call.releaseEngineObject (EngineRelease.frameSyncStructures 0),
            Call.releaseEngineObject (EngineRelease.frameCommandPool 1),
            Call.releaseEngineObject (EngineRelease.frameCommandPool 0),
            Call.releaseEngineObject EngineRelease.immediateCommandPool,
            Call.releaseEngineObject EngineRelease.drawImage,
            Call.releaseEngineObject EngineRelease.vmaAllocator]) := by
  refine ⟨?_, init_registrations api, ?_⟩
  · obtain ⟨f0, f1, hfr⟩ : ∃ f0 f1, e.mFrames = [f0, f1] := by
      match hm : e.mFrames, hlen with
      | [f0, f1], _ => exact ⟨f0, f1, rfl⟩
    refine ⟨_, _, cleanup_eq api e w f0 f1 hfr, rfl, rfl, rfl, ?_⟩
    · intro fr hfr1
      simp only [List.mem_cons, List.mem_singleton, List.not_mem_nil, or_false] at hfr1
      rcases hfr1 with rfl | rfl <;> rfl
  · intro e0 x h0
    rw [queue_flush_eq, init_registrations, h0]
    simp [newCalls, World.releaseEngineObject]

/-- C20 at a concrete input: the engine as `init` leaves it on the counting driver, with two
actions pending on frame slot 0 and one on frame slot 1. -/
theorem C20_teardown_order_witness :
    VulkanEngine.initialisedWithPending.mFrames.length = 2
    ∧ newCalls (Sim.world (Sim.start 2 [] []))
        (VulkanEngine.cleanup Sim.driver VulkanEngine.initialisedWithPending
          (Sim.world (Sim.start 2 [] []))).world =
        [Call.deviceWaitIdle,
          Call.destroyImageView 11, Call.destroyImageView 10, Call.destroyImageView 20,
          Call.releaseEngineObject EngineRelease.imgui,
          Call.releaseEngineObject EngineRelease.immediateFence,
          Call.releaseEngineObject (EngineRelease.frameSyncStructures 1),
          Call.releaseEngineObject (EngineRelease.frameSyncStructures 0),
          Call.releaseEngineObject (EngineRelease.frameCommandPool 1),
          Call.releaseEngineObject (EngineRelease.frameCommandPool 0),
          Call.releaseEngineObject EngineRelease.immediateCommandPool,
          Call.releaseEngineObject EngineRelease.drawImage,
          Call.releaseEngineObject EngineRelease.vmaAllocator,
          Call.destroySwapchain,
          Call.destroyImageView 0, Call.destroyImageView 1, Call.destroyImageView 2,
          Call.destroySurface, Call.destroyDevice, Call.destroyDebugUtilsMessenger,
          Call.destroyInstance, Call.destroyWindow]
    ∧ ∃ e1 w1,
        VulkanEngine.cleanup Sim.driver VulkanEngine.initialisedWithPending
          (Sim.world (Sim.start 2 [] [])) = Outcome.ok e1 w1
        ∧ e1.mEngineDeletionQueue.deletors = []
        ∧ ∀ fr ∈ e1.mFrames, fr.mDeletionQueue.deletors = [] :=
  ⟨rfl, by decide,
    (C20_teardown_order Sim.driver VulkanEngine.initialisedWithPending
      (Sim.world (Sim.start 2 [] [])) rfl).1.elim
      fun e1 h1 => h1.elim fun w1 h => ⟨e1, w1, h.1, h.2.2.1, h.2.2.2.2⟩⟩

/-! ### What a call of `allocate` that returns has been told by the driver -/

/-- When the first attempt reports neither pool exhaustion nor fragmentation, `allocate`
returns the set of that attempt, whatever the result was. -/
theorem allocate_first_unchecked {D : Type} (api : Driver D) (a : DescriptorAllocatorGrowable)
    (w : World D) (layout : VkDescriptorSetLayout) (p : VkDescriptorPool)
    (a1 : DescriptorAllocatorGrowable) (w1 : World D)
    (hsel : get_descriptor_allocation_pool api a w = Outcome.ok (p, a1) w1)
    (h1 : (w1.vkAllocateDescriptorSets api p layout).1 ≠ VK_ERROR_OUT_OF_POOL_MEMORY)
    (h2 : (w1.vkAllocateDescriptorSets api p layout).1 ≠ VK_ERROR_FRAGMENTED_POOL) :
    allocate api a w layout =
      Outcome.ok ((w1.vkAllocateDescriptorSets api p layout).2.1,
          { a1 with mReadyPools := a1.mReadyPools ++ [p] })
        (w1.vkAllocateDescriptorSets api p layout).2.2 := by
  rw [allocate_of_selected api a w layout p a1 w1 hsel, if_neg]
  rintro (h | h)
  · exact h1 h
  · exact h2 h

/-- The attempts of a call of `allocate` that returns: one attempt whose result is neither pool
exhaustion nor fragmentation, or a first attempt with one of these two results followed by a
second attempt that reported success. -/
theorem allocate_ok_attempts {D : Type} (api : Driver D) (a : DescriptorAllocatorGrowable)
    (w : World D) (layout : VkDescriptorSetLayout) (ds : VkDescriptorSet)
    (a2 : DescriptorAllocatorGrowable) (w2 : World D)
    (h : allocate api a w layout = Outcome.ok (ds, a2) w2) :
    (∃ p r, attempts (newCalls w w2) = [(p, r)]
        ∧ r ≠ VK_ERROR_OUT_OF_POOL_MEMORY ∧ r ≠ VK_ERROR_FRAGMENTED_POOL)
    ∨ (∃ p1 r1 p2, attempts (newCalls w w2) = [(p1, r1), (p2, VK_SUCCESS)]
        ∧ (r1 = VK_ERROR_OUT_OF_POOL_MEMORY ∨ r1 = VK_ERROR_FRAGMENTED_POOL)) := by
  cases h1 : get_descriptor_allocation_pool api a w with
  | abort w1 => simp [allocate, h1] at h
  | undefined w1 => simp [allocate, h1] at h
  | ok v w1 =>
    obtain ⟨p, a1⟩ := v
    obtain ⟨pre, ht1, hatt1, -, -⟩ := get_pool_ok_trace api a w p a1 w1 h1
    rw [allocate_of_selected api a w layout p a1 w1 h1] at h
    split at h
    · rename_i hfail
      cases h2 : get_descriptor_allocation_pool api
          { a1 with mFullPools := a1.mFullPools ++ [p] }
          (w1.vkAllocateDescriptorSets api p layout).2.2 with
      | abort w3 => rw [h2] at h; exact absurd h (by simp)
      | undefined w3 => rw [h2] at h; exact absurd h (by simp)
      | ok v2 w3 =>
        obtain ⟨p2, a3⟩ := v2
        obtain ⟨pre2, ht2, hatt2, -, -⟩ := get_pool_ok_trace api _ _ p2 a3 w3 h2
        rw [h2] at h
        simp only [] at h
        split at h
        · rename_i hok
          injection h with hv hw
          subst hw
          refine Or.inr ⟨p, (w1.vkAllocateDescriptorSets api p layout).1, p2, ?_, hfail⟩
          have htr : (w3.vkAllocateDescriptorSets api p2 layout).2.2.trace
              = w.trace ++ (pre ++ [Call.allocateDescriptorSets p layout
                  (w1.vkAllocateDescriptorSets api p layout).1] ++ pre2
                ++ [Call.allocateDescriptorSets p2 layout VK_SUCCESS]) := by
            rw [attempt_trace, ht2, attempt_trace, ht1, hok]
            simp only [List.append_assoc]
          rw [newCalls_append _ _ _ htr]
          simp only [attempts_append, hatt1, hatt2, attempts, List.nil_append, List.append_nil,
            List.singleton_append]
        · exact absurd h (by simp)
    · rename_i hnofail
      injection h with hv hw
      subst hw
      refine Or.inl ⟨p, (w1.vkAllocateDescriptorSets api p layout).1, ?_,
        fun he => hnofail (Or.inl he), fun he => hnofail (Or.inr he)⟩
      have htr : (w1.vkAllocateDescriptorSets api p layout).2.2.trace
          = w.trace ++ (pre ++ [Call.allocateDescriptorSets p layout
              (w1.vkAllocateDescriptorSets api p layout).1]) := by
        rw [attempt_trace, ht1, List.append_assoc]
      rw [newCalls_append _ _ _ htr]
      simp only [attempts_append, hatt1, attempts, List.nil_append]

theorem allocate_not_undefined {D : Type} (api : Driver D) (a : DescriptorAllocatorGrowable)
    (w : World D) (layout : VkDescriptorSetLayout) :
    (allocate api a w layout).isOk = true ∨ (allocate api a w layout).isAbort = true := by
  cases h1 : get_descriptor_allocation_pool api a w with
  | abort w1 => simp [allocate, h1, Outcome.isAbort]
  | undefined w1 =>
    obtain ⟨habort, -⟩ := get_pool_not_ok_cases api a w (by rw [h1]; rfl)
    rw [h1] at habort
    exact absurd habort (by simp)
  | ok v w1 =>
    obtain ⟨p, a1⟩ := v
    rw [allocate_of_selected api a w layout p a1 w1 h1]
    split
    · cases h2 : get_descriptor_allocation_pool api
          { a1 with mFullPools := a1.mFullPools ++ [p] }
          (w1.vkAllocateDescriptorSets api p layout).2.2 with
      | abort w3 => exact Or.inr rfl
      | undefined w3 =>
        obtain ⟨habort, -⟩ := get_pool_not_ok_cases api
          { a1 with mFullPools := a1.mFullPools ++ [p] }
          (w1.vkAllocateDescriptorSets api p layout).2.2 (by rw [h2]; rfl)
        rw [h2] at habort
        exact absurd habort (by simp)
      | ok v2 w3 =>
        obtain ⟨p2, a3⟩ := v2
        simp only []
        split
        · exact Or.inl rfl
        · exact Or.inr rfl
    · exact Or.inl rfl

/-- C21, refuted: on a driver whose `vkAllocateDescriptorSets` reports
`VK_ERROR_OUT_OF_HOST_MEMORY`, the first call of `allocate` after `init` returns normally: its
one attempt reported that error, no attempt reported success, and the pool is put back as
ready.  In general, on any driver, a first attempt that reports neither pool exhaustion nor
fragmentation makes `allocate` return the set of that attempt whatever the result was; a call
that returns has made either one such attempt or a first attempt with one of these two
results followed by a second that reported success; and a call that does not return is
aborted. -/
theorem C21_first_attempt_unchecked :
    (∃ a w ds a2 w2,
      init Sim.driverOutOfHostMemory (fresh 0) (Sim.world (Sim.start 0 [] [])) 4 []
        = Outcome.ok a w
      ∧ allocate Sim.driverOutOfHostMemory a w 7 = Outcome.ok (ds, a2) w2
      ∧ newCalls w w2 = [Call.allocateDescriptorSets 0 7 VK_ERROR_OUT_OF_HOST_MEMORY]
      ∧ attempts (newCalls w w2) = [(0, VK_ERROR_OUT_OF_HOST_MEMORY)]
      ∧ (∀ att ∈ attempts (newCalls w w2), att.2 ≠ VK_SUCCESS)
      ∧ a2.mReadyPools = [0] ∧ a2.mFullPools = [])
    ∧ (∀ (D : Type) (api : Driver D) (a : DescriptorAllocatorGrowable) (w : World D)
        (layout : VkDescriptorSetLayout) (p : VkDescriptorPool)
        (a1 : DescriptorAllocatorGrowable) (w1 : World D),
        get_descriptor_allocation_pool api a w = Outcome.ok (p, a1) w1 →
        (w1.vkAllocateDescriptorSets api p layout).1 ≠ VK_ERROR_OUT_OF_POOL_MEMORY →
        (w1.vkAllocateDescriptorSets api p layout).1 ≠ VK_ERROR_FRAGMENTED_POOL →
        allocate api a w layout =
          Outcome.ok ((w1.vkAllocateDescriptorSets api p layout).2.1,
              { a1 with mReadyPools := a1.mReadyPools ++ [p] })
            (w1.vkAllocateDescriptorSets api p layout).2.2)
    ∧ (∀ (D : Type) (api : Driver D) (a : DescriptorAllocatorGrowable) (w : World D)
        (layout : VkDescriptorSetLayout) (ds : VkDescriptorSet)
        (a2 : DescriptorAllocatorGrowable) (w2 : World D),
        allocate api a w layout = Outcome.ok (ds, a2) w2 →
        (∃ p r, attempts (newCalls w w2) = [(p, r)]
            ∧ r ≠ VK_ERROR_OUT_OF_POOL_MEMORY ∧ r ≠ VK_ERROR_FRAGMENTED_POOL)
        ∨ (∃ p1 r1 p2, attempts (newCalls w w2) = [(p1, r1), (p2, VK_SUCCESS)]
            ∧ (r1 = VK_ERROR_OUT_OF_POOL_MEMORY ∨ r1 = VK_ERROR_FRAGMENTED_POOL)))
    ∧ (∀ (D : Type) (api : Driver D) (a : DescriptorAllocatorGrowable) (w : World D)
        (layout : VkDescriptorSetLayout),
        (allocate api a w layout).isOk = true ∨ (allocate api a w layout).isAbort = true) := by
  refine ⟨⟨_, _, _, _, _, rfl, rfl, rfl, rfl, ?_, rfl, rfl⟩,
    fun D api a w layout p a1 w1 => allocate_first_unchecked api a w layout p a1 w1,
    fun D api a w layout ds a2 w2 => allocate_ok_attempts api a w layout ds a2 w2,
    fun D api a w layout => allocate_not_undefined api a w layout⟩
  intro att hatt
  have hatt2 : att = (0, VK_ERROR_OUT_OF_HOST_MEMORY) := by
    simpa [newCalls, attempts] using hatt
  rw [hatt2]
  decide

/-! ### The bounds of `mSetsPerPool` under a configuration within the cap -/

/-- A pool-selection step that returns leaves `mSetsPerPool` as it was or at the clamped
double. -/
theorem get_pool_setsPerPool {D : Type} (api : Driver D) (a : DescriptorAllocatorGrowable)
    (w : World D) (p : VkDescriptorPool) (a1 : DescriptorAllocatorGrowable) (w1 : World D)
    (h : get_descriptor_allocation_pool api a w = Outcome.ok (p, a1) w1) :
    a1.mSetsPerPool = a.mSetsPerPool
      ∨ a1.mSetsPerPool = min ((a.mSetsPerPool * 2) % 2 ^ 32) 4092 := by
  cases hl : a.mReadyPools.getLast? with
  | some q =>
    simp only [get_descriptor_allocation_pool, hl] at h
    injection h with h1 h2
    injection h1 with h3 h4
    subst h4
    exact Or.inl rfl
  | none =>
    have hnil : a.mReadyPools = [] := List.getLast?_eq_none_iff.1 hl
    rw [get_pool_of_empty api a w hnil] at h
    split at h
    · injection h with h1 h2
      injection h1 with h3 h4
      subst h4
      exact Or.inr rfl
    · exact absurd h (by simp)

theorem grow_within_bounds (s t : Nat) (h1 : 1 ≤ s) (h2 : s ≤ 4092)
    (h : t = s ∨ t = min ((s * 2) % 2 ^ 32) 4092) : s ≤ t ∧ 1 ≤ t ∧ t ≤ 4092 := by
  rcases h with rfl | rfl <;> omega

/-- With `1 ≤ mSetsPerPool ≤ 4092` before a call of `allocate` that returns, the value after
it is not smaller and is within the same bounds. -/
theorem allocate_setsPerPool_bounds {D : Type} (api : Driver D)
    (a : DescriptorAllocatorGrowable) (w : World D) (layout : VkDescriptorSetLayout)
    (ds : VkDescriptorSet) (a2 : DescriptorAllocatorGrowable) (w2 : World D)
    (h : allocate api a w layout = Outcome.ok (ds, a2) w2)
    (hlo : 1 ≤ a.mSetsPerPool) (hhi : a.mSetsPerPool ≤ 4092) :
    a.mSetsPerPool ≤ a2.mSetsPerPool ∧ 1 ≤ a2.mSetsPerPool ∧ a2.mSetsPerPool ≤ 4092 := by
  cases h1 : get_descriptor_allocation_pool api a w with
  | abort w1 => simp [allocate, h1] at h
  | undefined w1 => simp [allocate, h1] at h
  | ok v w1 =>
    obtain ⟨p, a1⟩ := v
    obtain ⟨hs1, hlo1, hhi1⟩ := grow_within_bounds _ _ hlo hhi
      (get_pool_setsPerPool api a w p a1 w1 h1)
    rw [allocate_of_selected api a w layout p a1 w1 h1] at h
    split at h
    · cases h2 : get_descriptor_allocation_pool api
          { a1 with mFullPools := a1.mFullPools ++ [p] }
          (w1.vkAllocateDescriptorSets api p layout).2.2 with
      | abort w3 => rw [h2] at h; exact absurd h (by simp)
      | undefined w3 => rw [h2] at h; exact absurd h (by simp)
      | ok v2 w3 =>
        obtain ⟨p2, a3⟩ := v2
        have hsel2 := get_pool_setsPerPool api
          { a1 with mFullPools := a1.mFullPools ++ [p] }
          (w1.vkAllocateDescriptorSets api p layout).2.2 p2 a3 w3 h2
        obtain ⟨hs3, hlo3, hhi3⟩ := grow_within_bounds a1.mSetsPerPool a3.mSetsPerPool hlo1 hhi1
          hsel2
        rw [h2] at h
        simp only [] at h
        split at h
        · injection h with hv hw
          injection hv with hds ha
          subst ha
          exact ⟨Nat.le_trans hs1 hs3, hlo3, hhi3⟩
        · exact absurd h (by simp)
    · injection h with hv hw
      injection hv with hds ha
      subst ha
      exact ⟨hs1, hlo1, hhi1⟩

theorem runOps_setsPerPool_bounds {D : Type} (api : Driver D) (ops : List AllocOp) :
    ∀ (a : DescriptorAllocatorGrowable) (w : World D) (a1 : DescriptorAllocatorGrowable)
      (w1 : World D), runOps api ops a w = Outcome.ok a1 w1 →
      1 ≤ a.mSetsPerPool → a.mSetsPerPool ≤ 4092 →
      a.mSetsPerPool ≤ a1.mSetsPerPool ∧ 1 ≤ a1.mSetsPerPool ∧ a1.mSetsPerPool ≤ 4092 := by
  induction ops with
  | nil =>
    intro a w a1 w1 h hlo hhi
    simp only [runOps] at h
    injection h with ha hw
    subst ha
    exact ⟨Nat.le_refl _, hlo, hhi⟩
  | cons op ops ih =>
    intro a w a1 w1 h hlo hhi
    simp only [runOps] at h
    cases op with
    | allocate layout =>
      simp only [step] at h
      cases hal : allocate api a w layout with
      | abort w2 => rw [hal] at h; exact absurd h (by simp)
      | undefined w2 => rw [hal] at h; exact absurd h (by simp)
      | ok res w2 =>
        obtain ⟨ds, a2⟩ := res
        rw [hal] at h
        obtain ⟨hs, hlo2, hhi2⟩ := allocate_setsPerPool_bounds api a w layout ds a2 w2 hal hlo hhi
        obtain ⟨hs3, hlo3, hhi3⟩ := ih a2 w2 a1 w1 h hlo2 hhi2
        exact ⟨Nat.le_trans hs hs3, hlo3, hhi3⟩
    | clear_pools =>
      simp only [step] at h
      have hstep := ih (clear_pools api a w).1 (clear_pools api a w).2 a1 w1 h
        (by rw [clear_pools_eq]; exact hlo) (by rw [clear_pools_eq]; exact hhi)
      rw [clear_pools_eq] at hstep
      exact hstep
    | destroy_pools =>
      simp only [step] at h
      exact ih (destroy_pools api a w).1 (destroy_pools api a w).2 a1 w1 h hlo hhi

/-- C22: on the counting driver (a pool of capacity `c` serves `c` single-set allocations since
its creation or last reset), for `1 ≤ initialSetCount ≤ 4092`: every sequence of `allocate`,
`clear_pools` and `destroy_pools` calls after `init` returns, and in the state it reaches
`1 ≤ mSetsPerPool ≤ 4092`, every pool of the ready list exists on the device, is not destroyed
and has capacity at least 1, every ready pool other than the last has nothing allocated, and a
call of `allocate` returns without reaching the fatal check: either its one attempt succeeds,
or its first attempt reports pool exhaustion and its one retry succeeds. -/
theorem C22_retry_pool_has_room (c garbage : Nat) (ratios : List PoolSizeRatio) (w0 : World Sim)
    (ops : List AllocOp) (h1 : 1 ≤ c) (h2 : c ≤ 4092) :
    ∃ a w1, initThenRun Sim.driver garbage w0 c ratios ops = Outcome.ok a w1
      ∧ 1 ≤ a.mSetsPerPool ∧ a.mSetsPerPool ≤ 4092
      ∧ (∀ p ∈ a.mReadyPools, ∃ sp, w1.dev.pools[p]? = some sp ∧ sp.destroyed = false
          ∧ 1 ≤ sp.maxSets)
      ∧ (∀ p ∈ a.mReadyPools.dropLast, ∃ sp, w1.dev.pools[p]? = some sp ∧ sp.allocated = 0)
      ∧ ∀ layout, ∃ ds a2 w2, allocate Sim.driver a w1 layout = Outcome.ok (ds, a2) w2
          ∧ ((∃ p1, attempts (newCalls w1 w2) = [(p1, VK_SUCCESS)])
            ∨ ∃ p1 p2,
                attempts (newCalls w1 w2) =
                  [(p1, VK_ERROR_OUT_OF_POOL_MEMORY), (p2, VK_SUCCESS)]) := by
  obtain ⟨a0, wi, hinit, hinv0⟩ := allocInv_init garbage c ratios w0 (by omega)
  have hs0 : a0.mSetsPerPool = c := by
    rw [sim_init garbage w0 c ratios] at hinit
    injection hinit with ha hw
    rw [← ha]
  obtain ⟨a, w1, hrun, hinv⟩ := allocInv_runOps ops a0 wi hinv0
  obtain ⟨-, hlo, hhi⟩ := runOps_setsPerPool_bounds Sim.driver ops a0 wi a w1 hrun
    (by rw [hs0]; exact h1) (by rw [hs0]; exact h2)
  refine ⟨a, w1, by simp only [initThenRun, hinit]; exact hrun, hlo, hhi,
    fun p hp => hinv.usable p (List.mem_append_left _ hp), fun p hp => hinv.unused p hp,
    fun layout => ?_⟩
  obtain ⟨ds, a2, w2, halloc, -, hshape⟩ := allocInv_allocate a w1 layout hinv
  exact ⟨ds, a2, w2, halloc, hshape⟩

/-- C22 at a concrete input: `initialSetCount = 1`, then two calls of `allocate` (the second
one grows), a `clear_pools` and three more calls of `allocate`. -/
theorem C22_retry_pool_has_room_witness :
    ∃ a w1,
      initThenRun Sim.driver 0 (Sim.world (Sim.start 0 [] [])) 1 []
          [AllocOp.allocate 0, AllocOp.allocate 0, AllocOp.clear_pools, AllocOp.allocate 0,
            AllocOp.allocate 0, AllocOp.allocate 0] = Outcome.ok a w1
      ∧ 1 ≤ a.mSetsPerPool ∧ a.mSetsPerPool ≤ 4092
      ∧ (∀ p ∈ a.mReadyPools, ∃ sp, w1.dev.pools[p]? = some sp ∧ sp.destroyed = false
          ∧ 1 ≤ sp.maxSets)
      ∧ (∀ p ∈ a.mReadyPools.dropLast, ∃ sp, w1.dev.pools[p]? = some sp ∧ sp.allocated = 0)
      ∧ ∀ layout, ∃ ds a2 w2, allocate Sim.driver a w1 layout = Outcome.ok (ds, a2) w2
          ∧ ((∃ p1, attempts (newCalls w1 w2) = [(p1, VK_SUCCESS)])
            ∨ ∃ p1 p2,
                attempts (newCalls w1 w2) =
                  [(p1, VK_ERROR_OUT_OF_POOL_MEMORY), (p2, VK_SUCCESS)]) :=
  C22_retry_pool_has_room 1 0 [] (Sim.world (Sim.start 0 [] []))
    [AllocOp.allocate 0, AllocOp.allocate 0, AllocOp.clear_pools, AllocOp.allocate 0,
      AllocOp.allocate 0, AllocOp.allocate 0] (by decide) (by decide)

end Sunaba
